import Mathlib

/-! anim-vk: reference-counted resources, the resource pool and the render core builders

A shallow embedding of `src/util/resource/anv_resource_rc.h` and of the
`Build` / `OnDestroy` functions of `src/anim/render/core/*.cpp`.

Conventions of the embedding

* A C++ object is identified by its address, a `Nat`.
* `INT32` values are integers kept in the range `[-2^31, 2^31)` by `wrapINT32`
  (two's-complement wrap-around); `UINT32` values are naturals reduced
  modulo `2^32`.
* Calls of the virtual `OnDestroy` are recorded in a log, in call order.
-/

namespace anv

/-! ## Machine integers -/

/-- The number of values of a 32-bit integer, `2^32`. -/
def UINT32_SIZE : Nat := 4294967296

/-- A signed 32-bit value: reduction of an integer into `[-2^31, 2^31)`. -/
def wrapINT32 (x : Int) : Int := (x + 2147483648) % 4294967296 - 2147483648

/-- The predicate "representable as `INT32`". -/
def isINT32 (x : Int) : Prop := -2147483648 ≤ x ∧ x < 2147483648

instance (x : Int) : Decidable (isINT32 x) := by
  unfold isINT32; exact inferInstance

namespace rc

/-! ## `class resource` (anv_resource_rc.h:19-62) -/

/-- The base class `resource`: its only data member is `INT32 UseCount = 0`. -/
structure resource where
  UseCount : Int := 0
deriving DecidableEq, Repr

/-- Source: `INT32 GetUseCount( VOID ) const { return UseCount; }`. -/
def resource.GetUseCount (R : resource) : Int := R.UseCount

/-- Source: `VOID Grab( VOID ) { UseCount++; }`. -/
def resource.Grab (R : resource) : resource :=
  { R with UseCount := wrapINT32 (R.UseCount + 1) }

/-- Source: `VOID Release( VOID ) { UseCount--; }`. -/
def resource.Release (R : resource) : resource :=
  { R with UseCount := wrapINT32 (R.UseCount - 1) }

/-! ## `class pool` (anv_resource_rc.h:65-132)

The pool is a template over the resource type; what it needs from the
resources is the `UseCount` member it reads and the virtual `OnDestroy` it
calls. Both are parameters here: `UseCount w r` reads the counter of the
object at address `r` in the program state `w`, and `OnDestroy r w` is the
program state after the callback of `r` has run in `w`. -/

/-- The pool: `std::vector<resource_type *> Resources`. -/
structure pool where
  Resources : List Nat := []
deriving DecidableEq, Repr

/-- Source: `VOID Add( resource_type *Resource ) { Resources.push_back(Resource); }`. -/
def pool.Add (P : pool) (Resource : Nat) : pool :=
  { P with Resources := P.Resources ++ [Resource] }

/-- The variables of `CollectGarbage` while its loop runs, with the two logs. -/
structure sweep (σ : Type) where
  /-- the program state the callbacks act on -/
  World : σ
  /-- the vector, compacted in place -/
  Resources : List Nat
  /-- Source: `UINT32 LastFreeResourceIndex` -/
  LastFreeResourceIndex : Nat
  /-- every evaluation of `Resource->UseCount <= 0`: the resource and the value read -/
  Examined : List (Nat × Int)
  /-- every call `Resource->OnDestroy()`, in call order -/
  Destroyed : List Nat

/-- The body of the range-for of `CollectGarbage`, for the element at position
`i`; `k` counts the elements that are still to be visited.

    for (resource_type *Resource : Resources)
    {
      if (Resource->UseCount <= 0)
        Resource->OnDestroy();
      else
        Resources[LastFreeResourceIndex++] = Resource;
    }
-/
def pool.CollectGarbage.loop {σ : Type} (UseCount : σ → Nat → Int) (OnDestroy : Nat → σ → σ) :
    Nat → Nat → sweep σ → sweep σ
  | 0, _, S => S
  | k + 1, i, S =>
    match S.Resources[i]? with
    | none => S
    | some Resource =>
      let Count := UseCount S.World Resource
      if Count ≤ 0 then
        pool.CollectGarbage.loop UseCount OnDestroy k (i + 1)
          { S with
            World := OnDestroy Resource S.World
            Examined := S.Examined ++ [(Resource, Count)]
            Destroyed := S.Destroyed ++ [Resource] }
      else
        pool.CollectGarbage.loop UseCount OnDestroy k (i + 1)
          { S with
            Resources := S.Resources.set S.LastFreeResourceIndex Resource
            LastFreeResourceIndex := (S.LastFreeResourceIndex + 1) % UINT32_SIZE
            Examined := S.Examined ++ [(Resource, Count)] }

/-- What one call of a pool function leaves behind. -/
structure outcome (σ : Type) where
  /-- the program state after the call -/
  World : σ
  /-- the pool after the call -/
  Pool : pool
  /-- the `BOOL` returned -/
  Result : Bool
  /-- the use-counts read by the sweep, in order -/
  Examined : List (Nat × Int)
  /-- the `OnDestroy` calls made, in order -/
  Destroyed : List Nat

/-- Source: `BOOL CollectGarbage( VOID )`: the loop over the whole vector, then
`Resources.resize(LastFreeResourceIndex)` (a resize to a length that never
exceeds the current one, so a truncation) and
`return LastFreeResourceIndex != 0`. -/
def pool.CollectGarbage {σ : Type} (UseCount : σ → Nat → Int) (OnDestroy : Nat → σ → σ)
    (P : pool) (W : σ) : outcome σ :=
  let S := pool.CollectGarbage.loop UseCount OnDestroy P.Resources.length 0
    { World := W, Resources := P.Resources, LastFreeResourceIndex := 0,
      Examined := [], Destroyed := [] }
  { World := S.World
    Pool := { Resources := S.Resources.take S.LastFreeResourceIndex }
    Result := S.LastFreeResourceIndex != 0
    Examined := S.Examined
    Destroyed := S.Destroyed }

/-- The second loop of `Clear`: `for (resource *R : Resources) R->OnDestroy();`
over the list `Rs`, appending to the log `Log`. -/
def pool.Clear.loop {σ : Type} (OnDestroy : Nat → σ → σ) : List Nat → σ → List Nat → σ × List Nat
  | [], W, Log => (W, Log)
  | R :: Rs, W, Log => pool.Clear.loop OnDestroy Rs (OnDestroy R W) (Log ++ [R])

/-- Source: `BOOL Clear( VOID )`: `CollectGarbage()`, then `OnDestroy` on everything
that is still in `Resources`, then `return Resources.empty()`. -/
def pool.Clear {σ : Type} (UseCount : σ → Nat → Int) (OnDestroy : Nat → σ → σ)
    (P : pool) (W : σ) : outcome σ :=
  let G := pool.CollectGarbage UseCount OnDestroy P W
  let F := pool.Clear.loop OnDestroy G.Pool.Resources G.World G.Destroyed
  { World := F.1
    Pool := G.Pool
    Result := G.Pool.Resources.isEmpty
    Examined := G.Examined
    Destroyed := F.2 }

/-- The use-counts a sweep over `Rs` reads when it starts in the state `W`: the
counter of each resource is read in the state left by the `OnDestroy` calls
made for the resources before it. -/
def pool.readings {σ : Type} (UseCount : σ → Nat → Int) (OnDestroy : Nat → σ → σ) :
    List Nat → σ → List (Nat × Int)
  | [], _ => []
  | R :: Rs, W =>
    (R, UseCount W R) ::
      pool.readings UseCount OnDestroy Rs (if UseCount W R ≤ 0 then OnDestroy R W else W)

/-- The resources of a list of readings whose use-count was `> 0`. -/
def pool.live (E : List (Nat × Int)) : List Nat :=
  (E.filter (fun e => decide (0 < e.2))).map Prod.fst

/-- The resources of a list of readings whose use-count was `<= 0`. -/
def pool.dead (E : List (Nat × Int)) : List Nat :=
  (E.filter (fun e => decide (e.2 ≤ 0))).map Prod.fst

end rc

namespace render.core

/-! ## `struct flags` (anv_meta_flags.h:19-63) -/

/-- The template `flags<bits>`: one data member, `mask_type Bits`. -/
structure flags where
  Bits : Nat := 0
deriving DecidableEq, Repr

/-- Source: `constexpr flags operator&( flags F ) const { return flags(Bits & F.Bits); }`. -/
def flags.and (A F : flags) : flags := { Bits := A.Bits &&& F.Bits }

/-- Source: `constexpr flags operator|( flags F ) const { return flags(Bits | F.Bits); }`. -/
def flags.or (A F : flags) : flags := { Bits := A.Bits ||| F.Bits }

/-- Source: `constexpr operator BOOL( VOID ) const { return Bits != 0; }`. -/
def flags.toBOOL (A : flags) : Bool := A.Bits != 0

/-- The expression `A != B` on two `flags` values. The struct declares
`operator<=>` with a body (so no `operator==` is generated from it) and no
`operator==` or `operator!=`; the only viable candidate is the built-in
comparison reached through the implicit `operator BOOL` of both operands, so
the expression compares `Bits != 0` of the two sides. -/
def flags.ne (A B : flags) : Bool := A.toBOOL != B.toBOOL

/-- Source: `enum class buffer::usage : UINT32`, `eVertex = 0x1`. -/
def buffer.usage.eVertex : flags := { Bits := 1 }

/-- Source: `enum class buffer::usage : UINT32`, `eIndex = 0x2`. -/
def buffer.usage.eIndex : flags := { Bits := 2 }

/-- Source: `enum class buffer::usage : UINT32`, `eUniform = 0x4`. -/
def buffer.usage.eUniform : flags := { Bits := 4 }

/-- Source: `enum class buffer::usage : UINT32`, `eStorage = 0x8`. -/
def buffer.usage.eStorage : flags := { Bits := 8 }

/-! ## Enumerations and builders (anv_render_core.h) -/

/-- Source: `enum class format::type`. -/
inductive format.type
  | eU8 | eU16 | eU32 | eU8Norm | eU16Norm | eU8Srgb
  | eI8 | eI16 | eI32 | eI8Norm | eI16Norm | eI32Norm
  | eF16 | eF32
deriving DecidableEq, Repr

/-- Source: `struct format`: `type Type = type::eU8Srgb; UINT8 Count = 4;` (the member
`Type` is written `Type_`). -/
structure format where
  Type_ : format.type := format.type.eU8Srgb
  Count : Nat := 4
deriving DecidableEq, Repr

/-- Source: `enum class render_pass`. -/
inductive render_pass
  | eMarker | eGeometry | eOverlay
deriving DecidableEq, Repr

/-- Source: `enum class pipeline::shader_binding_type`. -/
inductive pipeline.shader_binding_type
  | eSampledImage | eSampler | eStorageImage | eStorageBuffer | eUniformBuffer
deriving DecidableEq, Repr

/-- Source: `struct material::attached_resource`: the discriminant `IsTexture` and a
union of `resource *Resource` with the pair `{ImageView, Sampler}`; the
member `ImageView` occupies the storage of `Resource`. -/
structure material.attached_resource where
  IsTexture : Bool := false
  Resource : Nat
  Sampler : Nat
deriving DecidableEq, Repr

/-- The union member `ImageView`, which shares the storage of `Resource`. -/
def material.attached_resource.ImageView (A : material.attached_resource) : Nat := A.Resource

/-- Source: `buffer::builder`: `Size = 0`, `Usage = usage_flags(0)`. -/
structure buffer.builder where
  Size : Nat := 0
  Usage : flags := {}
deriving DecidableEq, Repr

/-- Source: `buffer::view::builder`; `System` is the parent buffer the builder is bound to. -/
structure buffer.view.builder where
  System : Nat
  Offset : Nat := 0
  Size : Nat := 0
  Usage : flags := {}
deriving DecidableEq, Repr

/-- Source: `image::builder`. -/
structure image.builder where
  Usage : flags := {}
  Extent : Nat × Nat := (0, 0)
  MipLevels : Nat := 1
  Format : format := {}
deriving DecidableEq, Repr

/-- Source: `image::view::builder`; `System` is the parent image the builder is bound to. -/
structure image.view.builder where
  System : Nat
  Format : format := {}
  BaseMipLevel : Nat := 0
  MipLevelCount : Nat := 1
deriving DecidableEq, Repr

/-- Source: `sampler::builder` (its four fields only select Vulkan enumerators). -/
structure sampler.builder where
  AddressModeU : Nat := 0
  AddressModeV : Nat := 0
  MinFilter : Nat := 1
  MagFilter : Nat := 1
deriving DecidableEq, Repr

/-- Source: `pipeline::builder`, the fields the object keeps or dispatches on. -/
structure pipeline.builder where
  RenderPass : render_pass := render_pass.eGeometry
  ShaderBindingTypes : List pipeline.shader_binding_type := []
  CullMode : flags := {}
deriving DecidableEq, Repr

/-- Source: `material::builder`; `System` is the pipeline the builder is bound to. -/
structure material.builder where
  System : Nat
  AttachedResources : List material.attached_resource := []
deriving DecidableEq, Repr

/-- Source: `primitive::builder`; `System` is the pipeline the builder is bound to;
`IndexBufferView` and `Material` default to `nullptr` (`none`). -/
structure primitive.builder where
  System : Nat
  VertexBufferViews : List Nat := []
  IndexBufferView : Option Nat := none
  Material : Option Nat := none
deriving DecidableEq, Repr

/-! ## Objects and the state of the render core -/

/-- The derived part of an object managed by a pool: the members through
which it refers to other objects or that `Build` validates against. -/
inductive object
  | buffer (Size : Nat) (Usage : flags)
  | buffer_view (Buffer : Nat) (Offset : Nat) (Size : Nat)
  | image (Usage : flags) (Format : format)
  | image_view (Image : Nat)
  | sampler
  | pipeline (RenderPass : render_pass) (ShaderBindingTypes : List pipeline.shader_binding_type)
  | material (Pipeline : Nat) (AttachedResources : List material.attached_resource)
  | primitive (Pipeline : Nat) (Material : Option Nat) (IndexBuffer : Option Nat)
      (VertexBuffers : List Nat)
deriving DecidableEq, Repr

/-- An object on the heap: its `rc::resource` base and its derived part. -/
structure managed where
  toResource : rc.resource
  Derived : object
deriving DecidableEq, Repr

/-- An operation without defined behaviour that an execution performed. The
functions below log it and go on along one of the continuations left open;
the code itself may do anything from there, for instance never return. So
what a function returns and leaves after its log of faults has grown
describes no guaranteed outcome of the code, and a statement that a call
succeeds is made together with the statement that the log has not grown. -/
inductive fault
  /-- a member access through `nullptr` -/
  | nullDereference
  /-- a member access through a pointer to no live object -/
  | deadObject (Address : Nat)
  /-- a read of `AttachedResources[Index]` outside the span -/
  | outOfBounds (Index : Nat)
deriving DecidableEq, Repr

/-- The state of `class system` as far as resources go: the live objects by
address, the two pools, and the undefined operations performed so far. -/
structure system where
  Heap : Nat → Option managed := fun _ => none
  ResourcePool : rc.pool := {}
  PrimitivePool : rc.pool := {}
  Faults : List fault := []

/-! ## Heap operations -/

/-- The `new` expression: an object with a fresh base (`UseCount = 0`) and the
given derived part is placed at `Address`, the address the allocator returns. -/
def system.operator_new (S : system) (Address : Nat) (Derived : object) : system :=
  { S with Heap := Function.update S.Heap Address (some { toResource := {}, Derived := Derived }) }

/-- The statement `delete this`: the object at `Address` is no longer live. -/
def system.operator_delete (S : system) (Address : Nat) : system :=
  { S with Heap := Function.update S.Heap Address none }

/-- Assignment to the derived members of the live object at `Address`. -/
def system.assign (S : system) (Address : Nat) (Derived : object) : system :=
  match S.Heap Address with
  | some M => { S with Heap := Function.update S.Heap Address (some { M with Derived := Derived }) }
  | none => { S with Faults := S.Faults ++ [fault.deadObject Address] }

/-- A read of a member of the object at `Address`. -/
def system.read (S : system) (Address : Nat) : system :=
  match S.Heap Address with
  | some _ => S
  | none => { S with Faults := S.Faults ++ [fault.deadObject Address] }

/-- The call `Address->Grab()`. -/
def system.Grab (S : system) (Address : Nat) : system :=
  match S.Heap Address with
  | some M =>
    { S with Heap := Function.update S.Heap Address (some { M with toResource := M.toResource.Grab }) }
  | none => { S with Faults := S.Faults ++ [fault.deadObject Address] }

/-- The call `Address->Release()`. -/
def system.Release (S : system) (Address : Nat) : system :=
  match S.Heap Address with
  | some M =>
    { S with
      Heap := Function.update S.Heap Address (some { M with toResource := M.toResource.Release }) }
  | none => { S with Faults := S.Faults ++ [fault.deadObject Address] }

/-- The call `Pointer->Grab()` through a pointer that may be `nullptr`. -/
def system.GrabPointer (S : system) : Option Nat → system
  | some Address => S.Grab Address
  | none => { S with Faults := S.Faults ++ [fault.nullDereference] }

/-- The call `Pointer->Release()` through a pointer that may be `nullptr`. -/
def system.ReleasePointer (S : system) : Option Nat → system
  | some Address => S.Release Address
  | none => { S with Faults := S.Faults ++ [fault.nullDereference] }

/-- The call `Address->GetUseCount()`; the counter the pool reads. -/
def system.GetUseCount (S : system) (Address : Nat) : Int :=
  match S.Heap Address with
  | some M => M.toResource.GetUseCount
  | none => 0

/-- The record of an undefined operation. -/
def system.fail (S : system) (F : fault) : system :=
  { S with Faults := S.Faults ++ [F] }

/-! ## `attached_resource::Grab` / `Release` (anv_render_core.h:557-577) -/

/-- Source: `VOID Grab( VOID )`: `Sampler->Grab(); ImageView->Grab();` for a texture,
`Resource->Grab()` otherwise. -/
def material.attached_resource.Grab (S : system) (A : material.attached_resource) : system :=
  if A.IsTexture then (S.Grab A.Sampler).Grab A.ImageView else S.Grab A.Resource

/-- Source: `VOID Release( VOID )`: `Sampler->Release(); ImageView->Release();` for a
texture, `Resource->Release()` otherwise. -/
def material.attached_resource.Release (S : system) (A : material.attached_resource) : system :=
  if A.IsTexture then (S.Release A.Sampler).Release A.ImageView else S.Release A.Resource

/-! ## Buffers (anv_render_core_buffer.cpp) -/

/-- Source: `buffer * system::Build( buffer::builder &Builder )`. `Created` is whether
`vmaCreateBuffer` returned `VK_SUCCESS`, `New` the address of `new buffer(this)`. -/
def system.Build_buffer (S : system) (Builder : buffer.builder) (Created : Bool) (New : Nat) :
    Option Nat × system :=
  if Created then
    let S := S.operator_new New (object.buffer Builder.Size Builder.Usage)
    let S := { S with ResourcePool := S.ResourcePool.Add New }
    (some New, S)
  else
    (none, S)

/-- Source: `buffer::view * buffer::Build( view::builder &Builder )` on the buffer at
`This`; `New` is the address of `new view(this, Builder.Offset, Builder.Size)`,
whose constructor runs `Buffer->Grab()`. -/
def buffer.Build (S : system) (This : Nat) (Builder : buffer.view.builder) (New : Nat) :
    Option Nat × system :=
  match S.Heap This with
  | some { toResource := _, Derived := object.buffer _ Usage } =>
    if flags.ne (Usage.and Builder.Usage) Builder.Usage then
      (none, S)
    else
      let S := S.operator_new New (object.buffer_view This Builder.Offset Builder.Size)
      let S := S.Grab This
      let S := S.Grab New
      let S := { S with ResourcePool := S.ResourcePool.Add New }
      (some New, S)
  | _ => (none, S.fail (fault.deadObject This))

/-- Source: `ANV_BUILDER_IMPL(buffer::view)`: `Build() { return System.Build(*this); }`. -/
def buffer.view.builder.Build (S : system) (Builder : buffer.view.builder) (New : Nat) :
    Option Nat × system :=
  buffer.Build S Builder.System Builder New

/-! ## Images (anv_render_core_image.cpp) -/

/-- Source: `image * system::Build( image::builder &Builder )`; `New` is the address of
`new image(this)`. -/
def system.Build_image (S : system) (Builder : image.builder) (New : Nat) : Option Nat × system :=
  let S := S.operator_new New (object.image Builder.Usage Builder.Format)
  let S := S.Grab New
  let S := { S with ResourcePool := S.ResourcePool.Add New }
  (some New, S)

/-- Source: `image::view * image::Build( view::builder &Builder )` on the image at
`This`; `New` is the address of `new view(Builder.System)`, whose constructor
(anv_render_core.h:206) has an empty body. -/
def image.Build (S : system) (This : Nat) (Builder : image.view.builder) (New : Nat) :
    Option Nat × system :=
  match S.Heap This with
  | some { toResource := _, Derived := object.image _ _ } =>
    let S := S.operator_new New (object.image_view Builder.System)
    let S := { S with ResourcePool := S.ResourcePool.Add New }
    (some New, S)
  | _ => (none, S.fail (fault.deadObject This))

/-- The terminal `Build()` of `image::view::builder`: `System.Build(*this)`. -/
def image.view.builder.Build (S : system) (Builder : image.view.builder) (New : Nat) :
    Option Nat × system :=
  image.Build S Builder.System Builder New

/-! ## Samplers (anv_render_core_sampler.cpp) -/

/-- Source: `sampler * system::Build( sampler::builder &Builder )`; `New` is the
address of `new sampler(this)`. -/
def system.Build_sampler (S : system) (_Builder : sampler.builder) (New : Nat) :
    Option Nat × system :=
  let S := S.operator_new New object.sampler
  let S := S.Grab New
  let S := { S with ResourcePool := S.ResourcePool.Add New }
  (some New, S)

/-! ## Pipelines (anv_render_core_pipeline.cpp) -/

/-- Source: `pipeline * system::Build( pipeline::builder &Builder )`. `New` is the
address of `new pipeline(*this)`, `Compiled` whether `createGraphicsPipeline`
returned `eSuccess`. The function copies `ShaderBindingTypes` into the result
and never assigns the member `RenderPass`, which keeps the indeterminate
value `Indeterminate` it has after the constructor. -/
def system.Build_pipeline (S : system) (Builder : pipeline.builder) (Compiled : Bool) (New : Nat)
    (Indeterminate : render_pass) : Option Nat × system :=
  let S := S.operator_new New (object.pipeline Indeterminate Builder.ShaderBindingTypes)
  if Compiled then
    let S := S.Grab New
    let S := { S with ResourcePool := S.ResourcePool.Add New }
    (some New, S)
  else
    (none, S.operator_delete New)

/-! ## Materials (anv_render_core_material.cpp) -/

/-- The loop `for (UINT32 bi = 0; bi < ShaderBindingTypes.size(); bi++)` of
`pipeline::Build( material::builder & )`, over the binding types still to be
visited. Every case of the `switch` reads `Builder.AttachedResources[bi]`
first; a read at an index outside the span is recorded and yields `Beyond`,
whatever lies behind the span. The case `eSampledImage` reads the handles of
the sampler and of the image view and grabs both; the other cases read a
member of the resource. (The two `push_back` into `Result->AttachedResources`
are overwritten by the assignment that follows the loop.) -/
def pipeline.Build_material.loop (Builder : material.builder) (Beyond : material.attached_resource) :
    List pipeline.shader_binding_type → Nat → system → system
  | [], _, S => S
  | BindingType :: Rest, bi, S =>
    let Slot := (Builder.AttachedResources[bi]?).getD Beyond
    let S := if bi < Builder.AttachedResources.length then S else S.fail (fault.outOfBounds bi)
    let S :=
      match BindingType with
      | pipeline.shader_binding_type.eSampledImage =>
        ((((S.read Slot.ImageView).read Slot.Sampler).Grab Slot.Sampler).Grab Slot.ImageView)
      | pipeline.shader_binding_type.eSampler => S.read Slot.Resource
      | pipeline.shader_binding_type.eStorageImage => S.read Slot.Resource
      | pipeline.shader_binding_type.eStorageBuffer => S.read Slot.Resource
      | pipeline.shader_binding_type.eUniformBuffer => S.read Slot.Resource
    pipeline.Build_material.loop Builder Beyond Rest (bi + 1) S

/-- Source: `material * pipeline::Build( material::builder &Builder )` on the pipeline
at `This`. `New` is the address of `new material(*this)`, whose constructor
runs `Pipeline.Grab()`. After the loop over the binding types the attached
resources of the builder are copied into the result and each is grabbed;
then `System.ResourcePool.Add(Result); return Result;`. -/
def pipeline.Build_material (S : system) (This : Nat) (Builder : material.builder) (New : Nat)
    (Beyond : material.attached_resource) : Option Nat × system :=
  match S.Heap This with
  | some { toResource := _, Derived := object.pipeline _ ShaderBindingTypes } =>
    let S := S.operator_new New (object.material This [])
    let S := S.Grab This
    let S := pipeline.Build_material.loop Builder Beyond ShaderBindingTypes 0 S
    let S := S.assign New (object.material This Builder.AttachedResources)
    let S := Builder.AttachedResources.foldl material.attached_resource.Grab S
    let S := { S with ResourcePool := S.ResourcePool.Add New }
    (some New, S)
  | _ => (none, S.fail (fault.deadObject This))

/-- The terminal `Build()` of `material::builder`: `System.Build(*this)`. -/
def material.builder.Build (S : system) (Builder : material.builder) (New : Nat)
    (Beyond : material.attached_resource) : Option Nat × system :=
  pipeline.Build_material S Builder.System Builder New Beyond

/-! ## Primitives (anv_render_core_primitive.cpp) -/

/-- Source: `primitive * pipeline::Build( primitive::builder &Builder )` on the pipeline
at `This`. `New` is the address of `new primitive(*this)`, whose constructor
runs `Pipeline.Grab()`; then the three members are copied from the builder,
`Result->IndexBuffer->Grab()`, a `Grab` for each vertex buffer,
`Result->Material->Grab()`, and `System.PrimitivePool.Add(Result)`. -/
def pipeline.Build_primitive (S : system) (This : Nat) (Builder : primitive.builder) (New : Nat) :
    Option Nat × system :=
  match S.Heap This with
  | some { toResource := _, Derived := object.pipeline _ _ } =>
    let S := S.operator_new New (object.primitive This none none [])
    let S := S.Grab This
    let S := S.assign New
      (object.primitive This Builder.Material Builder.IndexBufferView Builder.VertexBufferViews)
    let S := S.GrabPointer Builder.IndexBufferView
    let S := Builder.VertexBufferViews.foldl system.Grab S
    let S := S.GrabPointer Builder.Material
    let S := { S with PrimitivePool := S.PrimitivePool.Add New }
    (some New, S)
  | _ => (none, S.fail (fault.deadObject This))

/-- The terminal `Build()` of `primitive::builder`: `System.Build(*this)`. -/
def primitive.builder.Build (S : system) (Builder : primitive.builder) (New : Nat) :
    Option Nat × system :=
  pipeline.Build_primitive S Builder.System Builder New

/-! ## The `OnDestroy` callbacks -/

/-- The virtual `OnDestroy` of the object at `This`, by dynamic type:

* `buffer`, `image`, `sampler`, `pipeline`: destroy the Vulkan objects, `delete this`;
* `buffer::view`: `Buffer.Release(); delete this;`
* `image::view`: `Image.Release(); delete this;`
* `material`: `Release` every attached resource, `Pipeline.Release(); delete this;`
* `primitive`: `if (IndexBuffer != nullptr) IndexBuffer->Release();`, `Release`
  every vertex buffer, `Material->Release(); Pipeline.Release(); delete this;`. -/
def OnDestroy (This : Nat) (S : system) : system :=
  match S.Heap This with
  | none => S.fail (fault.deadObject This)
  | some M =>
    match M.Derived with
    | object.buffer _ _ => S.operator_delete This
    | object.image _ _ => S.operator_delete This
    | object.sampler => S.operator_delete This
    | object.pipeline _ _ => S.operator_delete This
    | object.buffer_view Buffer _ _ => (S.Release Buffer).operator_delete This
    | object.image_view Image => (S.Release Image).operator_delete This
    | object.material Pipeline AttachedResources =>
      ((AttachedResources.foldl material.attached_resource.Release S).Release
        Pipeline).operator_delete This
    | object.primitive Pipeline Material IndexBuffer VertexBuffers =>
      let S := if IndexBuffer.isSome then S.ReleasePointer IndexBuffer else S
      let S := VertexBuffers.foldl system.Release S
      let S := S.ReleasePointer Material
      (S.Release Pipeline).operator_delete This

/-- Source: `ResourcePool.CollectGarbage()` in a state of the render core. -/
def system.CollectGarbage (S : system) : rc.outcome system :=
  let G := rc.pool.CollectGarbage system.GetUseCount OnDestroy S.ResourcePool S
  { G with World := { G.World with ResourcePool := G.Pool } }

/-! ## Instances of a primitive (anv_render_core_primitive.cpp:83-106) -/

/-- The object `primitive::instance`: its `rc::resource` base and
`UINT32 Index`, the matrix index. -/
structure primitive.instance where
  toResource : rc.resource := {}
  Index : Nat := 0
deriving DecidableEq, Repr

/-- The instancing part of `class primitive`: the members
`std::vector<instance *> Instances` and `std::vector<mat4x4> Transforms`,
together with `Memory`, the instance object found at each address. -/
structure primitive (mat4x4 : Type) where
  Instances : List Nat := []
  Transforms : List mat4x4 := []
  Memory : Nat → primitive.instance := fun _ => {}

/-- Source: `primitive::instance * primitive::Instance( const mat4x4 &Transform )`;
`New` is the address of `new instance(*this, (UINT32)Instances.size())`.
Returns the handle and the primitive afterwards.

    Instances.push_back(Result);
    Transforms.push_back(Transform);
    Result->Grab();
    return Result;
-/
def primitive.Instance {mat4x4 : Type} (P : primitive mat4x4) (Transform : mat4x4) (New : Nat) :
    Nat × primitive mat4x4 :=
  let Created : primitive.instance := { toResource := {}, Index := P.Instances.length % UINT32_SIZE }
  let Memory := Function.update P.Memory New Created
  let Memory := Function.update Memory New
    { Memory New with toResource := (Memory New).toResource.Grab }
  (New, { Instances := P.Instances ++ [New], Transforms := P.Transforms ++ [Transform],
          Memory := Memory })

/-- The loop of `OnInstanceDestroy`, with `k` passes left at most:

    for (UINT32 Index = Instance->Index, N = (UINT32)Instances.size(); Index < N; Index++)
      Instances[Index]->Index = Index;
-/
def primitive.OnInstanceDestroy.loop {mat4x4 : Type} (N : Nat) :
    Nat → Nat → primitive mat4x4 → primitive mat4x4
  | 0, _, P => P
  | k + 1, Index, P =>
    if Index < N then
      match P.Instances[Index]? with
      | some Handle =>
        primitive.OnInstanceDestroy.loop N k ((Index + 1) % UINT32_SIZE)
          { P with Memory := Function.update P.Memory Handle { P.Memory Handle with Index := Index } }
      | none => P
    else P

/-- Source: `VOID primitive::OnInstanceDestroy( instance *Instance )`:

    Instances.erase(Instances.begin() + Instance->Index);
    Transforms.erase(Transforms.begin() + Instance->Index);

then the loop that updates the indices. An `erase` at a position that is not
in the vector has no defined behaviour: the result is `none` then. -/
def primitive.OnInstanceDestroy {mat4x4 : Type} (P : primitive mat4x4) (Instance : Nat) :
    Option (primitive mat4x4) :=
  let Position := (P.Memory Instance).Index
  if Position < P.Instances.length ∧ Position < P.Transforms.length then
    let P : primitive mat4x4 :=
      { P with
        Instances := P.Instances.eraseIdx Position
        Transforms := P.Transforms.eraseIdx Position }
    let N := P.Instances.length % UINT32_SIZE
    some (primitive.OnInstanceDestroy.loop N N (P.Memory Instance).Index P)
  else
    none

/-- Source: `mat4x4 primitive::instance::GetTransform( VOID )`:
`return Primitive.Transforms[Index];` (`none` outside the vector). -/
def primitive.instance.GetTransform {mat4x4 : Type} (P : primitive mat4x4) (This : Nat) :
    Option mat4x4 :=
  P.Transforms[(P.Memory This).Index]?

/-- The states of a primitive after a sequence of instance creations and
destructions: a primitive starts without instances (`pipeline::Build` leaves
both vectors empty); `Instance` is called while the number of instances fits
a `UINT32`, `new` giving an address that no handle in use has; and
`OnInstanceDestroy` is called on a handle the primitive holds. -/
inductive primitive.reachable {mat4x4 : Type} : primitive mat4x4 → Prop
  | built (Memory : Nat → primitive.instance) :
    primitive.reachable { Instances := [], Transforms := [], Memory := Memory }
  | Instance (P : primitive mat4x4) (Transform : mat4x4) (New : Nat) :
    primitive.reachable P → New ∉ P.Instances → P.Instances.length < UINT32_SIZE →
    primitive.reachable (P.Instance Transform New).2
  | OnInstanceDestroy (P Q : primitive mat4x4) (Handle : Nat) :
    primitive.reachable P → Handle ∈ P.Instances → P.OnInstanceDestroy Handle = some Q →
    primitive.reachable Q

/-- The well-formedness of the instancing part of a primitive: no handle is
held twice, the two vectors have the same length, which fits a `UINT32`
count, and every handle stores its own position. -/
def primitive.consistent {mat4x4 : Type} (P : primitive mat4x4) : Prop :=
  P.Instances.Nodup ∧ P.Instances.length = P.Transforms.length ∧
  P.Instances.length ≤ UINT32_SIZE ∧
  ∀ (i Handle : Nat), P.Instances[i]? = some Handle → (P.Memory Handle).Index = i

/-- The object at `Address` is live, has the derived part `Derived` and the
use-count `Count`. -/
def system.holds (S : system) (Address : Nat) (Derived : object) (Count : Int) : Prop :=
  S.Heap Address = some { toResource := { UseCount := Count }, Derived := Derived }

/-- The number of references a primitive builder bound to the pipeline at
`This` makes to the object at `Address`: one for the pipeline, one for the
material, one for the index buffer and one for each occurrence among the
vertex buffers. -/
def primitive.builder.references (This : Nat) (Builder : primitive.builder) (Address : Nat) : Int :=
  (if This = Address then 1 else 0) + (if Builder.IndexBufferView = some Address then 1 else 0)
    + (Builder.VertexBufferViews.count Address : Int)
    + (if Builder.Material = some Address then 1 else 0)

/-! ## The descriptor-set layout of a pipeline (anv_render_core_pipeline.cpp:10-84) -/

/-- The enumerators of `vk::DescriptorType` that the render core uses, and
`eCombinedImageSampler`. -/
inductive vk.DescriptorType
  | eSampler | eCombinedImageSampler | eSampledImage | eStorageImage
  | eUniformBuffer | eStorageBuffer
deriving DecidableEq, Repr

/-- The values of `vk::ShaderStageFlags` that occur: none, and `eAllGraphics`. -/
inductive vk.ShaderStageFlags
  | eNone | eAllGraphics
deriving DecidableEq, Repr

/-- The fields of `vk::DescriptorSetLayoutBinding` that `Build` sets. -/
structure vk.DescriptorSetLayoutBinding where
  binding : Nat := 0
  descriptorType : vk.DescriptorType := vk.DescriptorType.eSampler
  descriptorCount : Nat := 0
  stageFlags : vk.ShaderStageFlags := vk.ShaderStageFlags.eNone
deriving DecidableEq, Repr

/-- The cast `(UINT32)Type` of a `pipeline::shader_binding_type`: the position
of the enumerator in the declaration. -/
def pipeline.shader_binding_type.toUINT32 : pipeline.shader_binding_type → Nat
  | pipeline.shader_binding_type.eSampledImage => 0
  | pipeline.shader_binding_type.eSampler => 1
  | pipeline.shader_binding_type.eStorageImage => 2
  | pipeline.shader_binding_type.eStorageBuffer => 3
  | pipeline.shader_binding_type.eUniformBuffer => 4

/-- Source: `vk::DescriptorType TranslateShaderBindingType( pipeline::shader_binding_type Type )`,
the element at position `(UINT32)Type` of the array
`{eSampledImage, eSampler, eStorageImage, eStorageBuffer, eUniformBuffer}`. -/
def TranslateShaderBindingType (Type_ : pipeline.shader_binding_type) : vk.DescriptorType :=
  ([vk.DescriptorType.eSampledImage, vk.DescriptorType.eSampler,
    vk.DescriptorType.eStorageImage, vk.DescriptorType.eStorageBuffer,
    vk.DescriptorType.eUniformBuffer][Type_.toUINT32]?).getD vk.DescriptorType.eSampler

/-- The loop of `system::Build( pipeline::builder & )` that fills `Bindings`,
over the binding types still to be visited, with `UINT32 BindingIndex`:

    for (auto BindingType : Builder.ShaderBindingTypes)
      Bindings.push_back(vk::DescriptorSetLayoutBinding()
        .setBinding(BindingIndex++)
        .setDescriptorCount(1)
        .setDescriptorType(TranslateShaderBindingType(BindingType))
        .setStageFlags(vk::ShaderStageFlagBits::eAllGraphics));
-/
def system.Build_pipeline.Bindings.loop :
    List pipeline.shader_binding_type → Nat → List vk.DescriptorSetLayoutBinding →
    List vk.DescriptorSetLayoutBinding
  | [], _, Bindings => Bindings
  | BindingType :: Rest, BindingIndex, Bindings =>
    system.Build_pipeline.Bindings.loop Rest ((BindingIndex + 1) % UINT32_SIZE)
      (Bindings ++
        [{ binding := BindingIndex
           descriptorCount := 1
           descriptorType := TranslateShaderBindingType BindingType
           stageFlags := vk.ShaderStageFlags.eAllGraphics }])

/-- The bindings that `system::Build( pipeline::builder & )` passes to
`Device.createDescriptorSetLayout`, whose result becomes
`Result->DescriptorSetLayout`. -/
def system.Build_pipeline.Bindings (Builder : pipeline.builder) :
    List vk.DescriptorSetLayoutBinding :=
  system.Build_pipeline.Bindings.loop Builder.ShaderBindingTypes 0 []

/-! ## The render thread (anv_render_core.cpp:492-636) -/

/-- What a call of `Device.acquireNextImageKHR` does: it returns the index of
an image, or throws `vk::OutOfDateKHRError`, or throws another exception. -/
inductive acquire_result
  | image (Index : Nat)
  | outOfDate
  | error
deriving DecidableEq, Repr

/-- What a call of `GraphicsQueue.presentKHR` does: it returns, or throws
`vk::OutOfDateKHRError`, or throws another exception. -/
inductive present_result
  | presented
  | outOfDate
  | error
deriving DecidableEq, Repr

/-- What the environment does during one pass of the loop: `Stop` tells
whether the owner has stored `FALSE` into `DoRender` before the loop reads
it; `Acquire` and `Present` are the outcomes of the two calls. -/
structure frame_input where
  Stop : Bool := false
  Acquire : acquire_result := acquire_result.image 0
  Present : present_result := present_result.presented
deriving DecidableEq, Repr

/-- The three secondary command buffers of `class system`. -/
inductive subpass_buffer
  | MarkerCommandBuffer | GeometryCommandBuffer | OverlayCommandBuffer
deriving DecidableEq, Repr

/-- Source: `vk::SubpassContents`. -/
inductive vk.SubpassContents
  | eInline | eSecondaryCommandBuffers
deriving DecidableEq, Repr

/-- A command recorded into a command buffer. -/
inductive command
  /-- a draw of the primitive at `Primitive` -/
  | draw (Primitive : Nat)
  /-- the call `beginRenderPass` on the framebuffer of the frame `Frame` -/
  | beginRenderPass (Frame : Nat) (Contents : vk.SubpassContents)
  /-- the call `executeCommands(Buffer)` -/
  | executeCommands (Buffer : subpass_buffer)
  /-- the call `nextSubpass(Contents)` -/
  | nextSubpass (Contents : vk.SubpassContents)
  /-- the call `endRenderPass()` -/
  | endRenderPass
deriving DecidableEq, Repr

/-- A step of the render thread that is visible outside it. -/
inductive call
  /-- the call `Device.waitForFences(RenderFinishedFence, ...)` -/
  | waitForFences
  /-- the call `Device.waitIdle()` -/
  | waitIdle
  /-- the call `PrimitivePool.CollectGarbage()` -/
  | CollectGarbage_PrimitivePool
  /-- the call `ResourcePool.CollectGarbage()` -/
  | CollectGarbage_ResourcePool
  /-- the call `Device.acquireNextImageKHR(...)` -/
  | acquireNextImageKHR
  /-- the call `Device.resetFences(RenderFinishedFence)` -/
  | resetFences
  /-- the reset and the recording of the three secondary command buffers -/
  | recordSubpasses
  /-- the reset and the recording of `MainCommandBuffer` -/
  | recordPrimary
  /-- the call `GraphicsQueue.submit(...)` -/
  | submit
  /-- the call `GraphicsQueue.presentKHR(...)` -/
  | presentKHR
  /-- the store `DoRender = FALSE` -/
  | store_DoRender_FALSE
  /-- the statement `GlobalFrameIndex++` -/
  | increment_GlobalFrameIndex
  /-- the return of `RenderThread.join()` in the destructor -/
  | join
  /-- the call `PrimitivePool.Clear()` -/
  | Clear_PrimitivePool
  /-- the call `ResourcePool.Clear()` -/
  | Clear_ResourcePool
deriving DecidableEq, Repr

/-- Where the function `StartRendering` is: in its loop, returned, or left by
an exception. -/
inductive thread_status
  | running | returned | thrown
deriving DecidableEq, Repr

/-- The state the render thread works on: the resources, the `Instances`
vector of the primitive at each address, the flag `DoRender`, the counter
`std::atomic_int32_t GlobalFrameIndex`, the contents of the four command
buffers, and the calls made so far. -/
structure render_thread where
  System : system := {}
  Instances : Nat → List Nat := fun _ => []
  DoRender : Bool := true
  GlobalFrameIndex : Int := 0
  Status : thread_status := thread_status.running
  Calls : List call := []
  MarkerCommandBuffer : List command := []
  GeometryCommandBuffer : List command := []
  OverlayCommandBuffer : List command := []
  MainCommandBuffer : List command := []

/-- The record of a call. -/
def render_thread.call (T : render_thread) (C : call) : render_thread :=
  { T with Calls := T.Calls ++ [C] }

/-- Source: `PrimitivePool.CollectGarbage()` in a state of the render core. -/
def system.CollectGarbage_PrimitivePool (S : system) : system :=
  let G := rc.pool.CollectGarbage system.GetUseCount OnDestroy S.PrimitivePool S
  { G.World with PrimitivePool := G.Pool }

/-- Source: `ResourcePool.CollectGarbage()`, the state it leaves. -/
def system.CollectGarbage_ResourcePool (S : system) : system :=
  S.CollectGarbage.World

/-- The member `Pipeline.RenderPass` of the primitive at `Primitive`. -/
def system.RenderPass (S : system) (Primitive : Nat) : Option render_pass :=
  match S.Heap Primitive with
  | some { toResource := _, Derived := object.primitive Pipeline _ _ _ } =>
    match S.Heap Pipeline with
    | some { toResource := _, Derived := object.pipeline RenderPass _ } => some RenderPass
    | _ => none
  | _ => none

/-- The member `IndexBuffer` of the primitive at `Primitive`. -/
def system.IndexBuffer (S : system) (Primitive : Nat) : Option Nat :=
  match S.Heap Primitive with
  | some { toResource := _, Derived := object.primitive _ _ IndexBuffer _ } => IndexBuffer
  | _ => none

/-- The loop of `StartRendering` over the primitive pool, for the primitives
still to be visited:

    for (primitive *Primitive : PrimitivePool)
      if (!Primitive->Instances.empty())
      {
        switch (Primitive->Pipeline.RenderPass)
        {
        case render_pass::eMarker:   break;
        case render_pass::eGeometry: break;
        case render_pass::eOverlay:  break;
        }
        if (Primitive->IndexBuffer != nullptr)
          ;
      }

Every case of the `switch` is an empty `break` and the last `if` guards an
empty statement. -/
def system.StartRendering.record : List Nat → render_thread → render_thread
  | [], T => T
  | Primitive :: Rest, T =>
    let T :=
      if !(T.Instances Primitive).isEmpty then
        let T :=
          match T.System.RenderPass Primitive with
          | some render_pass.eMarker => T
          | some render_pass.eGeometry => T
          | some render_pass.eOverlay => T
          | none => T
        if (T.System.IndexBuffer Primitive).isSome then T else T
      else T
    system.StartRendering.record Rest T

/-- The commands `StartRendering` records into `MainCommandBuffer` for the
frame `Index`, from `beginRenderPass` to `endRenderPass`. -/
def system.StartRendering.primary (Index : Nat) : List command :=
  [command.beginRenderPass Index vk.SubpassContents.eSecondaryCommandBuffers,
   command.executeCommands subpass_buffer.MarkerCommandBuffer,
   command.nextSubpass vk.SubpassContents.eSecondaryCommandBuffers,
   command.executeCommands subpass_buffer.GeometryCommandBuffer,
   command.nextSubpass vk.SubpassContents.eInline,
   command.nextSubpass vk.SubpassContents.eSecondaryCommandBuffers,
   command.executeCommands subpass_buffer.OverlayCommandBuffer,
   command.endRenderPass]

/-- The `catch (vk::OutOfDateKHRError &)` blocks: `DoRender = FALSE; return;`. -/
def render_thread.stop (T : render_thread) : render_thread :=
  { T.call call.store_DoRender_FALSE with DoRender := false, Status := thread_status.returned }

/-- One pass of the body of `while (DoRender)` in `StartRendering`: the wait
on the fence; on a frame index that is a multiple of 1000, `waitIdle` and
the two sweeps; the acquisition of an image, whose `OutOfDateKHRError` is
caught by `DoRender = FALSE; return;`; the reset of the fence; the reset
and the recording of the three secondary buffers and of the primary buffer;
the submission; the presentation, with the same `catch`; and
`GlobalFrameIndex++`. Calls other than the acquisition and the presentation
are taken to return normally. -/
def system.StartRendering.iteration (In : frame_input) (T : render_thread) : render_thread :=
  let T := T.call call.waitForFences
  let T :=
    if Int.tmod T.GlobalFrameIndex 1000 == 0 then
      let T := T.call call.waitIdle
      let T := { T.call call.CollectGarbage_PrimitivePool with
                 System := T.System.CollectGarbage_PrimitivePool }
      { T.call call.CollectGarbage_ResourcePool with
        System := T.System.CollectGarbage_ResourcePool }
    else T
  let T := T.call call.acquireNextImageKHR
  match In.Acquire with
  | acquire_result.outOfDate => T.stop
  | acquire_result.error => { T with Status := thread_status.thrown }
  | acquire_result.image Index =>
    let T := T.call call.resetFences
    let T := { T.call call.recordSubpasses with
               MarkerCommandBuffer := [], GeometryCommandBuffer := [],
               OverlayCommandBuffer := [] }
    let T := system.StartRendering.record T.System.PrimitivePool.Resources T
    let T := { T.call call.recordPrimary with
               MainCommandBuffer := system.StartRendering.primary Index }
    let T := T.call call.submit
    let T := T.call call.presentKHR
    match In.Present with
    | present_result.outOfDate => T.stop
    | present_result.error => { T with Status := thread_status.thrown }
    | present_result.presented =>
      { T.call call.increment_GlobalFrameIndex with
        GlobalFrameIndex := wrapINT32 (T.GlobalFrameIndex + 1) }

/-- Source: `VOID system::StartRendering( VOID )`, run against the inputs of the
environment for the passes to come: `while (DoRender)` reads the flag, which
the owner may have cleared; the loop goes on while the pass neither returns
nor throws. When the inputs are used up the thread is still running. -/
def system.StartRendering : List frame_input → render_thread → render_thread
  | [], T => T
  | In :: Rest, T =>
    match T.Status with
    | thread_status.running =>
      let T := if In.Stop then { T with DoRender := false } else T
      if T.DoRender then
        system.StartRendering Rest (system.StartRendering.iteration In T)
      else
        { T with Status := thread_status.returned }
    | _ => T

/-! ## The frame contexts (anv_render_core.cpp:375-432, anv_render_core.h:786-852) -/

/-- Source: `struct attachment_image`, its Vulkan image and image view (handles
are numbers, 0 the null handle). -/
structure system.attachment_image where
  Image : Nat := 0
  View : Nat := 0
deriving DecidableEq, Repr

/-- The five attachment images of `class system`. -/
structure system.attachment_images where
  PositionObjectID : system.attachment_image := {}
  Normal : system.attachment_image := {}
  BaseColorAmbientOcclusion : system.attachment_image := {}
  MetallicRoughnessInstance : system.attachment_image := {}
  Depth : system.attachment_image := {}
deriving DecidableEq, Repr

/-- Source: `struct frame_context`; `Framebuffer` is given by the attachment
views the framebuffer was created with (none for the null handle). -/
structure system.frame_context where
  SwapchainImage : Nat := 0
  SwapchainImageView : Nat := 0
  Framebuffer : List Nat := []
deriving DecidableEq, Repr

/-- Source: `constexpr static UINT32 PositionObjectIDAttachmentIndex = 0;`. -/
def system.PositionObjectIDAttachmentIndex : Nat := 0

/-- Source: `constexpr static UINT32 NormalAttachmentIndex = 1;`. -/
def system.NormalAttachmentIndex : Nat := 1

/-- Source: `constexpr static UINT32 BaseColorAmbientOcclusionAttachmentIndex = 2;`. -/
def system.BaseColorAmbientOcclusionAttachmentIndex : Nat := 2

/-- Source: `constexpr static UINT32 MetallicRoughnessInstanceAttachmentIndex = 3;`. -/
def system.MetallicRoughnessInstanceAttachmentIndex : Nat := 3

/-- Source: `constexpr static UINT32 DepthAttachmentIndex = 4;`. -/
def system.DepthAttachmentIndex : Nat := 4

/-- Source: `constexpr static UINT32 OutputAttachmentIndex = 5;`. -/
def system.OutputAttachmentIndex : Nat := 5

/-- The body of the loop of the constructor over the frames, for the frame
`i`: `createImageView Image` is the handle `Device.createImageView` returns
for a view of `Image`.

    Frame.SwapchainImage = SwapchainImages[i];
    Frame.SwapchainImageView = Device.createImageView(... .setImage(Frame.SwapchainImage) ...);
    vk::ImageView ImageViews[]
    {
      PositionObjectID.View, Normal.View, BaseColorAmbientOcclusion.View,
      MetallicRoughnessInstance.View, Depth.View, Frame.SwapchainImageView,
    };
    Frame.Framebuffer = Device.createFramebuffer(... .setAttachments(ImageViews) ...);
-/
def system.constructor.Frame (SwapchainImages : List Nat) (createImageView : Nat → Nat)
    (A : system.attachment_images) (i : Nat) : system.frame_context :=
  let SwapchainImage := (SwapchainImages[i]?).getD 0
  let SwapchainImageView := createImageView SwapchainImage
  { SwapchainImage := SwapchainImage
    SwapchainImageView := SwapchainImageView
    Framebuffer :=
      [A.PositionObjectID.View, A.Normal.View, A.BaseColorAmbientOcclusion.View,
       A.MetallicRoughnessInstance.View, A.Depth.View, SwapchainImageView] }

/-- The loop `for (UINT32 i = 0; i < Frames.size(); i++)` of the constructor,
with `k` passes left at most. -/
def system.constructor.Frames.loop (SwapchainImages : List Nat) (createImageView : Nat → Nat)
    (A : system.attachment_images) : Nat → Nat → List system.frame_context →
    List system.frame_context
  | 0, _, Frames => Frames
  | k + 1, i, Frames =>
    if i < Frames.length then
      system.constructor.Frames.loop SwapchainImages createImageView A k ((i + 1) % UINT32_SIZE)
        (Frames.set i (system.constructor.Frame SwapchainImages createImageView A i))
    else Frames

/-- The frame contexts the constructor `system::system` builds for the images
`SwapchainImages` of the swapchain: `Frames.resize(SwapchainImages.size())`,
then the loop over the frames. -/
def system.constructor.Frames (SwapchainImages : List Nat) (createImageView : Nat → Nat)
    (A : system.attachment_images) : List system.frame_context :=
  system.constructor.Frames.loop SwapchainImages createImageView A (SwapchainImages.length + 1) 0
    (List.replicate SwapchainImages.length {})

/-! ## The subpass of a stage (anv_render_core.cpp:643-646, anv_render_core.h:823-826) -/

/-- Source: `(UINT32)Pass` for an enumerator of `enum class render_pass`
(`eMarker`, `eGeometry`, `eOverlay`, numbered from 0). -/
def render_pass.toUINT32 : render_pass → Nat
  | render_pass.eMarker => 0
  | render_pass.eGeometry => 1
  | render_pass.eOverlay => 2

/-- Source: `UINT32 system::GetRenderPassSubpassIndex( render_pass Pass )`:
`return std::array{0, 1, 3}[(UINT32)Pass];`. -/
def system.GetRenderPassSubpassIndex (Pass : render_pass) : Nat :=
  ([0, 1, 3][Pass.toUINT32]?).getD 0

/-- Source: `constexpr static UINT32 MarkerSubpassIndex = 0;`. -/
def system.MarkerSubpassIndex : Nat := 0

/-- Source: `constexpr static UINT32 GeometrySubpassIndex = 1;`. -/
def system.GeometrySubpassIndex : Nat := 1

/-- Source: `constexpr static UINT32 ShadingSubpassIndex = 2;`. -/
def system.ShadingSubpassIndex : Nat := 2

/-- Source: `constexpr static UINT32 OverlaySubpassIndex = 3;`. -/
def system.OverlaySubpassIndex : Nat := 3

/-- The stage a secondary command buffer of `class system` belongs to
(anv_render_core.h: "Marker render subpass command buffer", "Geometry render
subpass command buffer", "Overlay render subpass command buffer"). -/
def subpass_buffer.Pass : subpass_buffer → render_pass
  | subpass_buffer.MarkerCommandBuffer => render_pass.eMarker
  | subpass_buffer.GeometryCommandBuffer => render_pass.eGeometry
  | subpass_buffer.OverlayCommandBuffer => render_pass.eOverlay

/-- The secondary buffers that a list of commands of a primary buffer
executes, each with the index of the subpass that is current at its
`executeCommands`, when the list is replayed from the subpass `Subpass`:
`beginRenderPass` starts the subpass 0 and every `nextSubpass` moves on to
the next one. -/
def vk.executions : Nat → List command → List (subpass_buffer × Nat)
  | _, [] => []
  | _, command.beginRenderPass _ _ :: Rest => vk.executions 0 Rest
  | Subpass, command.nextSubpass _ :: Rest => vk.executions (Subpass + 1) Rest
  | Subpass, command.executeCommands Buffer :: Rest =>
    (Buffer, Subpass) :: vk.executions Subpass Rest
  | Subpass, command.draw _ :: Rest => vk.executions Subpass Rest
  | Subpass, command.endRenderPass :: Rest => vk.executions Subpass Rest

/-! ## The destructor (anv_render_core.cpp:439-448) -/

/-- Source: `PrimitivePool.Clear()` in a state of the render core. -/
def system.Clear_PrimitivePool (S : system) : system :=
  let G := rc.pool.Clear system.GetUseCount OnDestroy S.PrimitivePool S
  { G.World with PrimitivePool := G.Pool }

/-- Source: `ResourcePool.Clear()` in a state of the render core, with the logs
of the call. -/
def system.Clear (S : system) : rc.outcome system :=
  let G := rc.pool.Clear system.GetUseCount OnDestroy S.ResourcePool S
  { G with World := { G.World with ResourcePool := G.Pool } }

/-- Source: `ResourcePool.Clear()`, the state it leaves. -/
def system.Clear_ResourcePool (S : system) : system :=
  S.Clear.World

/-- Source: `system::~system`, up to the two `Clear` calls, on the state `T` the
render thread is in between two passes of its loop:

    DoRender = FALSE;
    DoRender.notify_one();
    RenderThread.join();

    Device.waitIdle();

    PrimitivePool.Clear();
    ResourcePool.Clear();

After the store the render thread, if it is still in its loop, reads the
flag in `while (DoRender)` and returns; then `join` returns. -/
def system.destructor (T : render_thread) : render_thread :=
  let T := { T.call call.store_DoRender_FALSE with DoRender := false }
  let T := system.StartRendering [{}] T
  let T := T.call call.join
  let T := T.call call.waitIdle
  let T := { T.call call.Clear_PrimitivePool with System := T.System.Clear_PrimitivePool }
  { T.call call.Clear_ResourcePool with System := T.System.Clear_ResourcePool }

/-- The calls that sweep a pool. -/
def call.isSweep : call → Bool
  | call.CollectGarbage_PrimitivePool => true
  | call.CollectGarbage_ResourcePool => true
  | call.Clear_PrimitivePool => true
  | call.Clear_ResourcePool => true
  | _ => false

/-- The calls that hand work to a queue of the device. -/
def call.isQueueOperation : call → Bool
  | call.submit => true
  | call.presentKHR => true
  | _ => false

/-- One step of the scan of a list of calls: the first component tells whether
a `waitIdle` has been made with no queue operation after it, the second
whether every sweep so far was made in such a state. -/
def call.scan (State : Bool × Bool) (C : call) : Bool × Bool :=
  if C == call.waitIdle then (true, State.2)
  else if C.isQueueOperation then (false, State.2)
  else if C.isSweep then (State.1, State.1 && State.2)
  else State

/-! ## The subpasses of the render pass (anv_render_core.cpp:250-282) -/

/-- Source: `vk::ImageLayout`, the layouts the constructor names. -/
inductive vk.ImageLayout
  | eUndefined | eColorAttachmentOptimal | eDepthStencilAttachmentOptimal
  | eShaderReadOnlyOptimal | ePresentSrcKHR
deriving DecidableEq, Repr

/-- Source: `vk::AttachmentReference`. -/
structure vk.AttachmentReference where
  attachment : Nat
  layout : vk.ImageLayout
deriving DecidableEq, Repr

/-- Source: `vk::SubpassDescription`, the three attachment sets; a description
that is default-constructed has none of them. -/
structure vk.SubpassDescription where
  InputAttachments : List vk.AttachmentReference := []
  ColorAttachments : List vk.AttachmentReference := []
  PDepthStencilAttachment : Option vk.AttachmentReference := none
deriving DecidableEq, Repr

/-- Source: `vk::AttachmentReference OutputColorAttachmentReference
{OutputAttachmentIndex, vk::ImageLayout::eColorAttachmentOptimal};`. -/
def system.constructor.OutputColorAttachmentReference : vk.AttachmentReference :=
  { attachment := system.OutputAttachmentIndex, layout := vk.ImageLayout.eColorAttachmentOptimal }

/-- Source: `vk::AttachmentReference DepthAttachmentReference
{DepthAttachmentIndex, vk::ImageLayout::eDepthStencilAttachmentOptimal};`. -/
def system.constructor.DepthAttachmentReference : vk.AttachmentReference :=
  { attachment := system.DepthAttachmentIndex,
    layout := vk.ImageLayout.eDepthStencilAttachmentOptimal }

/-- Source: `vk::AttachmentReference GeometryColorAttachmentReferences[]`. -/
def system.constructor.GeometryColorAttachmentReferences : List vk.AttachmentReference :=
  [{ attachment := system.PositionObjectIDAttachmentIndex,
     layout := vk.ImageLayout.eColorAttachmentOptimal },
   { attachment := system.NormalAttachmentIndex,
     layout := vk.ImageLayout.eColorAttachmentOptimal },
   { attachment := system.BaseColorAmbientOcclusionAttachmentIndex,
     layout := vk.ImageLayout.eColorAttachmentOptimal },
   { attachment := system.MetallicRoughnessInstanceAttachmentIndex,
     layout := vk.ImageLayout.eColorAttachmentOptimal }]

/-- Source: `vk::AttachmentReference ShadingInputAttachmentReferences[]`. -/
def system.constructor.ShadingInputAttachmentReferences : List vk.AttachmentReference :=
  [{ attachment := system.PositionObjectIDAttachmentIndex,
     layout := vk.ImageLayout.eShaderReadOnlyOptimal },
   { attachment := system.NormalAttachmentIndex,
     layout := vk.ImageLayout.eShaderReadOnlyOptimal },
   { attachment := system.BaseColorAmbientOcclusionAttachmentIndex,
     layout := vk.ImageLayout.eShaderReadOnlyOptimal },
   { attachment := system.MetallicRoughnessInstanceAttachmentIndex,
     layout := vk.ImageLayout.eShaderReadOnlyOptimal }]

/-- Source: `vk::SubpassDescription Subpasses[]`, which `createRenderPass` receives
through `.setSubpasses(Subpasses)`:

    /* Marker */ vk::SubpassDescription()
      .setColorAttachments(OutputColorAttachmentReference)
      .setPDepthStencilAttachment(&DepthAttachmentReference),
    /* Geometry */ vk::SubpassDescription()
      .setColorAttachments(GeometryColorAttachmentReferences)
      .setPDepthStencilAttachment(&DepthAttachmentReference),
    /* Shading */ vk::SubpassDescription()
      .setInputAttachments(ShadingInputAttachmentReferences)
      .setColorAttachments(OutputColorAttachmentReference),
    /* Overlay */ vk::SubpassDescription()
      .setColorAttachments(OutputColorAttachmentReference),
-/
def system.constructor.Subpasses : List vk.SubpassDescription :=
  [{ ColorAttachments := [system.constructor.OutputColorAttachmentReference],
     PDepthStencilAttachment := some system.constructor.DepthAttachmentReference },
   { ColorAttachments := system.constructor.GeometryColorAttachmentReferences,
     PDepthStencilAttachment := some system.constructor.DepthAttachmentReference },
   { InputAttachments := system.constructor.ShadingInputAttachmentReferences,
     ColorAttachments := [system.constructor.OutputColorAttachmentReference] },
   { ColorAttachments := [system.constructor.OutputColorAttachmentReference] }]

/-- The attachment indices of a subpass: those of its input attachments, of
its colour attachments and of its depth attachment. -/
def vk.SubpassDescription.indices (D : vk.SubpassDescription) :
    List Nat × List Nat × Option Nat :=
  (D.InputAttachments.map (fun R => R.attachment), D.ColorAttachments.map (fun R => R.attachment),
    D.PDepthStencilAttachment.map (fun R => R.attachment))

/-! ## The fixed-function state of a pipeline (anv_render_core_pipeline.cpp:35-44, 160-170, 233-263) -/

/-- Source: `vk::CompareOp`, the default and the one the code names. -/
inductive vk.CompareOp
  | eNever | eLessOrEqual
deriving DecidableEq, Repr

/-- Source: `vk::PipelineDepthStencilStateCreateInfo`, the members `Build` sets, with
the values of a default-constructed structure. -/
structure vk.PipelineDepthStencilStateCreateInfo where
  depthTestEnable : Bool := false
  depthWriteEnable : Bool := false
  depthCompareOp : vk.CompareOp := vk.CompareOp.eNever
deriving DecidableEq, Repr

/-- The pointer that `system::Build( pipeline::builder & )` passes to
`.setPDepthStencilState(PDepthStencilState)`:

    vk::PipelineDepthStencilStateCreateInfo *PDepthStencilState = nullptr;
    vk::PipelineDepthStencilStateCreateInfo DepthStencilState;
    switch(Builder.RenderPass)
    {
    case render_pass::eMarker   :
    case render_pass::eGeometry :
      PDepthStencilState = &DepthStencilState;
      DepthStencilState
        .setDepthCompareOp(vk::CompareOp::eLessOrEqual)
        .setDepthTestEnable(vk::True)
        .setDepthWriteEnable(vk::True);
      break;
    }
-/
def system.Build_pipeline.PDepthStencilState (Builder : pipeline.builder) :
    Option vk.PipelineDepthStencilStateCreateInfo :=
  let DepthStencilState : vk.PipelineDepthStencilStateCreateInfo := {}
  match Builder.RenderPass with
  | render_pass.eMarker | render_pass.eGeometry =>
    some { DepthStencilState with
           depthCompareOp := vk.CompareOp.eLessOrEqual
           depthTestEnable := true
           depthWriteEnable := true }
  | render_pass.eOverlay => none

/-- The subpass `Build` creates the pipeline for:
`.setSubpass(GetRenderPassSubpassIndex(Builder.RenderPass))`. -/
def system.Build_pipeline.Subpass (Builder : pipeline.builder) : Nat :=
  system.GetRenderPassSubpassIndex Builder.RenderPass

/-- Source: `enum class cull_mode`, `eFront = 0x1`. -/
def cull_mode.eFront : flags := { Bits := 1 }

/-- Source: `enum class cull_mode`, `eBack = 0x2`. -/
def cull_mode.eBack : flags := { Bits := 2 }

/-- Source: `vk::CullModeFlagBits`. -/
inductive vk.CullModeFlagBits
  | eNone | eFront | eBack | eFrontAndBack
deriving DecidableEq, Repr

/-- The cast `(UINT32)Flags` of a `flags` value. The struct has one conversion
function, `operator BOOL`, and the cast goes through it: the result is 1
when `Bits != 0` and 0 otherwise. -/
def flags.toUINT32 (A : flags) : Nat := if A.toBOOL then 1 else 0

/-- Source: `vk::CullModeFlags TranslateCullMode( cull_mode_flags CullModeFlags )`:

    return std::array
    {
      vk::CullModeFlagBits::eNone,
      vk::CullModeFlagBits::eFront,
      vk::CullModeFlagBits::eBack,
      vk::CullModeFlagBits::eFrontAndBack,
    }[(UINT32)CullModeFlags];
-/
def TranslateCullMode (CullModeFlags : flags) : vk.CullModeFlagBits :=
  ([vk.CullModeFlagBits.eNone, vk.CullModeFlagBits.eFront, vk.CullModeFlagBits.eBack,
    vk.CullModeFlagBits.eFrontAndBack][CullModeFlags.toUINT32]?).getD vk.CullModeFlagBits.eNone

/-- The cull mode of the rasterization state `Build` creates the pipeline
with: `.setCullMode(TranslateCullMode(Builder.CullMode))`. -/
def system.Build_pipeline.CullMode (Builder : pipeline.builder) : vk.CullModeFlagBits :=
  TranslateCullMode Builder.CullMode

/-! ## `TranslateFormat` (anv_render_core_image.cpp:16-39) -/

/-- Source: `vk::Format`: the formats the table of `TranslateFormat` holds, the
undefined format, and, for comparison, the two-component 16-bit formats
`eR16G16Uint` and `eR16G16Sfloat`. -/
inductive vk.Format
  | eUndefined
  | eR8Uint | eR8G8Uint | eR8G8B8Uint | eR8G8B8A8Uint
  | eR8Unorm | eR8G8Unorm | eR8G8B8Unorm | eR8G8B8A8Unorm
  | eR8Srgb | eR8G8Srgb | eR8G8B8Srgb | eR8G8B8A8Srgb
  | eR8Sint | eR8G8Sint | eR8G8B8Sint | eR8G8B8A8Sint
  | eR8Snorm | eR8G8Snorm | eR8G8B8Snorm | eR8G8B8A8Snorm
  | eR32Sfloat | eR32G32Sfloat | eR32G32B32Sfloat | eR32G32B32A32Sfloat
  | eR16G16Uint | eR16G16Sfloat
deriving DecidableEq, Repr

/-- The number of bits of one component of a Vulkan format, as its name gives
it (0 for the undefined format). -/
def vk.Format.componentBits : vk.Format → Nat
  | vk.Format.eUndefined => 0
  | vk.Format.eR32Sfloat | vk.Format.eR32G32Sfloat | vk.Format.eR32G32B32Sfloat
  | vk.Format.eR32G32B32A32Sfloat => 32
  | vk.Format.eR16G16Uint | vk.Format.eR16G16Sfloat => 16
  | _ => 8

/-- The number of components of a Vulkan format, as its name gives it (0 for
the undefined format). -/
def vk.Format.componentCount : vk.Format → Nat
  | vk.Format.eUndefined => 0
  | vk.Format.eR8Uint | vk.Format.eR8Unorm | vk.Format.eR8Srgb | vk.Format.eR8Sint
  | vk.Format.eR8Snorm | vk.Format.eR32Sfloat => 1
  | vk.Format.eR8G8Uint | vk.Format.eR8G8Unorm | vk.Format.eR8G8Srgb | vk.Format.eR8G8Sint
  | vk.Format.eR8G8Snorm | vk.Format.eR32G32Sfloat | vk.Format.eR16G16Uint
  | vk.Format.eR16G16Sfloat => 2
  | vk.Format.eR8G8B8Uint | vk.Format.eR8G8B8Unorm | vk.Format.eR8G8B8Srgb
  | vk.Format.eR8G8B8Sint | vk.Format.eR8G8B8Snorm | vk.Format.eR32G32B32Sfloat => 3
  | vk.Format.eR8G8B8A8Uint | vk.Format.eR8G8B8A8Unorm | vk.Format.eR8G8B8A8Srgb
  | vk.Format.eR8G8B8A8Sint | vk.Format.eR8G8B8A8Snorm | vk.Format.eR32G32B32A32Sfloat => 4

/-- The number of bits of the component type an enumerator of `format::type`
names (anv_render_core.h:38-56: `eU8 // UINT8`, `eU16 // UINT16`,
`eF16 // FLOAT16`, and so on). -/
def format.type.componentBits : format.type → Nat
  | format.type.eU8 | format.type.eU8Norm | format.type.eU8Srgb | format.type.eI8
  | format.type.eI8Norm => 8
  | format.type.eU16 | format.type.eU16Norm | format.type.eI16 | format.type.eI16Norm
  | format.type.eF16 => 16
  | format.type.eU32 | format.type.eI32 | format.type.eI32Norm | format.type.eF32 => 32

/-- Source: `(SIZE_T)Format.Type`, the position of the enumerator in
`enum class type : BYTE`. -/
def format.type.toSIZE_T : format.type → Nat
  | format.type.eU8 => 0
  | format.type.eU16 => 1
  | format.type.eU32 => 2
  | format.type.eU8Norm => 3
  | format.type.eU16Norm => 4
  | format.type.eU8Srgb => 5
  | format.type.eI8 => 6
  | format.type.eI16 => 7
  | format.type.eI32 => 8
  | format.type.eI8Norm => 9
  | format.type.eI16Norm => 10
  | format.type.eI32Norm => 11
  | format.type.eF16 => 12
  | format.type.eF32 => 13

/-- Source: `static vk::Format FormatLUTTable[(SIZE_T)format::type::_eCount][4]`, row by
row as written (the comment of each row is the one of the source). -/
def TranslateFormat.FormatLUTTable : List (List vk.Format) :=
  [
    -- eU8
    [vk.Format.eR8Uint, vk.Format.eR8G8Uint, vk.Format.eR8G8B8Uint, vk.Format.eR8G8B8A8Uint],
    -- eU16
    [vk.Format.eR8Uint, vk.Format.eR8G8Uint, vk.Format.eR8G8B8Uint, vk.Format.eR8G8B8A8Uint],
    -- eU32
    [vk.Format.eR8Uint, vk.Format.eR8G8Uint, vk.Format.eR8G8B8Uint, vk.Format.eR8G8B8A8Uint],
    -- eU8Norm
    [vk.Format.eR8Unorm, vk.Format.eR8G8Unorm, vk.Format.eR8G8B8Unorm, vk.Format.eR8G8B8A8Unorm],
    -- eU16Norm
    [vk.Format.eR8Unorm, vk.Format.eR8G8Unorm, vk.Format.eR8G8B8Unorm, vk.Format.eR8G8B8A8Unorm],
    -- eU8Srgb
    [vk.Format.eR8Srgb, vk.Format.eR8G8Srgb, vk.Format.eR8G8B8Srgb, vk.Format.eR8G8B8A8Srgb],
    -- eI8
    [vk.Format.eR8Sint, vk.Format.eR8G8Sint, vk.Format.eR8G8B8Sint, vk.Format.eR8G8B8A8Sint],
    -- eI16
    [vk.Format.eR8Sint, vk.Format.eR8G8Sint, vk.Format.eR8G8B8Sint, vk.Format.eR8G8B8A8Sint],
    -- eI32
    [vk.Format.eR8Sint, vk.Format.eR8G8Sint, vk.Format.eR8G8B8Sint, vk.Format.eR8G8B8A8Sint],
    -- eI8Norm
    [vk.Format.eR8Snorm, vk.Format.eR8G8Snorm, vk.Format.eR8G8B8Snorm, vk.Format.eR8G8B8A8Snorm],
    -- eI16Norm
    [vk.Format.eR8Snorm, vk.Format.eR8G8Snorm, vk.Format.eR8G8B8Snorm, vk.Format.eR8G8B8A8Snorm],
    -- eI32Norm
    [vk.Format.eR8Snorm, vk.Format.eR8G8Snorm, vk.Format.eR8G8B8Snorm, vk.Format.eR8G8B8A8Snorm],
    -- eF16
    [vk.Format.eR32Sfloat, vk.Format.eR32G32Sfloat, vk.Format.eR32G32B32Sfloat,
     vk.Format.eR32G32B32A32Sfloat],
    -- eF32
    [vk.Format.eR32Sfloat, vk.Format.eR32G32Sfloat, vk.Format.eR32G32B32Sfloat,
     vk.Format.eR32G32B32A32Sfloat] ]

/-- Source: `vk::Format TranslateFormat( format Format )`:

    if (Format.Count > 4 || Format.Count < 1)
      return vk::Format::eUndefined;
    return FormatLUTTable[(SIZE_T)Format.Type][Format.Count - 1];
-/
def TranslateFormat (Format : format) : vk.Format :=
  if Format.Count > 4 ∨ Format.Count < 1 then
    vk.Format.eUndefined
  else
    ((TranslateFormat.FormatLUTTable[Format.Type_.toSIZE_T]?).bind
      (fun Row => Row[Format.Count - 1]?)).getD vk.Format.eUndefined

/-! ## `primitive::SetMaterial` (anv_render_core_primitive.cpp:75-78) -/

/-- Source: `VOID primitive::SetMaterial( material *NewMaterial )` on the primitive at
`This`: the one statement `Material = NewMaterial;`. -/
def primitive.SetMaterial (S : system) (This : Nat) (NewMaterial : Option Nat) : system :=
  match S.Heap This with
  | some { toResource := _, Derived := object.primitive Pipeline _ IndexBuffer VertexBuffers } =>
    S.assign This (object.primitive Pipeline NewMaterial IndexBuffer VertexBuffers)
  | _ => S.fail (fault.deadObject This)

/-- Source: `material * primitive::GetMaterial( VOID ) const`: `return Material;`. -/
def primitive.GetMaterial (S : system) (This : Nat) : Option Nat :=
  match S.Heap This with
  | some { toResource := _, Derived := object.primitive _ Material _ _ } => Material
  | _ => none

/-! ## Example states -/

/-- A render core holding one buffer with usage `{eVertex}`, built at address 1. -/
def example_buffer : system :=
  (system.Build_buffer {} { Size := 64, Usage := buffer.usage.eVertex } true 1).2

/-- A render core holding one image, built at address 1. -/
def example_image : system := (system.Build_image {} {} 1).2

/-- A render core holding one pipeline with the single binding type
`eUniformBuffer`, built at address 1 for the Geometry stage. -/
def example_pipeline : system :=
  (system.Build_pipeline {}
    { ShaderBindingTypes := [pipeline.shader_binding_type.eUniformBuffer] } true 1
    render_pass.eGeometry).2

/-- A buffer at address 1 and a view of it at address 2 whose creator has
released it: the pool holds `[1, 2]`, the buffer is used once (by the view)
and the view is unused. -/
def example_view : system :=
  (buffer.Build example_buffer 1 { System := 1, Usage := buffer.usage.eVertex } 2).2.Release 2

/-- One `Build` of each resource kind, in a fresh render core: a buffer at
address 1 with usage `{eVertex, eIndex, eUniform}`. -/
def scene.buffer : Option Nat × system :=
  system.Build_buffer {} { Size := 64, Usage := { Bits := 7 } } true 1

/-- A view of the buffer, at address 2, requesting `{eUniform}`. -/
def scene.buffer_view : Option Nat × system :=
  buffer.view.builder.Build scene.buffer.2 { System := 1, Size := 64, Usage := buffer.usage.eUniform } 2

/-- An image, at address 3. -/
def scene.image : Option Nat × system :=
  system.Build_image scene.buffer_view.2 {} 3

/-- A view of the image, at address 4. -/
def scene.image_view : Option Nat × system :=
  image.view.builder.Build scene.image.2 { System := 3 } 4

/-- A sampler, at address 5. -/
def scene.sampler : Option Nat × system :=
  system.Build_sampler scene.image_view.2 {} 5

/-- A pipeline, at address 6, declaring a uniform buffer and a sampled image. -/
def scene.pipeline : Option Nat × system :=
  system.Build_pipeline scene.sampler.2
    { ShaderBindingTypes :=
        [pipeline.shader_binding_type.eUniformBuffer, pipeline.shader_binding_type.eSampledImage] }
    true 6 render_pass.eGeometry

/-- A material of the pipeline, at address 7, attaching the buffer view and
the pair of the image view and the sampler. -/
def scene.material : Option Nat × system :=
  material.builder.Build scene.pipeline.2
    { System := 6,
      AttachedResources :=
        [{ IsTexture := false, Resource := 2, Sampler := 0 },
         { IsTexture := true, Resource := 4, Sampler := 5 }] }
    7 { Resource := 0, Sampler := 0 }

/-- A primitive of the pipeline, at address 8, with the material and the
buffer view as its index buffer and its only vertex buffer. -/
def scene.primitive : Option Nat × system :=
  primitive.builder.Build scene.material.2
    { System := 6, VertexBufferViews := [2], IndexBufferView := some 2, Material := some 7 } 8

/-- A render thread over the example scene with its primitive at address 8,
which its creator has grabbed, which holds one instance (at address 20) and
which belongs to a Geometry pipeline. -/
def example_thread : render_thread :=
  { System := scene.primitive.2.Grab 8, Instances := fun a => if a = 8 then [20] else [] }

/-- The example scene with one more primitive at address 8, as the constructor
`primitive( pipeline &Pipeline )` leaves it: the pipeline at address 6 is
grabbed, `Material` and `IndexBuffer` are `nullptr`, no vertex buffer. -/
def example_bare_primitive : system :=
  (scene.material.2.operator_new 8 (object.primitive 6 none none [])).Grab 6

/-- The example scene with one more primitive at address 8 that has the
material at address 7, the vertex buffer at address 2 and no index buffer. -/
def example_unindexed_primitive : system :=
  example_bare_primitive.assign 8 (object.primitive 6 (some 7) none [2])

/-- The example scene with a second material of the pipeline, built at
address 9 with the same attachments as the first one. -/
def example_second_material : system :=
  (material.builder.Build scene.primitive.2
    { System := 6,
      AttachedResources :=
        [{ IsTexture := false, Resource := 2, Sampler := 0 },
         { IsTexture := true, Resource := 4, Sampler := 5 }] }
    9 { Resource := 0, Sampler := 0 }).2

/-- A buffer at address 1 and a view of it at address 2, both still held by
their creator: the pool holds `[1, 2]`. -/
def example_held_view : system :=
  (buffer.Build example_buffer 1 { System := 1, Usage := buffer.usage.eVertex } 2).2

/-- A primitive after three calls of `Instance`, with transforms 7, 8, 9 and
handles at the addresses 10, 11, 12. -/
def example_instances : primitive Nat :=
  (((({} : primitive Nat).Instance 7 10).2.Instance 8 11).2.Instance 9 12).2

/-- The primitive `example_instances` after `OnInstanceDestroy` of the handle
at address 10. -/
def example_instances_destroyed : primitive Nat :=
  (example_instances.OnInstanceDestroy 10).getD example_instances

end render.core

namespace math

/-! ## Matrices (anv_math_linalg.h:651-1017)

The 4x4 specialisation of `struct mat` keeps its components in the member
`component Data[4][4]`; `Dataij` below is `Data[i][j]`. The constructor by
all components fills `Array`, which overlays `Data`, in the order of its
arguments, so its arguments are the sixteen fields in the order written
here. The component type is any field, for exact arithmetic. -/

/-- Source: `mat<component, 3, 3>::Determ`:

    return D00 * D11 * D22 + D01 * D12 * D20 + D02 * D10 * D21 -
           D00 * D12 * D21 - D01 * D10 * D22 - D02 * D11 * D20;
-/
def mat3x3.Determ {component : Type} [Field component]
    (D00 D01 D02 D10 D11 D12 D20 D21 D22 : component) : component :=
  D00 * D11 * D22 + D01 * D12 * D20 + D02 * D10 * D21 -
  D00 * D12 * D21 - D01 * D10 * D22 - D02 * D11 * D20

/-- Source: `struct mat<component, 4, 4>` (the alias `math::mat4x4<component>`). -/
structure mat4x4 (component : Type) where
  Data00 : component
  Data01 : component
  Data02 : component
  Data03 : component
  Data10 : component
  Data11 : component
  Data12 : component
  Data13 : component
  Data20 : component
  Data21 : component
  Data22 : component
  Data23 : component
  Data30 : component
  Data31 : component
  Data32 : component
  Data33 : component
deriving DecidableEq, Repr

/-- Source: `static mat Identity( VOID )`. -/
def mat4x4.Identity {component : Type} [Field component] : mat4x4 component :=
  { Data00 := 1, Data01 := 0, Data02 := 0, Data03 := 0,
    Data10 := 0, Data11 := 1, Data12 := 0, Data13 := 0,
    Data20 := 0, Data21 := 0, Data22 := 1, Data23 := 0,
    Data30 := 0, Data31 := 0, Data32 := 0, Data33 := 1 }

/-- Source: `mat operator*( const mat &Rhs ) const`, the sixteen sums as written. -/
def mat4x4.operator_mul {component : Type} [Field component] (M Rhs : mat4x4 component) :
    mat4x4 component where
    Data00 :=
      M.Data00 * Rhs.Data00 + M.Data01 * Rhs.Data10 + M.Data02 * Rhs.Data20 + M.Data03 * Rhs.Data30
    Data01 :=
      M.Data00 * Rhs.Data01 + M.Data01 * Rhs.Data11 + M.Data02 * Rhs.Data21 + M.Data03 * Rhs.Data31
    Data02 :=
      M.Data00 * Rhs.Data02 + M.Data01 * Rhs.Data12 + M.Data02 * Rhs.Data22 + M.Data03 * Rhs.Data32
    Data03 :=
      M.Data00 * Rhs.Data03 + M.Data01 * Rhs.Data13 + M.Data02 * Rhs.Data23 + M.Data03 * Rhs.Data33
    Data10 :=
      M.Data10 * Rhs.Data00 + M.Data11 * Rhs.Data10 + M.Data12 * Rhs.Data20 + M.Data13 * Rhs.Data30
    Data11 :=
      M.Data10 * Rhs.Data01 + M.Data11 * Rhs.Data11 + M.Data12 * Rhs.Data21 + M.Data13 * Rhs.Data31
    Data12 :=
      M.Data10 * Rhs.Data02 + M.Data11 * Rhs.Data12 + M.Data12 * Rhs.Data22 + M.Data13 * Rhs.Data32
    Data13 :=
      M.Data10 * Rhs.Data03 + M.Data11 * Rhs.Data13 + M.Data12 * Rhs.Data23 + M.Data13 * Rhs.Data33
    Data20 :=
      M.Data20 * Rhs.Data00 + M.Data21 * Rhs.Data10 + M.Data22 * Rhs.Data20 + M.Data23 * Rhs.Data30
    Data21 :=
      M.Data20 * Rhs.Data01 + M.Data21 * Rhs.Data11 + M.Data22 * Rhs.Data21 + M.Data23 * Rhs.Data31
    Data22 :=
      M.Data20 * Rhs.Data02 + M.Data21 * Rhs.Data12 + M.Data22 * Rhs.Data22 + M.Data23 * Rhs.Data32
    Data23 :=
      M.Data20 * Rhs.Data03 + M.Data21 * Rhs.Data13 + M.Data22 * Rhs.Data23 + M.Data23 * Rhs.Data33
    Data30 :=
      M.Data30 * Rhs.Data00 + M.Data31 * Rhs.Data10 + M.Data32 * Rhs.Data20 + M.Data33 * Rhs.Data30
    Data31 :=
      M.Data30 * Rhs.Data01 + M.Data31 * Rhs.Data11 + M.Data32 * Rhs.Data21 + M.Data33 * Rhs.Data31
    Data32 :=
      M.Data30 * Rhs.Data02 + M.Data31 * Rhs.Data12 + M.Data32 * Rhs.Data22 + M.Data33 * Rhs.Data32
    Data33 :=
      M.Data30 * Rhs.Data03 + M.Data31 * Rhs.Data13 + M.Data32 * Rhs.Data23 + M.Data33 * Rhs.Data33

/-- Source: `component operator!( VOID ) const`, the determinant: the expansion
along the row 0 as written. -/
def mat4x4.operator_not {component : Type} [Field component] (M : mat4x4 component) :
    component :=
    (M.Data00) * (mat3x3.Determ
        M.Data11 M.Data12 M.Data13
        M.Data21 M.Data22 M.Data23
        M.Data31 M.Data32 M.Data33) +
    (-M.Data01) * (mat3x3.Determ
        M.Data10 M.Data12 M.Data13
        M.Data20 M.Data22 M.Data23
        M.Data30 M.Data32 M.Data33) +
    (M.Data02) * (mat3x3.Determ
        M.Data10 M.Data11 M.Data13
        M.Data20 M.Data21 M.Data23
        M.Data30 M.Data31 M.Data33) +
    (-M.Data03) * (mat3x3.Determ
        M.Data10 M.Data11 M.Data12
        M.Data20 M.Data21 M.Data22
        M.Data30 M.Data31 M.Data32)

/-- Source: `mat Inversed( VOID ) const`:

    component Det = !*this;

    if (Det == 0)
      return Identity();

    return mat { ... };

with the sixteen quotients as written, in the order of the constructor. -/
def mat4x4.Inversed {component : Type} [Field component] [DecidableEq component]
    (M : mat4x4 component) : mat4x4 component :=
  let Det := M.operator_not
  if Det = 0 then
    mat4x4.Identity
  else
    {
      Data00 :=
        (mat3x3.Determ
          M.Data11 M.Data12 M.Data13
          M.Data21 M.Data22 M.Data23
          M.Data31 M.Data32 M.Data33) / Det,
      Data01 :=
        (-(mat3x3.Determ
          M.Data01 M.Data02 M.Data03
          M.Data21 M.Data22 M.Data23
          M.Data31 M.Data32 M.Data33)) / Det,
      Data02 :=
        (mat3x3.Determ
          M.Data01 M.Data02 M.Data03
          M.Data11 M.Data12 M.Data13
          M.Data31 M.Data32 M.Data33) / Det,
      Data03 :=
        (-(mat3x3.Determ
          M.Data01 M.Data02 M.Data03
          M.Data11 M.Data12 M.Data13
          M.Data21 M.Data22 M.Data23)) / Det,
      Data10 :=
        (-(mat3x3.Determ
          M.Data10 M.Data12 M.Data13
          M.Data20 M.Data22 M.Data23
          M.Data30 M.Data32 M.Data33)) / Det,
      Data11 :=
        (mat3x3.Determ
          M.Data00 M.Data02 M.Data03
          M.Data20 M.Data22 M.Data23
          M.Data30 M.Data32 M.Data33) / Det,
      Data12 :=
        (-(mat3x3.Determ
          M.Data00 M.Data02 M.Data03
          M.Data30 M.Data32 M.Data33
          M.Data10 M.Data12 M.Data13)) / Det,
      Data13 :=
        (mat3x3.Determ
          M.Data00 M.Data02 M.Data03
          M.Data10 M.Data12 M.Data13
          M.Data20 M.Data22 M.Data23) / Det,
      Data20 :=
        (mat3x3.Determ
          M.Data10 M.Data11 M.Data13
          M.Data20 M.Data21 M.Data23
          M.Data30 M.Data31 M.Data33) / Det,
      Data21 :=
        (-(mat3x3.Determ
          M.Data00 M.Data01 M.Data03
          M.Data20 M.Data21 M.Data23
          M.Data30 M.Data31 M.Data33)) / Det,
      Data22 :=
        (mat3x3.Determ
          M.Data00 M.Data01 M.Data03
          M.Data10 M.Data11 M.Data13
          M.Data30 M.Data31 M.Data33) / Det,
      Data23 :=
        (-(mat3x3.Determ
          M.Data00 M.Data01 M.Data03
          M.Data10 M.Data11 M.Data13
          M.Data20 M.Data21 M.Data23)) / Det,
      Data30 :=
        (-(mat3x3.Determ
          M.Data10 M.Data11 M.Data12
          M.Data20 M.Data21 M.Data22
          M.Data30 M.Data31 M.Data32)) / Det,
      Data31 :=
        (mat3x3.Determ
          M.Data00 M.Data01 M.Data02
          M.Data20 M.Data21 M.Data22
          M.Data30 M.Data31 M.Data32) / Det,
      Data32 :=
        (-(mat3x3.Determ
          M.Data00 M.Data01 M.Data02
          M.Data10 M.Data11 M.Data12
          M.Data30 M.Data31 M.Data32)) / Det,
      Data33 :=
        (mat3x3.Determ
          M.Data00 M.Data01 M.Data02
          M.Data10 M.Data11 M.Data12
          M.Data20 M.Data21 M.Data22) / Det }

/-- The matrix with ones on the diagonal and one more 1 at `Data[1][2]`, over
the rational numbers. -/
def example_shear : mat4x4 ℚ :=
  { (mat4x4.Identity : mat4x4 ℚ) with Data12 := 1 }

end math

end anv

/-! # Theorems -/

namespace anv

theorem wrapINT32_of_isINT32 (x : Int) (h : isINT32 x) : wrapINT32 x = x := by
  unfold isINT32 at h
  unfold wrapINT32
  omega

theorem wrapINT32_add_wrapINT32 (a b : Int) : wrapINT32 (wrapINT32 a + b) = wrapINT32 (a + b) := by
  unfold wrapINT32
  omega

namespace rc

theorem Grab_iterate (n : Nat) (R : resource) :
    (resource.Grab^[n] R).UseCount = if n = 0 then R.UseCount else wrapINT32 (R.UseCount + n) := by
  induction n generalizing R with
  | zero => simp
  | succ k ih =>
    rw [Function.iterate_succ_apply, ih]
    by_cases hk : k = 0
    · subst hk; simp [resource.Grab]
    · simp only [hk, if_false, Nat.succ_ne_zero, resource.Grab]
      rw [wrapINT32_add_wrapINT32]
      congr 1
      push_cast
      ring

theorem Release_iterate (n : Nat) (R : resource) :
    (resource.Release^[n] R).UseCount = if n = 0 then R.UseCount else wrapINT32 (R.UseCount - n) := by
  induction n generalizing R with
  | zero => simp
  | succ k ih =>
    rw [Function.iterate_succ_apply, ih]
    by_cases hk : k = 0
    · subst hk; simp [resource.Release]
    · simp only [hk, if_false, Nat.succ_ne_zero, resource.Release]
      have h := wrapINT32_add_wrapINT32 (R.UseCount - 1) (-(k : Int))
      simp only [← sub_eq_add_neg] at h
      rw [h]
      congr 1
      push_cast
      ring

/-- C3. For every resource `R` (its counter an `INT32` value) and every `n`,
`n` calls of `Grab` followed by `n` calls of `Release` leave `GetUseCount`
equal to its value before the sequence. -/
theorem C3_grab_release_balance (R : resource) (n : Nat) (h : isINT32 R.UseCount) :
    (resource.Release^[n] (resource.Grab^[n] R)).GetUseCount = R.GetUseCount := by
  unfold resource.GetUseCount
  rw [Release_iterate, Grab_iterate]
  by_cases hn : n = 0
  · simp [hn]
  · simp only [hn, if_false]
    have h2 := wrapINT32_add_wrapINT32 (R.UseCount + n) (-(n : Int))
    simp only [← sub_eq_add_neg] at h2
    rw [h2]
    simp only [add_sub_cancel_right]
    exact wrapINT32_of_isINT32 _ h

/-- Witness of C3: three grabs then three releases on a resource with count 1. -/
theorem C3_grab_release_balance_witness :
    isINT32 (resource.mk 1).UseCount ∧
    (resource.Release^[3] (resource.Grab^[3] (resource.mk 1))).GetUseCount
      = (resource.mk 1).GetUseCount :=
  ⟨by decide, C3_grab_release_balance (resource.mk 1) 3 (by decide)⟩

/-! ### The sweep -/

theorem live_append (E F : List (Nat × Int)) : pool.live (E ++ F) = pool.live E ++ pool.live F := by
  simp [pool.live]

theorem dead_append (E F : List (Nat × Int)) : pool.dead (E ++ F) = pool.dead E ++ pool.dead F := by
  simp [pool.dead]

theorem readings_map_fst {σ : Type} (UseCount : σ → Nat → Int) (OnDestroy : Nat → σ → σ)
    (Rs : List Nat) (W : σ) : (pool.readings UseCount OnDestroy Rs W).map Prod.fst = Rs := by
  induction Rs generalizing W with
  | nil => rfl
  | cons R Rs ih => simp [pool.readings, ih]

/-- The loop invariant of `CollectGarbage`: the vector is `kept ++ junk ++ suf`,
where `kept` (of length `LastFreeResourceIndex`) holds the survivors found so
far and `suf` is the part still to be visited. -/
theorem CollectGarbage_loop_spec {σ : Type} (UseCount : σ → Nat → Int) (OnDestroy : Nat → σ → σ)
    (suf : List Nat) : ∀ (kept junk : List Nat) (S : sweep σ),
    S.Resources = kept ++ junk ++ suf →
    S.LastFreeResourceIndex = kept.length →
    kept.length + junk.length + suf.length < UINT32_SIZE →
    ∃ junk2 : List Nat,
      (pool.CollectGarbage.loop UseCount OnDestroy suf.length (kept.length + junk.length) S).Resources
        = (kept ++ pool.live (pool.readings UseCount OnDestroy suf S.World)) ++ junk2 ∧
      (pool.CollectGarbage.loop UseCount OnDestroy suf.length (kept.length + junk.length) S).LastFreeResourceIndex
        = (kept ++ pool.live (pool.readings UseCount OnDestroy suf S.World)).length ∧
      (pool.CollectGarbage.loop UseCount OnDestroy suf.length (kept.length + junk.length) S).Examined
        = S.Examined ++ pool.readings UseCount OnDestroy suf S.World ∧
      (pool.CollectGarbage.loop UseCount OnDestroy suf.length (kept.length + junk.length) S).Destroyed
        = S.Destroyed ++ pool.dead (pool.readings UseCount OnDestroy suf S.World) := by
  induction suf with
  | nil =>
    intro kept junk S hR hL _
    refine ⟨junk, ?_⟩
    simp [pool.CollectGarbage.loop, pool.readings, pool.live, pool.dead, hR, hL]
  | cons R Rs ih =>
    intro kept junk S hR hL hlen
    have hget : S.Resources[kept.length + junk.length]? = some R := by
      rw [hR, ← List.length_append, List.getElem?_append_right (le_refl _)]
      simp
    simp only [List.length_cons] at hlen
    by_cases hc : UseCount S.World R ≤ 0
    · obtain ⟨junk2, h1, h2, h3, h4⟩ := ih kept (junk ++ [R])
        { S with
          World := OnDestroy R S.World
          Examined := S.Examined ++ [(R, UseCount S.World R)]
          Destroyed := S.Destroyed ++ [R] }
        (by simp [hR]) hL (by simp; omega)
      refine ⟨junk2, ?_⟩
      simp only [List.length_append, List.length_singleton, ← Nat.add_assoc] at h1 h2 h3 h4
      simp only [pool.CollectGarbage.loop, hget, List.length_cons, hc, if_true, pool.readings]
      refine ⟨?_, ?_, ?_, ?_⟩
      · rw [h1]; simp [pool.live, hc]
      · rw [h2]; simp [pool.live, hc]
      · rw [h3]; simp
      · rw [h4]; simp [pool.dead, hc]
    · have hset : S.Resources.set S.LastFreeResourceIndex R
          = (kept ++ [R]) ++ (junk ++ [R]).tail ++ Rs := by
        rw [hR, hL]
        cases junk with
        | nil => simp
        | cons j js => simp
      have hlt : (S.LastFreeResourceIndex + 1) % UINT32_SIZE = (kept ++ [R]).length := by
        rw [hL, Nat.mod_eq_of_lt (by omega)]; simp
      have hjl : (junk ++ [R]).tail.length = junk.length := by simp
      obtain ⟨junk2, h1, h2, h3, h4⟩ := ih (kept ++ [R]) (junk ++ [R]).tail
        { S with
          Resources := S.Resources.set S.LastFreeResourceIndex R
          LastFreeResourceIndex := (S.LastFreeResourceIndex + 1) % UINT32_SIZE
          Examined := S.Examined ++ [(R, UseCount S.World R)] }
        hset hlt (by rw [hjl]; simp; omega)
      refine ⟨junk2, ?_⟩
      rw [hjl] at h1 h2 h3 h4
      have hidx : (kept ++ [R]).length + junk.length = kept.length + junk.length + 1 := by
        simp; omega
      rw [hidx] at h1 h2 h3 h4
      have hpos : 0 < UseCount S.World R := by omega
      simp only [pool.CollectGarbage.loop, hget, List.length_cons, hc, if_false, pool.readings]
      refine ⟨?_, ?_, ?_, ?_⟩
      · rw [h1]; simp [pool.live, hpos]
      · rw [h2]; simp [pool.live, hpos]
      · rw [h3]; simp
      · rw [h4]; simp [pool.dead, hc]

/-- The two logs of the loop of `CollectGarbage`, whatever the length of the
vector: the writes of the loop go to positions already visited. -/
theorem CollectGarbage_loop_logs {σ : Type} (UseCount : σ → Nat → Int) (OnDestroy : Nat → σ → σ)
    (suf : List Nat) : ∀ (pre : List Nat) (S : sweep σ),
    S.Resources = pre ++ suf →
    S.LastFreeResourceIndex ≤ pre.length →
    (pool.CollectGarbage.loop UseCount OnDestroy suf.length pre.length S).Examined
      = S.Examined ++ pool.readings UseCount OnDestroy suf S.World ∧
    (pool.CollectGarbage.loop UseCount OnDestroy suf.length pre.length S).Destroyed
      = S.Destroyed ++ pool.dead (pool.readings UseCount OnDestroy suf S.World) := by
  induction suf with
  | nil =>
    intro pre S _ _
    simp [pool.CollectGarbage.loop, pool.readings, pool.dead]
  | cons R Rs ih =>
    intro pre S hR hL
    have hget : S.Resources[pre.length]? = some R := by
      rw [hR, List.getElem?_append_right (le_refl _)]
      simp
    by_cases hc : UseCount S.World R ≤ 0
    · obtain ⟨h3, h4⟩ := ih (pre ++ [R])
        { S with
          World := OnDestroy R S.World
          Examined := S.Examined ++ [(R, UseCount S.World R)]
          Destroyed := S.Destroyed ++ [R] }
        (by simp [hR]) (by simp; omega)
      simp only [List.length_append, List.length_singleton] at h3 h4
      simp only [pool.CollectGarbage.loop, hget, List.length_cons, hc, if_true, pool.readings]
      refine ⟨?_, ?_⟩
      · rw [h3]; simp
      · rw [h4]; simp [pool.dead, hc]
    · have hset : S.Resources.set S.LastFreeResourceIndex R
          = (pre ++ [R]).set S.LastFreeResourceIndex R ++ Rs := by
        rw [hR]
        have : pre ++ R :: Rs = (pre ++ [R]) ++ Rs := by simp
        rw [this, List.set_append_left _ _ (by simp; omega)]
      obtain ⟨h3, h4⟩ := ih ((pre ++ [R]).set S.LastFreeResourceIndex R)
        { S with
          Resources := S.Resources.set S.LastFreeResourceIndex R
          LastFreeResourceIndex := (S.LastFreeResourceIndex + 1) % UINT32_SIZE
          Examined := S.Examined ++ [(R, UseCount S.World R)] }
        hset
        (by
          have := Nat.mod_le (S.LastFreeResourceIndex + 1) UINT32_SIZE
          simp; omega)
      simp only [List.length_set, List.length_append, List.length_singleton] at h3 h4
      simp only [pool.CollectGarbage.loop, hget, List.length_cons, hc, if_false, pool.readings]
      refine ⟨?_, ?_⟩
      · rw [h3]; simp
      · rw [h4]; simp [pool.dead, hc]

/-- The two logs of `CollectGarbage`, in terms of the readings of the sweep. -/
theorem CollectGarbage_logs {σ : Type} (UseCount : σ → Nat → Int) (OnDestroy : Nat → σ → σ)
    (P : pool) (W : σ) :
    (pool.CollectGarbage UseCount OnDestroy P W).Examined
      = pool.readings UseCount OnDestroy P.Resources W ∧
    (pool.CollectGarbage UseCount OnDestroy P W).Destroyed
      = pool.dead (pool.readings UseCount OnDestroy P.Resources W) := by
  obtain ⟨h3, h4⟩ := CollectGarbage_loop_logs UseCount OnDestroy P.Resources []
    { World := W, Resources := P.Resources, LastFreeResourceIndex := 0,
      Examined := [], Destroyed := [] } (by simp) (by simp)
  simp only [List.length_nil, List.nil_append] at h3 h4
  exact ⟨h3, h4⟩

/-- What `CollectGarbage` computes, in terms of the readings of the sweep. -/
theorem CollectGarbage_spec {σ : Type} (UseCount : σ → Nat → Int) (OnDestroy : Nat → σ → σ)
    (P : pool) (W : σ) (hlen : P.Resources.length < UINT32_SIZE) :
    (pool.CollectGarbage UseCount OnDestroy P W).Examined
      = pool.readings UseCount OnDestroy P.Resources W ∧
    (pool.CollectGarbage UseCount OnDestroy P W).Destroyed
      = pool.dead (pool.readings UseCount OnDestroy P.Resources W) ∧
    (pool.CollectGarbage UseCount OnDestroy P W).Pool.Resources
      = pool.live (pool.readings UseCount OnDestroy P.Resources W) ∧
    (pool.CollectGarbage UseCount OnDestroy P W).Result
      = !(pool.live (pool.readings UseCount OnDestroy P.Resources W)).isEmpty := by
  obtain ⟨junk2, h1, h2, h3, h4⟩ := CollectGarbage_loop_spec UseCount OnDestroy P.Resources [] []
    { World := W, Resources := P.Resources, LastFreeResourceIndex := 0,
      Examined := [], Destroyed := [] } (by simp) (by simp) (by simpa using hlen)
  simp only [List.length_nil, Nat.add_zero, List.nil_append] at h1 h2 h3 h4
  simp only [pool.CollectGarbage]
  refine ⟨h3, h4, ?_, ?_⟩
  · rw [h1, h2]; simp
  · rw [h2]
    cases pool.live (pool.readings UseCount OnDestroy P.Resources W) <;> simp

theorem count_dead_add_count_live (E : List (Nat × Int)) (R : Nat) :
    (pool.dead E).count R + (pool.live E).count R = (E.map Prod.fst).count R := by
  induction E with
  | nil => simp [pool.dead, pool.live]
  | cons e E ih =>
    simp only [pool.dead, pool.live] at ih ⊢
    by_cases hc : e.2 ≤ 0
    · have hn : ¬ 0 < e.2 := by omega
      simp only [List.filter_cons, hc, hn, decide_True, decide_False, if_true, List.map_cons,
        List.count_cons]
      simp only [Bool.false_eq_true, if_false]
      omega
    · have hp : 0 < e.2 := by omega
      simp only [List.filter_cons, hc, hp, decide_True, decide_False, if_true, List.map_cons,
        List.count_cons]
      simp only [Bool.false_eq_true, if_false]
      omega

theorem mem_dead_of_mem (E : List (Nat × Int)) (R : Nat) (c : Int) (h : (R, c) ∈ E) (hc : c ≤ 0) :
    R ∈ pool.dead E := by
  simp only [pool.dead, List.mem_map, List.mem_filter]
  exact ⟨(R, c), ⟨h, by simpa using hc⟩, rfl⟩

theorem mem_live_of_mem (E : List (Nat × Int)) (R : Nat) (c : Int) (h : (R, c) ∈ E) (hc : 0 < c) :
    R ∈ pool.live E := by
  simp only [pool.live, List.mem_map, List.mem_filter]
  exact ⟨(R, c), ⟨h, by simpa using hc⟩, rfl⟩

theorem count_dead_live_of_mem (E : List (Nat × Int)) (hnd : (E.map Prod.fst).Nodup)
    (R : Nat) (c : Int) (h : (R, c) ∈ E) :
    (pool.dead E).count R = (if c ≤ 0 then 1 else 0) ∧
    (pool.live E).count R = (if c ≤ 0 then 0 else 1) := by
  have hsum := count_dead_add_count_live E R
  have hmem : R ∈ E.map Prod.fst := List.mem_map.mpr ⟨(R, c), h, rfl⟩
  rw [List.count_eq_one_of_mem hnd hmem] at hsum
  by_cases hc : c ≤ 0
  · have := List.count_pos_iff.mpr (mem_dead_of_mem E R c h hc)
    simp only [hc, if_true]
    omega
  · have := List.count_pos_iff.mpr (mem_live_of_mem E R c h (by omega))
    simp only [hc, if_false]
    omega

theorem live_sublist (E : List (Nat × Int)) : (pool.live E).Sublist (E.map Prod.fst) := by
  unfold pool.live
  exact List.Sublist.map _ (List.filter_sublist E)

theorem dead_sublist (E : List (Nat × Int)) : (pool.dead E).Sublist (E.map Prod.fst) := by
  unfold pool.dead
  exact List.Sublist.map _ (List.filter_sublist E)

theorem Clear_loop_log {σ : Type} (OnDestroy : Nat → σ → σ) (Rs : List Nat) (W : σ)
    (Log : List Nat) : (pool.Clear.loop OnDestroy Rs W Log).2 = Log ++ Rs := by
  induction Rs generalizing W Log with
  | nil => simp [pool.Clear.loop]
  | cons R Rs ih => simp [pool.Clear.loop, ih]

/-- The program state the loop of `CollectGarbage` leaves: the callbacks of the
entries whose count read was `<= 0` have run on it, in the order of the
sweep, and nothing else has touched it. -/
theorem CollectGarbage_loop_World {σ : Type} (UseCount : σ → Nat → Int) (OnDestroy : Nat → σ → σ)
    (suf : List Nat) : ∀ (pre : List Nat) (S : sweep σ),
    S.Resources = pre ++ suf →
    S.LastFreeResourceIndex ≤ pre.length →
    (pool.CollectGarbage.loop UseCount OnDestroy suf.length pre.length S).World
      = (pool.dead (pool.readings UseCount OnDestroy suf S.World)).foldl
          (fun W R => OnDestroy R W) S.World := by
  induction suf with
  | nil =>
    intro pre S _ _
    simp [pool.CollectGarbage.loop, pool.readings, pool.dead]
  | cons R Rs ih =>
    intro pre S hR hL
    have hget : S.Resources[pre.length]? = some R := by
      rw [hR, List.getElem?_append_right (le_refl _)]
      simp
    by_cases hc : UseCount S.World R ≤ 0
    · have h := ih (pre ++ [R])
        { S with
          World := OnDestroy R S.World
          Examined := S.Examined ++ [(R, UseCount S.World R)]
          Destroyed := S.Destroyed ++ [R] }
        (by simp [hR]) (by simp; omega)
      simp only [List.length_append, List.length_singleton] at h
      simp only [pool.CollectGarbage.loop, hget, List.length_cons, hc, if_true, pool.readings]
      rw [h]
      simp [pool.dead, hc]
    · have hset : S.Resources.set S.LastFreeResourceIndex R
          = (pre ++ [R]).set S.LastFreeResourceIndex R ++ Rs := by
        rw [hR]
        have : pre ++ R :: Rs = (pre ++ [R]) ++ Rs := by simp
        rw [this, List.set_append_left _ _ (by simp; omega)]
      have h := ih ((pre ++ [R]).set S.LastFreeResourceIndex R)
        { S with
          Resources := S.Resources.set S.LastFreeResourceIndex R
          LastFreeResourceIndex := (S.LastFreeResourceIndex + 1) % UINT32_SIZE
          Examined := S.Examined ++ [(R, UseCount S.World R)] }
        hset
        (by
          have := Nat.mod_le (S.LastFreeResourceIndex + 1) UINT32_SIZE
          simp; omega)
      simp only [List.length_set, List.length_append, List.length_singleton] at h
      simp only [pool.CollectGarbage.loop, hget, List.length_cons, hc, if_false, pool.readings]
      rw [h]
      simp [pool.dead, hc]

/-- The program state `CollectGarbage` returns. -/
theorem CollectGarbage_World {σ : Type} (UseCount : σ → Nat → Int) (OnDestroy : Nat → σ → σ)
    (P : pool) (W : σ) :
    (pool.CollectGarbage UseCount OnDestroy P W).World
      = (pool.dead (pool.readings UseCount OnDestroy P.Resources W)).foldl
          (fun W R => OnDestroy R W) W := by
  have h := CollectGarbage_loop_World UseCount OnDestroy P.Resources []
    { World := W, Resources := P.Resources, LastFreeResourceIndex := 0,
      Examined := [], Destroyed := [] } (by simp) (by simp)
  simp only [List.length_nil] at h
  exact h

/-- The program state the second loop of `Clear` leaves. -/
theorem Clear_loop_World {σ : Type} (OnDestroy : Nat → σ → σ) (Rs : List Nat) (W : σ)
    (Log : List Nat) :
    (pool.Clear.loop OnDestroy Rs W Log).1 = Rs.foldl (fun W R => OnDestroy R W) W := by
  induction Rs generalizing W Log with
  | nil => simp [pool.Clear.loop]
  | cons R Rs ih => simp [pool.Clear.loop, ih]

/-- C1. One call of `CollectGarbage` reads the use-count of every resource of
the pool once, in pool order, each in the state left by the callbacks run
before it, and its `OnDestroy` calls are exactly the entries whose count
read is `<= 0`. The program state it returns is the state it was called in
after exactly those callbacks, each applied once, in the order of the
sweep. So, each resource being registered once, it calls `OnDestroy`
exactly once on each resource whose count read is `<= 0` and never on a
resource whose count read is `> 0`, nor on anything outside the pool. -/
theorem C1_CollectGarbage_destroys_exactly_unused {σ : Type} (UseCount : σ → Nat → Int)
    (OnDestroy : Nat → σ → σ) (P : pool) (W : σ) (hnd : P.Resources.Nodup) :
    (pool.CollectGarbage UseCount OnDestroy P W).World
      = (pool.CollectGarbage UseCount OnDestroy P W).Destroyed.foldl
          (fun W R => OnDestroy R W) W ∧
    (pool.CollectGarbage UseCount OnDestroy P W).World
      = (pool.dead (pool.readings UseCount OnDestroy P.Resources W)).foldl
          (fun W R => OnDestroy R W) W ∧
    (pool.CollectGarbage UseCount OnDestroy P W).Examined
      = pool.readings UseCount OnDestroy P.Resources W ∧
    (pool.CollectGarbage UseCount OnDestroy P W).Examined.map Prod.fst = P.Resources ∧
    (pool.CollectGarbage UseCount OnDestroy P W).Destroyed
      = pool.dead (pool.CollectGarbage UseCount OnDestroy P W).Examined ∧
    (∀ R c, (R, c) ∈ (pool.CollectGarbage UseCount OnDestroy P W).Examined → c ≤ 0 →
      (pool.CollectGarbage UseCount OnDestroy P W).Destroyed.count R = 1) ∧
    (∀ R c, (R, c) ∈ (pool.CollectGarbage UseCount OnDestroy P W).Examined → 0 < c →
      (pool.CollectGarbage UseCount OnDestroy P W).Destroyed.count R = 0) ∧
    (∀ R, R ∉ P.Resources →
      (pool.CollectGarbage UseCount OnDestroy P W).Destroyed.count R = 0) := by
  obtain ⟨hE, hD⟩ := CollectGarbage_logs UseCount OnDestroy P W
  have hfst := readings_map_fst UseCount OnDestroy P.Resources W
  have hnd2 : ((pool.readings UseCount OnDestroy P.Resources W).map Prod.fst).Nodup := by
    rw [hfst]; exact hnd
  have hW := CollectGarbage_World UseCount OnDestroy P W
  rw [hE, hD, hW]
  refine ⟨rfl, rfl, rfl, hfst, rfl, ?_, ?_, ?_⟩
  · intro R c hm hc
    have := (count_dead_live_of_mem _ hnd2 R c hm).1
    simpa [hc] using this
  · intro R c hm hc
    have := (count_dead_live_of_mem _ hnd2 R c hm).1
    have hn : ¬ c ≤ 0 := by omega
    simpa [hn] using this
  · intro R hR
    apply List.count_eq_zero_of_not_mem
    intro hmem
    have := (dead_sublist (pool.readings UseCount OnDestroy P.Resources W)).subset hmem
    rw [hfst] at this
    exact hR this

/-- C2. After `CollectGarbage` the resource list is exactly the list of the
resources whose use-count was `> 0` when the sweep read it (each count
being read through `UseCount` in the state left by the callbacks run
before), in their original order: it is a sub-list of the previous list,
has no duplicate, holds every survivor once and holds no resource on which
`OnDestroy` was called. -/
theorem C2_CollectGarbage_compacts_survivors {σ : Type} (UseCount : σ → Nat → Int)
    (OnDestroy : Nat → σ → σ) (P : pool) (W : σ)
    (hlen : P.Resources.length < UINT32_SIZE) (hnd : P.Resources.Nodup) :
    (pool.CollectGarbage UseCount OnDestroy P W).Examined
      = pool.readings UseCount OnDestroy P.Resources W ∧
    (pool.CollectGarbage UseCount OnDestroy P W).Pool.Resources
      = pool.live (pool.readings UseCount OnDestroy P.Resources W) ∧
    (pool.CollectGarbage UseCount OnDestroy P W).Pool.Resources
      = pool.live (pool.CollectGarbage UseCount OnDestroy P W).Examined ∧
    (pool.CollectGarbage UseCount OnDestroy P W).Examined.map Prod.fst = P.Resources ∧
    (pool.CollectGarbage UseCount OnDestroy P W).Pool.Resources.Sublist P.Resources ∧
    (pool.CollectGarbage UseCount OnDestroy P W).Pool.Resources.Nodup ∧
    (∀ R c, (R, c) ∈ (pool.CollectGarbage UseCount OnDestroy P W).Examined → 0 < c →
      (pool.CollectGarbage UseCount OnDestroy P W).Pool.Resources.count R = 1) ∧
    (∀ R, R ∈ (pool.CollectGarbage UseCount OnDestroy P W).Destroyed →
      R ∉ (pool.CollectGarbage UseCount OnDestroy P W).Pool.Resources) := by
  obtain ⟨hE, hD, hP, -⟩ := CollectGarbage_spec UseCount OnDestroy P W hlen
  have hfst := readings_map_fst UseCount OnDestroy P.Resources W
  have hnd2 : ((pool.readings UseCount OnDestroy P.Resources W).map Prod.fst).Nodup := by
    rw [hfst]; exact hnd
  have hsub := live_sublist (pool.readings UseCount OnDestroy P.Resources W)
  rw [hfst] at hsub
  rw [hE, hD, hP]
  refine ⟨rfl, rfl, rfl, hfst, hsub, hsub.nodup hnd, ?_, ?_⟩
  · intro R c hm hc
    have := (count_dead_live_of_mem _ hnd2 R c hm).2
    have hn : ¬ c ≤ 0 := by omega
    simpa [hn] using this
  · intro R hR hL
    have hsum := count_dead_add_count_live (pool.readings UseCount OnDestroy P.Resources W) R
    have h1 := List.count_pos_iff.mpr hR
    have h2 := List.count_pos_iff.mpr hL
    have h3 := List.nodup_iff_count_le_one.mp hnd2 R
    omega

/-- C10. `Clear` calls `OnDestroy` exactly once on every resource that was in
the pool, whatever its use-count, and on nothing else: the calls are those of
the sweep (the resources whose count read was `<= 0`) followed by one call
for each survivor of the sweep, in pool order. The program state it returns
is the state it was called in after exactly these callbacks, each applied
once, in this order: the state the sweep returns, then the callbacks of the
survivors. -/
theorem C10_Clear_destroys_every_resource_once {σ : Type} (UseCount : σ → Nat → Int)
    (OnDestroy : Nat → σ → σ) (P : pool) (W : σ)
    (hlen : P.Resources.length < UINT32_SIZE) (hnd : P.Resources.Nodup) :
    (pool.Clear UseCount OnDestroy P W).World
      = (pool.Clear UseCount OnDestroy P W).Destroyed.foldl (fun W R => OnDestroy R W) W ∧
    (pool.Clear UseCount OnDestroy P W).World
      = (pool.live (pool.readings UseCount OnDestroy P.Resources W)).foldl
          (fun W R => OnDestroy R W)
          ((pool.dead (pool.readings UseCount OnDestroy P.Resources W)).foldl
            (fun W R => OnDestroy R W) W) ∧
    (pool.Clear UseCount OnDestroy P W).World
      = (pool.CollectGarbage UseCount OnDestroy P W).Pool.Resources.foldl
          (fun W R => OnDestroy R W) (pool.CollectGarbage UseCount OnDestroy P W).World ∧
    (pool.Clear UseCount OnDestroy P W).Destroyed
      = (pool.CollectGarbage UseCount OnDestroy P W).Destroyed
        ++ (pool.CollectGarbage UseCount OnDestroy P W).Pool.Resources ∧
    (pool.Clear UseCount OnDestroy P W).Destroyed
      = pool.dead (pool.readings UseCount OnDestroy P.Resources W)
        ++ pool.live (pool.readings UseCount OnDestroy P.Resources W) ∧
    (∀ R, R ∈ P.Resources → (pool.Clear UseCount OnDestroy P W).Destroyed.count R = 1) ∧
    (∀ R, R ∉ P.Resources → (pool.Clear UseCount OnDestroy P W).Destroyed.count R = 0) := by
  obtain ⟨-, hD, hP, -⟩ := CollectGarbage_spec UseCount OnDestroy P W hlen
  have hfst := readings_map_fst UseCount OnDestroy P.Resources W
  have hlog : (pool.Clear UseCount OnDestroy P W).Destroyed
      = (pool.CollectGarbage UseCount OnDestroy P W).Destroyed
        ++ (pool.CollectGarbage UseCount OnDestroy P W).Pool.Resources := by
    simp only [pool.Clear]
    exact Clear_loop_log OnDestroy _ _ _
  have hcount : ∀ R, (pool.Clear UseCount OnDestroy P W).Destroyed.count R
      = P.Resources.count R := by
    intro R
    rw [hlog, hD, hP, List.count_append, count_dead_add_count_live, hfst]
  have hW := CollectGarbage_World UseCount OnDestroy P W
  have hworld : (pool.Clear UseCount OnDestroy P W).World
      = (pool.CollectGarbage UseCount OnDestroy P W).Pool.Resources.foldl
          (fun W R => OnDestroy R W) (pool.CollectGarbage UseCount OnDestroy P W).World := by
    simp only [pool.Clear]
    exact Clear_loop_World OnDestroy _ _ _
  refine ⟨?_, ?_, hworld, hlog, ?_, ?_, ?_⟩
  · rw [hworld, hlog, List.foldl_append, hW, hD]
  · rw [hworld, hW, hP]
  · rw [hlog, hD, hP]
  · intro R hR
    rw [hcount, List.count_eq_one_of_mem hnd hR]
  · intro R hR
    rw [hcount, List.count_eq_zero_of_not_mem hR]

/-- Witness of C1 in the render core: in a pool holding a used buffer and an
unused view of it, the sweep calls `OnDestroy` once on the view. -/
theorem C1_CollectGarbage_destroys_exactly_unused_witness :
    render.core.example_view.ResourcePool.Resources.Nodup ∧
    (pool.CollectGarbage render.core.system.GetUseCount render.core.OnDestroy
      render.core.example_view.ResourcePool render.core.example_view).Destroyed.count 2 = 1 :=
  ⟨by decide,
    (C1_CollectGarbage_destroys_exactly_unused render.core.system.GetUseCount
      render.core.OnDestroy render.core.example_view.ResourcePool render.core.example_view
      (by decide)).2.2.2.2.2.1 2 0 (by decide) (by decide)⟩

/-- Witness of C2 in the render core: in a pool holding a used buffer and an
unused view of it, the buffer survives the sweep, once. -/
theorem C2_CollectGarbage_compacts_survivors_witness :
    render.core.example_view.ResourcePool.Resources.length < UINT32_SIZE ∧
    render.core.example_view.ResourcePool.Resources.Nodup ∧
    (pool.CollectGarbage render.core.system.GetUseCount render.core.OnDestroy
      render.core.example_view.ResourcePool render.core.example_view).Pool.Resources.count 1 = 1 :=
  ⟨by decide, by decide,
    (C2_CollectGarbage_compacts_survivors render.core.system.GetUseCount
      render.core.OnDestroy render.core.example_view.ResourcePool render.core.example_view
      (by decide) (by decide)).2.2.2.2.2.2.1 1 1 (by decide) (by decide)⟩

/-- Witness of C10 in the render core: `Clear` on a pool holding a used
buffer and an unused view of it calls `OnDestroy` once on the buffer. -/
theorem C10_Clear_destroys_every_resource_once_witness :
    render.core.example_view.ResourcePool.Resources.length < UINT32_SIZE ∧
    render.core.example_view.ResourcePool.Resources.Nodup ∧
    (pool.Clear render.core.system.GetUseCount render.core.OnDestroy
      render.core.example_view.ResourcePool render.core.example_view).Destroyed.count 1 = 1 :=
  ⟨by decide, by decide,
    (C10_Clear_destroys_every_resource_once render.core.system.GetUseCount
      render.core.OnDestroy render.core.example_view.ResourcePool render.core.example_view
      (by decide) (by decide)).2.2.2.2.2.1 1 (by decide)⟩

end rc

end anv

namespace anv.render.core

/-! ### Frame lemmas: what the heap operations leave alone -/

theorem ResourcePool_operator_new (S : system) (A : Nat) (D : object) :
    (S.operator_new A D).ResourcePool = S.ResourcePool := rfl

theorem ResourcePool_operator_delete (S : system) (A : Nat) :
    (S.operator_delete A).ResourcePool = S.ResourcePool := rfl

theorem ResourcePool_fail (S : system) (F : fault) : (S.fail F).ResourcePool = S.ResourcePool := rfl

theorem ResourcePool_assign (S : system) (A : Nat) (D : object) :
    (S.assign A D).ResourcePool = S.ResourcePool := by
  unfold system.assign; split <;> rfl

theorem ResourcePool_read (S : system) (A : Nat) : (S.read A).ResourcePool = S.ResourcePool := by
  unfold system.read; split <;> rfl

theorem ResourcePool_Grab (S : system) (A : Nat) : (S.Grab A).ResourcePool = S.ResourcePool := by
  unfold system.Grab; split <;> rfl

theorem ResourcePool_Release (S : system) (A : Nat) :
    (S.Release A).ResourcePool = S.ResourcePool := by
  unfold system.Release; split <;> rfl

theorem Faults_operator_new (S : system) (A : Nat) (D : object) :
    (S.operator_new A D).Faults = S.Faults := rfl

theorem Faults_operator_delete (S : system) (A : Nat) :
    (S.operator_delete A).Faults = S.Faults := rfl

theorem mem_Faults_fail (S : system) (F G : fault) (h : F ∈ S.Faults) : F ∈ (S.fail G).Faults := by
  simp [system.fail, h]

theorem mem_Faults_assign (S : system) (A : Nat) (D : object) (F : fault) (h : F ∈ S.Faults) :
    F ∈ (S.assign A D).Faults := by
  unfold system.assign; split <;> simp [h]

theorem mem_Faults_read (S : system) (A : Nat) (F : fault) (h : F ∈ S.Faults) :
    F ∈ (S.read A).Faults := by
  unfold system.read; split <;> simp [h]

theorem mem_Faults_Grab (S : system) (A : Nat) (F : fault) (h : F ∈ S.Faults) :
    F ∈ (S.Grab A).Faults := by
  unfold system.Grab; split <;> simp [h]

theorem mem_Faults_Release (S : system) (A : Nat) (F : fault) (h : F ∈ S.Faults) :
    F ∈ (S.Release A).Faults := by
  unfold system.Release; split <;> simp [h]

theorem ResourcePool_attached_Grab (S : system) (A : material.attached_resource) :
    (material.attached_resource.Grab S A).ResourcePool = S.ResourcePool := by
  unfold material.attached_resource.Grab
  split <;> simp [ResourcePool_Grab]

theorem mem_Faults_attached_Grab (S : system) (A : material.attached_resource) (F : fault)
    (h : F ∈ S.Faults) : F ∈ (material.attached_resource.Grab S A).Faults := by
  unfold material.attached_resource.Grab
  split
  · exact mem_Faults_Grab _ _ _ (mem_Faults_Grab _ _ _ h)
  · exact mem_Faults_Grab _ _ _ h

theorem ResourcePool_foldl_attached_Grab (L : List material.attached_resource) (S : system) :
    (L.foldl material.attached_resource.Grab S).ResourcePool = S.ResourcePool := by
  induction L generalizing S with
  | nil => rfl
  | cons A L ih => simp [List.foldl, ih, ResourcePool_attached_Grab]

theorem mem_Faults_foldl_attached_Grab (L : List material.attached_resource) (S : system)
    (F : fault) (h : F ∈ S.Faults) : F ∈ (L.foldl material.attached_resource.Grab S).Faults := by
  induction L generalizing S with
  | nil => exact h
  | cons A L ih => exact ih _ (mem_Faults_attached_Grab S A F h)

/-- One pass of the binding loop of the material `Build`, as a state change. -/
theorem Build_material_loop_step_frame (S : system) (Slot : material.attached_resource)
    (T : pipeline.shader_binding_type) :
    (match T with
      | pipeline.shader_binding_type.eSampledImage =>
        ((((S.read Slot.ImageView).read Slot.Sampler).Grab Slot.Sampler).Grab Slot.ImageView)
      | pipeline.shader_binding_type.eSampler => S.read Slot.Resource
      | pipeline.shader_binding_type.eStorageImage => S.read Slot.Resource
      | pipeline.shader_binding_type.eStorageBuffer => S.read Slot.Resource
      | pipeline.shader_binding_type.eUniformBuffer => S.read Slot.Resource).ResourcePool
      = S.ResourcePool ∧
    ∀ F, F ∈ S.Faults →
      F ∈ (match T with
        | pipeline.shader_binding_type.eSampledImage =>
          ((((S.read Slot.ImageView).read Slot.Sampler).Grab Slot.Sampler).Grab Slot.ImageView)
        | pipeline.shader_binding_type.eSampler => S.read Slot.Resource
        | pipeline.shader_binding_type.eStorageImage => S.read Slot.Resource
        | pipeline.shader_binding_type.eStorageBuffer => S.read Slot.Resource
        | pipeline.shader_binding_type.eUniformBuffer => S.read Slot.Resource).Faults := by
  cases T
  · exact ⟨by simp [ResourcePool_Grab, ResourcePool_read], fun F h =>
      mem_Faults_Grab _ _ _ (mem_Faults_Grab _ _ _ (mem_Faults_read _ _ _ (mem_Faults_read _ _ _ h)))⟩
  all_goals exact ⟨ResourcePool_read _ _, fun F h => mem_Faults_read _ _ _ h⟩

theorem Build_material_loop_frame (Builder : material.builder) (Beyond : material.attached_resource)
    (Types : List pipeline.shader_binding_type) : ∀ (bi : Nat) (S : system),
    (pipeline.Build_material.loop Builder Beyond Types bi S).ResourcePool = S.ResourcePool ∧
    ∀ F, F ∈ S.Faults → F ∈ (pipeline.Build_material.loop Builder Beyond Types bi S).Faults := by
  induction Types with
  | nil => intro bi S; exact ⟨rfl, fun F h => h⟩
  | cons T Rest ih =>
    intro bi S
    simp only [pipeline.Build_material.loop]
    obtain ⟨h1, h2⟩ := ih (bi + 1)
      (match T with
        | pipeline.shader_binding_type.eSampledImage =>
          (((((if bi < Builder.AttachedResources.length then S
              else S.fail (fault.outOfBounds bi)).read
            ((Builder.AttachedResources[bi]?).getD Beyond).ImageView).read
            ((Builder.AttachedResources[bi]?).getD Beyond).Sampler).Grab
            ((Builder.AttachedResources[bi]?).getD Beyond).Sampler).Grab
            ((Builder.AttachedResources[bi]?).getD Beyond).ImageView)
        | pipeline.shader_binding_type.eSampler =>
          (if bi < Builder.AttachedResources.length then S
            else S.fail (fault.outOfBounds bi)).read ((Builder.AttachedResources[bi]?).getD Beyond).Resource
        | pipeline.shader_binding_type.eStorageImage =>
          (if bi < Builder.AttachedResources.length then S
            else S.fail (fault.outOfBounds bi)).read ((Builder.AttachedResources[bi]?).getD Beyond).Resource
        | pipeline.shader_binding_type.eStorageBuffer =>
          (if bi < Builder.AttachedResources.length then S
            else S.fail (fault.outOfBounds bi)).read ((Builder.AttachedResources[bi]?).getD Beyond).Resource
        | pipeline.shader_binding_type.eUniformBuffer =>
          (if bi < Builder.AttachedResources.length then S
            else S.fail (fault.outOfBounds bi)).read ((Builder.AttachedResources[bi]?).getD Beyond).Resource)
    obtain ⟨h3, h4⟩ := Build_material_loop_step_frame
      (if bi < Builder.AttachedResources.length then S else S.fail (fault.outOfBounds bi))
      ((Builder.AttachedResources[bi]?).getD Beyond) T
    have h5 : (if bi < Builder.AttachedResources.length then S
        else S.fail (fault.outOfBounds bi)).ResourcePool = S.ResourcePool := by
      split <;> rfl
    have h6 : ∀ F, F ∈ S.Faults → F ∈ (if bi < Builder.AttachedResources.length then S
        else S.fail (fault.outOfBounds bi)).Faults := by
      intro F h
      split
      · exact h
      · exact mem_Faults_fail _ _ _ h
    exact ⟨by rw [h1, h3, h5], fun F h => h2 F (h4 F (h6 F h))⟩

theorem Build_material_loop_reads_outside (Builder : material.builder)
    (Beyond : material.attached_resource) (Types : List pipeline.shader_binding_type) :
    ∀ (bi : Nat) (S : system), bi ≤ Builder.AttachedResources.length →
      Builder.AttachedResources.length < bi + Types.length →
      fault.outOfBounds Builder.AttachedResources.length
        ∈ (pipeline.Build_material.loop Builder Beyond Types bi S).Faults := by
  induction Types with
  | nil => intro bi S h1 h2; simp at h2; omega
  | cons T Rest ih =>
    intro bi S h1 h2
    by_cases hb : bi = Builder.AttachedResources.length
    · simp only [pipeline.Build_material.loop]
      apply (Build_material_loop_frame Builder Beyond Rest (bi + 1) _).2
      apply (Build_material_loop_step_frame _ _ T).2
      have hnot : ¬ bi < Builder.AttachedResources.length := by omega
      simp only [hnot, if_false, system.fail, hb]
      simp
    · simp only [pipeline.Build_material.loop]
      apply ih (bi + 1) _ (by omega)
      simp only [List.length_cons] at h2
      omega

/-- On a live pipeline declaring more bindings than the builder attaches
resources, `pipeline::Build( material::builder & )` reads the slot just
behind the attached-resource list. -/
theorem Build_material_reads_outside (S : system) (This New : Nat) (Builder : material.builder)
    (Beyond : material.attached_resource) (R : rc.resource) (RenderPass : render_pass)
    (Types : List pipeline.shader_binding_type)
    (hlive : S.Heap This = some { toResource := R, Derived := object.pipeline RenderPass Types })
    (hshort : Builder.AttachedResources.length < Types.length) :
    fault.outOfBounds Builder.AttachedResources.length
      ∈ (pipeline.Build_material S This Builder New Beyond).2.Faults := by
  simp only [pipeline.Build_material, hlive]
  apply mem_Faults_foldl_attached_Grab
  apply mem_Faults_assign
  exact Build_material_loop_reads_outside Builder Beyond Types 0 _ (Nat.zero_le _) (by omega)

/-- The pool after `pipeline::Build( material::builder & )` on a live pipeline. -/
theorem Build_material_ResourcePool (S : system) (This New : Nat) (Builder : material.builder)
    (Beyond : material.attached_resource) (R : rc.resource) (RenderPass : render_pass)
    (Types : List pipeline.shader_binding_type)
    (hlive : S.Heap This = some { toResource := R, Derived := object.pipeline RenderPass Types }) :
    (pipeline.Build_material S This Builder New Beyond).2.ResourcePool.Resources
      = S.ResourcePool.Resources ++ [New] := by
  simp only [pipeline.Build_material, hlive, rc.pool.Add]
  rw [ResourcePool_foldl_attached_Grab, ResourcePool_assign,
    (Build_material_loop_frame Builder Beyond Types 0 _).1, ResourcePool_Grab,
    ResourcePool_operator_new]

/-! ### The builder protocol -/

theorem GetUseCount_operator_new (S : system) (New : Nat) (D : object) :
    (S.operator_new New D).GetUseCount New = 0 := by
  simp [system.operator_new, system.GetUseCount, rc.resource.GetUseCount]

theorem Build_buffer_use_count (S : system) (Builder : buffer.builder) (New : Nat) :
    (S.Build_buffer Builder true New).1 = some New ∧
    (S.Build_buffer Builder true New).2.GetUseCount New = 0 := by
  simp [system.Build_buffer, system.operator_new, system.GetUseCount, rc.resource.GetUseCount]

theorem Build_image_use_count (S : system) (Builder : image.builder) (New : Nat) :
    (S.Build_image Builder New).1 = some New ∧
    (S.Build_image Builder New).2.GetUseCount New = 1 := by
  simp [system.Build_image, system.operator_new, system.Grab, system.GetUseCount,
    rc.resource.GetUseCount, rc.resource.Grab, wrapINT32]

theorem Build_sampler_use_count (S : system) (Builder : sampler.builder) (New : Nat) :
    (S.Build_sampler Builder New).1 = some New ∧
    (S.Build_sampler Builder New).2.GetUseCount New = 1 := by
  simp [system.Build_sampler, system.operator_new, system.Grab, system.GetUseCount,
    rc.resource.GetUseCount, rc.resource.Grab, wrapINT32]

theorem Build_pipeline_use_count (S : system) (Builder : pipeline.builder) (New : Nat)
    (Indeterminate : render_pass) :
    (S.Build_pipeline Builder true New Indeterminate).1 = some New ∧
    (S.Build_pipeline Builder true New Indeterminate).2.GetUseCount New = 1 := by
  simp [system.Build_pipeline, system.operator_new, system.Grab, system.GetUseCount,
    rc.resource.GetUseCount, rc.resource.Grab, wrapINT32]

/-- C4, evaluated. `system::Build( buffer::builder & )` returns, in every state
and for every builder, a buffer whose use-count is 0, not 1. Of the eight
resource kinds built one after the other in a fresh render core, the buffer
view, the image, the sampler and the pipeline come back with use-count 1,
and the buffer, the image view, the material and the primitive with
use-count 0. -/
theorem C4_Build_use_count_on_return :
    (∀ (S : system) (Builder : buffer.builder) (New : Nat),
      (S.Build_buffer Builder true New).1 = some New ∧
      (S.Build_buffer Builder true New).2.GetUseCount New = 0) ∧
    (scene.buffer.1 = some 1 ∧ scene.buffer.2.GetUseCount 1 = 0) ∧
    (scene.buffer_view.1 = some 2 ∧ scene.buffer_view.2.GetUseCount 2 = 1) ∧
    (scene.image.1 = some 3 ∧ scene.image.2.GetUseCount 3 = 1) ∧
    (scene.image_view.1 = some 4 ∧ scene.image_view.2.GetUseCount 4 = 0) ∧
    (scene.sampler.1 = some 5 ∧ scene.sampler.2.GetUseCount 5 = 1) ∧
    (scene.pipeline.1 = some 6 ∧ scene.pipeline.2.GetUseCount 6 = 1) ∧
    (scene.material.1 = some 7 ∧ scene.material.2.GetUseCount 7 = 0 ∧
      scene.material.2.Faults = []) ∧
    (scene.primitive.1 = some 8 ∧ scene.primitive.2.GetUseCount 8 = 0 ∧
      scene.primitive.2.Faults = []) := by
  refine ⟨Build_buffer_use_count, ?_, ?_, ?_, ?_, ?_, ?_, ?_, ?_⟩ <;> decide

/-- C5, evaluated. Building a view of the image at address 3 leaves the use-count
of the image at 1, and the `OnDestroy` of the view lowers it to 0: the image
loses a reference it was never given. For the buffer at address 1 the view
raises the use-count from 0 to 1 and its `OnDestroy` lowers it back to 0. -/
theorem C5_image_view_releases_ungrabbed_parent :
    (scene.image.2.GetUseCount 3 = 1 ∧
      scene.image_view.1 = some 4 ∧
      scene.image_view.2.GetUseCount 3 = 1 ∧
      (OnDestroy 4 scene.image_view.2).GetUseCount 3 = 0) ∧
    (scene.buffer.2.GetUseCount 1 = 0 ∧
      scene.buffer_view.1 = some 2 ∧
      scene.buffer_view.2.GetUseCount 1 = 1 ∧
      (OnDestroy 2 scene.buffer_view.2).GetUseCount 1 = 0) := by
  decide

/-- Building a view of a live image leaves the use-count of the image
unchanged, and the `OnDestroy` of that view lowers it by one, in every state. -/
theorem image_view_build_then_destroy (S : system) (This New : Nat)
    (Builder : image.view.builder) (R : rc.resource) (Usage : flags) (Format : format)
    (hlive : S.Heap This = some { toResource := R, Derived := object.image Usage Format })
    (hsys : Builder.System = This) (hne : New ≠ This) :
    (image.Build S This Builder New).1 = some New ∧
    (image.Build S This Builder New).2.GetUseCount This = S.GetUseCount This ∧
    (OnDestroy New (image.Build S This Builder New).2).GetUseCount This
      = wrapINT32 (S.GetUseCount This - 1) := by
  have hne2 : This ≠ New := fun e => hne e.symm
  refine ⟨?_, ?_, ?_⟩
  · simp [image.Build, hlive]
  · simp [image.Build, hlive, system.operator_new, system.GetUseCount, Function.update, hne2]
  · simp [image.Build, hlive, system.operator_new, system.GetUseCount, Function.update, hne2,
      OnDestroy, hsys, system.Release, system.operator_delete, rc.resource.Release,
      rc.resource.GetUseCount]

/-- Building a view of a live buffer that passes the usage check raises the
use-count of the buffer by one, and the `OnDestroy` of that view lowers it by
one again, in every state. -/
theorem buffer_view_build_then_destroy (S : system) (This New : Nat)
    (Builder : buffer.view.builder) (R : rc.resource) (Size : Nat) (Usage : flags)
    (hlive : S.Heap This = some { toResource := R, Derived := object.buffer Size Usage })
    (hpass : flags.ne (Usage.and Builder.Usage) Builder.Usage = false) (hne : New ≠ This) :
    (buffer.Build S This Builder New).1 = some New ∧
    (buffer.Build S This Builder New).2.GetUseCount This = wrapINT32 (S.GetUseCount This + 1) ∧
    (OnDestroy New (buffer.Build S This Builder New).2).GetUseCount This
      = wrapINT32 (wrapINT32 (S.GetUseCount This + 1) - 1) := by
  have hne2 : This ≠ New := fun e => hne e.symm
  refine ⟨?_, ?_, ?_⟩
  · simp [buffer.Build, hlive, hpass]
  · simp [buffer.Build, hlive, hpass, system.operator_new, system.GetUseCount, Function.update,
      hne2, hne, system.Grab, rc.resource.Grab, rc.resource.GetUseCount]
  · simp [buffer.Build, hlive, hpass, system.operator_new, system.GetUseCount, Function.update,
      hne2, hne, system.Grab, rc.resource.Grab, rc.resource.GetUseCount, OnDestroy,
      system.Release, system.operator_delete, rc.resource.Release]

/-- What `buffer::Build( view::builder & )` checks: on a live buffer with usage
`Usage` it returns null exactly when the requested usage is not empty and
shares no bit with `Usage`. -/
theorem buffer_Build_null_iff (S : system) (This New : Nat) (Builder : buffer.view.builder)
    (R : rc.resource) (Size : Nat) (Usage : flags)
    (hlive : S.Heap This = some { toResource := R, Derived := object.buffer Size Usage }) :
    (buffer.Build S This Builder New).1 = none ↔
      (Builder.Usage.Bits ≠ 0 ∧ Usage.Bits &&& Builder.Usage.Bits = 0) := by
  have key : flags.ne (Usage.and Builder.Usage) Builder.Usage = true ↔
      (Builder.Usage.Bits ≠ 0 ∧ Usage.Bits &&& Builder.Usage.Bits = 0) := by
    simp only [flags.ne, flags.toBOOL, flags.and]
    by_cases h1 : Builder.Usage.Bits = 0
    · simp [h1]
    · by_cases h2 : Usage.Bits &&& Builder.Usage.Bits = 0
      · simp [h1, h2]
      · have e1 : (Usage.Bits &&& Builder.Usage.Bits != 0) = true := by simpa using h2
        have e2 : (Builder.Usage.Bits != 0) = true := by simpa using h1
        rw [e1, e2]
        simp [h2]
  simp only [buffer.Build, hlive]
  by_cases hc : flags.ne (Usage.and Builder.Usage) Builder.Usage = true
  · simp only [hc, if_true]
    exact ⟨fun _ => key.mp hc, fun _ => trivial⟩
  · simp only [hc]
    constructor
    · intro h; simp at h
    · intro h; exact absurd (key.mpr h) hc

/-- C6, evaluated. A view requesting `{eVertex, eIndex}` from the buffer at address 1,
created with `{eVertex}` only, is built: `buffer::Build` returns the new view
at address 2, not null, and registers it in the pool. -/
theorem C6_buffer_view_with_missing_usage_is_built :
    example_buffer.Heap 1
      = some { toResource := {}, Derived := object.buffer 64 buffer.usage.eVertex } ∧
    (buffer.Build example_buffer 1
      { System := 1, Usage := buffer.usage.eVertex.or buffer.usage.eIndex } 2).1 = some 2 ∧
    (buffer.Build example_buffer 1
      { System := 1, Usage := buffer.usage.eVertex.or buffer.usage.eIndex } 2).2.ResourcePool.Resources
      = [1, 2] := by
  decide

/-- What `pipeline::Build( material::builder & )` returns on a live pipeline:
never null, whatever the length of the attached-resource list, and the new
material is registered in the pool. -/
theorem Build_material_never_null (S : system) (This New : Nat) (Builder : material.builder)
    (Beyond : material.attached_resource) (R : rc.resource) (RenderPass : render_pass)
    (Types : List pipeline.shader_binding_type)
    (hlive : S.Heap This = some { toResource := R, Derived := object.pipeline RenderPass Types }) :
    (pipeline.Build_material S This Builder New Beyond).1 = some New ∧
    New ∈ (pipeline.Build_material S This Builder New Beyond).2.ResourcePool.Resources := by
  simp [pipeline.Build_material, hlive, rc.pool.Add]

/-- C7, evaluated. On the pipeline at address 1, which declares one binding, a
material builder with an empty attached-resource list is not rejected:
`pipeline::Build` reads `AttachedResources[0]` outside the list, returns the
new material at address 2 and registers it in the pool; and on the pipeline
at address 6, which declares two bindings, a builder with three attached
resources is not rejected either: the material is returned and registered. -/
theorem C7_material_with_wrong_count_is_built :
    (∀ Beyond : material.attached_resource,
      (pipeline.Build_material example_pipeline 1 { System := 1 } 2 Beyond).1 = some 2 ∧
      fault.outOfBounds 0
        ∈ (pipeline.Build_material example_pipeline 1 { System := 1 } 2 Beyond).2.Faults ∧
      (pipeline.Build_material example_pipeline 1 { System := 1 } 2
        Beyond).2.ResourcePool.Resources = [1, 2]) ∧
    ((pipeline.Build_material scene.pipeline.2 6
      { System := 6,
        AttachedResources :=
          [{ Resource := 2, Sampler := 0 }, { IsTexture := true, Resource := 4, Sampler := 5 },
           { Resource := 2, Sampler := 0 }] }
      7 { Resource := 0, Sampler := 0 }).1 = some 7 ∧
     (pipeline.Build_material scene.pipeline.2 6
      { System := 6,
        AttachedResources :=
          [{ Resource := 2, Sampler := 0 }, { IsTexture := true, Resource := 4, Sampler := 5 },
           { Resource := 2, Sampler := 0 }] }
      7 { Resource := 0, Sampler := 0 }).2.ResourcePool.Resources = [1, 2, 3, 4, 5, 6, 7]) := by
  refine ⟨?_, by decide⟩
  intro Beyond
  have hlive : example_pipeline.Heap 1
      = some { toResource := { UseCount := 1 },
               Derived := object.pipeline render_pass.eGeometry
                 [pipeline.shader_binding_type.eUniformBuffer] } := by decide
  have hpool : example_pipeline.ResourcePool.Resources = [1] := by decide
  refine ⟨?_, ?_, ?_⟩
  · simp [pipeline.Build_material, hlive]
  · exact Build_material_reads_outside example_pipeline 1 2 { System := 1 } Beyond _ _ _ hlive
      (by decide)
  · rw [Build_material_ResourcePool example_pipeline 1 2 { System := 1 } Beyond _ _ _ hlive, hpool]
    rfl

end anv.render.core

namespace anv.render.core

/-! ### Instances of a primitive -/

theorem consistent_built {mat4x4 : Type} (Memory : Nat → primitive.instance) :
    primitive.consistent
      ({ Instances := [], Transforms := [], Memory := Memory } : primitive mat4x4) := by
  refine ⟨List.nodup_nil, rfl, Nat.zero_le _, ?_⟩
  intro i H h
  simp at h

theorem Instance_Memory_of_ne {mat4x4 : Type} (P : primitive mat4x4) (T : mat4x4) (New a : Nat)
    (h : a ≠ New) : (P.Instance T New).2.Memory a = P.Memory a := by
  simp [primitive.Instance, Function.update, h]

theorem Instance_Memory_Index {mat4x4 : Type} (P : primitive mat4x4) (T : mat4x4) (New : Nat) :
    ((P.Instance T New).2.Memory New).Index = P.Instances.length % UINT32_SIZE := by
  simp [primitive.Instance, Function.update]

theorem consistent_Instance {mat4x4 : Type} (P : primitive mat4x4) (T : mat4x4) (New : Nat)
    (hP : P.consistent) (hnew : New ∉ P.Instances) (hlen : P.Instances.length < UINT32_SIZE) :
    (P.Instance T New).2.consistent := by
  obtain ⟨hnd, hl, -, hst⟩ := hP
  have hI : (P.Instance T New).2.Instances = P.Instances ++ [New] := rfl
  have hT : (P.Instance T New).2.Transforms = P.Transforms ++ [T] := rfl
  refine ⟨?_, ?_, ?_, ?_⟩
  · rw [hI]
    exact List.Nodup.append hnd (List.nodup_singleton New) (by simpa using hnew)
  · rw [hI, hT]; simp [hl]
  · rw [hI]; simp; omega
  · intro i H hi
    rw [hI] at hi
    by_cases hlt : i < P.Instances.length
    · rw [List.getElem?_append_left hlt] at hi
      have hmem : H ∈ P.Instances := List.getElem?_mem hi
      have hne : H ≠ New := fun e => hnew (e ▸ hmem)
      rw [Instance_Memory_of_ne P T New H hne]
      exact hst i H hi
    · rw [List.getElem?_append_right (by omega)] at hi
      have hi0 : i - P.Instances.length = 0 := by
        by_contra hne
        rw [List.getElem?_eq_none (by simp; omega)] at hi
        exact Option.noConfusion hi
      rw [hi0] at hi
      simp at hi
      subst hi
      rw [Instance_Memory_Index, Nat.mod_eq_of_lt hlen]
      omega

theorem OnInstanceDestroy_loop_spec {mat4x4 : Type} (N : Nat) (hN : N < UINT32_SIZE) :
    ∀ (k Index : Nat) (P : primitive mat4x4), P.Instances.Nodup → N ≤ P.Instances.length →
      N ≤ Index + k →
      (primitive.OnInstanceDestroy.loop N k Index P).Instances = P.Instances ∧
      (primitive.OnInstanceDestroy.loop N k Index P).Transforms = P.Transforms ∧
      (∀ (i H : Nat), Index ≤ i → i < N → P.Instances[i]? = some H →
        ((primitive.OnInstanceDestroy.loop N k Index P).Memory H).Index = i) ∧
      (∀ a : Nat, (∀ i : Nat, Index ≤ i → i < N → P.Instances[i]? ≠ some a) →
        (primitive.OnInstanceDestroy.loop N k Index P).Memory a = P.Memory a) := by
  intro k
  induction k with
  | zero =>
    intro Index P _ _ hk
    refine ⟨rfl, rfl, ?_, fun a _ => rfl⟩
    intro i H h1 h2
    omega
  | succ k ih =>
    intro Index P hnd hlen hk
    by_cases hlt : Index < N
    · have hin : Index < P.Instances.length := by omega
      obtain ⟨H0, hget⟩ : ∃ H0, P.Instances[Index]? = some H0 :=
        ⟨_, List.getElem?_eq_getElem hin⟩
      have hmod : (Index + 1) % UINT32_SIZE = Index + 1 := Nat.mod_eq_of_lt (by omega)
      simp only [primitive.OnInstanceDestroy.loop, hlt, if_true, hget, hmod]
      obtain ⟨h1, h2, h3, h4⟩ := ih (Index + 1)
        ({ P with Memory := Function.update P.Memory H0 { P.Memory H0 with Index := Index } } :
          primitive mat4x4) hnd hlen (by omega)
      refine ⟨h1, h2, ?_, ?_⟩
      · intro i H hi1 hi2 hiH
        by_cases hi : i = Index
        · subst hi
          rw [hget] at hiH
          have hH : H0 = H := Option.some.inj hiH
          subst hH
          rw [h4 H0 ?_]
          · simp
          · intro j hj1 hj2 hj3
            have : i = j := List.getElem?_inj hin hnd (by rw [hget]; exact hj3.symm)
            omega
        · exact h3 i H (by omega) hi2 hiH
      · intro a ha
        rw [h4 a (fun i hi1 hi2 => ha i (by omega) hi2)]
        have hne : a ≠ H0 := by
          intro e
          exact ha Index (le_refl _) hlt (by rw [hget, e])
        simp [Function.update, hne]
    · have hloop : primitive.OnInstanceDestroy.loop N (k + 1) Index P = P := by
        simp only [primitive.OnInstanceDestroy.loop, hlt, if_false]
      rw [hloop]
      refine ⟨rfl, rfl, ?_, fun a _ => rfl⟩
      intro i H h1 h2
      omega

theorem consistent_OnInstanceDestroy {mat4x4 : Type} (P : primitive mat4x4) (Handle : Nat)
    (hP : P.consistent) (hmem : Handle ∈ P.Instances) :
    ∃ Q, P.OnInstanceDestroy Handle = some Q ∧ Q.consistent := by
  obtain ⟨hnd, hl, hle, hst⟩ := hP
  obtain ⟨j, hj⟩ := List.mem_iff_getElem?.mp hmem
  have hidx : (P.Memory Handle).Index = j := hst j Handle hj
  obtain ⟨hjlt, -⟩ := List.getElem?_eq_some.mp hj
  have hcond : (P.Memory Handle).Index < P.Instances.length ∧
      (P.Memory Handle).Index < P.Transforms.length := by
    rw [hidx]; exact ⟨hjlt, by omega⟩
  have hlenE : (P.Instances.eraseIdx j).length = P.Instances.length - 1 :=
    List.length_eraseIdx_of_lt hjlt
  have hlenT : (P.Transforms.eraseIdx j).length = P.Transforms.length - 1 :=
    List.length_eraseIdx_of_lt (by omega)
  have hN : (P.Instances.eraseIdx j).length % UINT32_SIZE = (P.Instances.eraseIdx j).length :=
    Nat.mod_eq_of_lt (by omega)
  have hndE : (P.Instances.eraseIdx j).Nodup := hnd.sublist (List.eraseIdx_sublist _ _)
  obtain ⟨h1, h2, h3, h4⟩ := OnInstanceDestroy_loop_spec (P.Instances.eraseIdx j).length
    (by omega) (P.Instances.eraseIdx j).length j
    ({ P with Instances := P.Instances.eraseIdx j, Transforms := P.Transforms.eraseIdx j } :
      primitive mat4x4)
    hndE (le_refl _) (by omega)
  refine ⟨primitive.OnInstanceDestroy.loop (P.Instances.eraseIdx j).length
    (P.Instances.eraseIdx j).length j
    ({ P with Instances := P.Instances.eraseIdx j, Transforms := P.Transforms.eraseIdx j } :
      primitive mat4x4), ?_, ?_⟩
  · rw [hidx] at hcond
    simp only [primitive.OnInstanceDestroy, hidx, hN]
    rw [if_pos hcond]
  · refine ⟨?_, ?_, ?_, ?_⟩
    · rw [h1]; exact hndE
    · rw [h1, h2]; simp only [hlenE, hlenT, hl]
    · rw [h1]; simp only [hlenE]; omega
    · intro i H hi
      rw [h1] at hi
      simp only at hi
      obtain ⟨hilt, -⟩ := List.getElem?_eq_some.mp hi
      by_cases hge : j ≤ i
      · exact h3 i H hge hilt hi
      · rw [h4 H ?_]
        · apply hst i H
          rw [← List.getElem?_eraseIdx_of_lt P.Instances j i (by omega)]
          exact hi
        · intro i2 hi2 _ hi3
          have : i = i2 := List.getElem?_inj hilt hndE (by rw [hi]; exact hi3.symm)
          omega

theorem consistent_of_reachable {mat4x4 : Type} (P : primitive mat4x4)
    (h : primitive.reachable P) : P.consistent := by
  induction h with
  | built Memory => exact consistent_built Memory
  | Instance P T New _ hnew hlen ih => exact consistent_Instance P T New ih hnew hlen
  | OnInstanceDestroy P Q H _ hmem hQ ih =>
    obtain ⟨Q2, hQ2, hc⟩ := consistent_OnInstanceDestroy P H ih hmem
    rw [hQ] at hQ2
    cases hQ2
    exact hc

/-- C8. After any sequence of `Instance` creations and of `OnInstanceDestroy`
calls on handles the primitive holds, every handle stores its own position:
`Instances[i]->Index == i` for all `i < Instances.size()`; and on such a
primitive `OnInstanceDestroy` of a held handle is defined (its two `erase`
calls are in range). -/
theorem C8_instances_store_their_position {mat4x4 : Type} (P : primitive mat4x4)
    (h : primitive.reachable P) :
    (∀ (i : Nat) (hi : i < P.Instances.length),
      (P.Memory (P.Instances.get ⟨i, hi⟩)).Index = i) ∧
    (∀ Handle : Nat, Handle ∈ P.Instances → (P.OnInstanceDestroy Handle).isSome = true) := by
  have hc := consistent_of_reachable P h
  refine ⟨?_, ?_⟩
  · intro i hi
    exact hc.2.2.2 i _ (List.getElem?_eq_getElem hi)
  · intro H hH
    obtain ⟨Q, hQ, -⟩ := consistent_OnInstanceDestroy P H hc hH
    rw [hQ]; rfl

/-- Witness of C8: three instances are created at the addresses 10, 11, 12,
the first is destroyed; the handle at address 12 is then at position 1 and
stores the index 1. -/
theorem C8_instances_store_their_position_witness :
    primitive.reachable example_instances_destroyed ∧
    (example_instances_destroyed.Memory
      (example_instances_destroyed.Instances.get ⟨1, by decide⟩)).Index = 1 :=
  have h0 : primitive.reachable ({} : primitive Nat) := primitive.reachable.built (fun _ => {})
  have h1 := primitive.reachable.Instance _ 7 10 h0 (by decide) (by decide)
  have h2 := primitive.reachable.Instance _ 8 11 h1 (by decide) (by decide)
  have h3 := primitive.reachable.Instance _ 9 12 h2 (by decide) (by decide)
  have h4 : primitive.reachable example_instances_destroyed :=
    primitive.reachable.OnInstanceDestroy example_instances example_instances_destroyed 10 h3
      (by decide) (by rfl)
  ⟨h4, (C8_instances_store_their_position example_instances_destroyed h4).1 1 (by decide)⟩

/-- C9. On a primitive holding `n` instances (`n` fitting a `UINT32`),
`Instance(T)` returns a handle whose stored `Index` is `n`; afterwards
`Instances` and `Transforms` have length `n + 1`, with the new handle at
`Instances[n]` and `T` at `Transforms[n]`, and the first `n` entries of both
vectors, as well as every other instance object, are unchanged. -/
theorem C9_Instance_appends_at_own_index {mat4x4 : Type} (P : primitive mat4x4) (T : mat4x4)
    (New n : Nat) (hI : P.Instances.length = n) (hT : P.Transforms.length = n)
    (hn : n < UINT32_SIZE) :
    (P.Instance T New).1 = New ∧
    ((P.Instance T New).2.Memory (P.Instance T New).1).Index = n ∧
    (P.Instance T New).2.Instances.length = n + 1 ∧
    (P.Instance T New).2.Transforms.length = n + 1 ∧
    (P.Instance T New).2.Instances[n]? = some (P.Instance T New).1 ∧
    (P.Instance T New).2.Transforms[n]? = some T ∧
    (P.Instance T New).2.Instances.take n = P.Instances ∧
    (P.Instance T New).2.Transforms.take n = P.Transforms ∧
    (∀ a : Nat, a ≠ New → (P.Instance T New).2.Memory a = P.Memory a) := by
  have hI2 : (P.Instance T New).2.Instances = P.Instances ++ [New] := rfl
  have hT2 : (P.Instance T New).2.Transforms = P.Transforms ++ [T] := rfl
  have h1 : (P.Instance T New).1 = New := rfl
  refine ⟨h1, ?_, ?_, ?_, ?_, ?_, ?_, ?_, ?_⟩
  · rw [h1, Instance_Memory_Index, hI, Nat.mod_eq_of_lt hn]
  · rw [hI2]; simp [hI]
  · rw [hT2]; simp [hT]
  · rw [hI2, h1, List.getElem?_append_right (by omega)]; simp [hI]
  · rw [hT2, List.getElem?_append_right (by omega)]; simp [hT]
  · rw [hI2, ← hI]; simp
  · rw [hT2, ← hT]; simp
  · intro a ha
    exact Instance_Memory_of_ne P T New a ha

/-- Witness of C9: a fourth instance, created at address 13 with transform 5 on
the primitive that holds three. -/
theorem C9_Instance_appends_at_own_index_witness :
    example_instances.Instances.length = 3 ∧ example_instances.Transforms.length = 3 ∧
    3 < UINT32_SIZE ∧
    ((example_instances.Instance 5 13).2.Memory (example_instances.Instance 5 13).1).Index = 3 ∧
    (example_instances.Instance 5 13).2.Transforms[3]? = some 5 :=
  ⟨by decide, by decide, by decide,
    (C9_Instance_appends_at_own_index example_instances 5 13 3 (by decide) (by decide)
      (by decide)).2.1,
    (C9_Instance_appends_at_own_index example_instances 5 13 3 (by decide) (by decide)
      (by decide)).2.2.2.2.2.1⟩

end anv.render.core

namespace anv.rc

/-! ### The values returned by the pool -/

theorem CollectGarbage_loop_index_le {σ : Type} (UseCount : σ → Nat → Int)
    (OnDestroy : Nat → σ → σ) : ∀ (k i : Nat) (S : sweep σ),
    S.LastFreeResourceIndex ≤ i → S.LastFreeResourceIndex ≤ S.Resources.length →
    (pool.CollectGarbage.loop UseCount OnDestroy k i S).LastFreeResourceIndex
      ≤ (pool.CollectGarbage.loop UseCount OnDestroy k i S).Resources.length := by
  intro k
  induction k with
  | zero => intro i S _ h; exact h
  | succ k ih =>
    intro i S hi hl
    simp only [pool.CollectGarbage.loop]
    cases hget : S.Resources[i]? with
    | none => exact hl
    | some R =>
      obtain ⟨hlt, -⟩ := List.getElem?_eq_some.mp hget
      simp only
      split
      · exact ih (i + 1) _ (by simp; omega) (by simpa using hl)
      · have hmod := Nat.mod_le (S.LastFreeResourceIndex + 1) UINT32_SIZE
        exact ih (i + 1) _ (by simp; omega) (by simp; omega)

theorem mem_live_iff (E : List (Nat × Int)) (R : Nat) :
    R ∈ pool.live E ↔ ∃ c : Int, (R, c) ∈ E ∧ 0 < c := by
  simp only [pool.live, List.mem_map, List.mem_filter, decide_eq_true_eq]
  constructor
  · rintro ⟨⟨R2, c⟩, ⟨hm, hc⟩, hR⟩
    simp only at hR hc
    subst hR
    exact ⟨c, hm, hc⟩
  · rintro ⟨c, hm, hc⟩
    exact ⟨(R, c), ⟨hm, hc⟩, rfl⟩

/-- C12. On a pool whose size fits the `UINT32` counter of the sweep,
`CollectGarbage` returns TRUE if and only if the sweep read a use-count
`> 0` for at least one resource of the pool (each count being read through
`UseCount` in the state left by the callbacks run before); the pool
afterwards holds exactly the resources with such a reading, so TRUE is
returned if and only if the pool holds at least one resource after the
sweep, and FALSE if and only if the sweep leaves it empty; in particular
FALSE is returned on a pool that was empty before. -/
theorem C12_CollectGarbage_returns_whether_something_remains {σ : Type}
    (UseCount : σ → Nat → Int) (OnDestroy : Nat → σ → σ) (P : pool) (W : σ)
    (hlen : P.Resources.length < UINT32_SIZE) :
    ((pool.CollectGarbage UseCount OnDestroy P W).Result = true ↔
      ∃ (R : Nat) (c : Int),
        (R, c) ∈ pool.readings UseCount OnDestroy P.Resources W ∧ 0 < c) ∧
    ((pool.CollectGarbage UseCount OnDestroy P W).Result = false ↔
      ∀ (R : Nat) (c : Int),
        (R, c) ∈ pool.readings UseCount OnDestroy P.Resources W → c ≤ 0) ∧
    (pool.CollectGarbage UseCount OnDestroy P W).Result
      = !(pool.live (pool.readings UseCount OnDestroy P.Resources W)).isEmpty ∧
    (pool.CollectGarbage UseCount OnDestroy P W).Pool.Resources
      = pool.live (pool.readings UseCount OnDestroy P.Resources W) ∧
    (pool.CollectGarbage UseCount OnDestroy P W).Examined
      = pool.readings UseCount OnDestroy P.Resources W ∧
    ((pool.CollectGarbage UseCount OnDestroy P W).Result = true ↔
      (pool.CollectGarbage UseCount OnDestroy P W).Pool.Resources ≠ []) ∧
    ((pool.CollectGarbage UseCount OnDestroy P W).Result = false ↔
      (pool.CollectGarbage UseCount OnDestroy P W).Pool.Resources = []) ∧
    (pool.CollectGarbage UseCount OnDestroy { Resources := [] } W).Result = false := by
  obtain ⟨hE, -, hP, hR⟩ := CollectGarbage_spec UseCount OnDestroy P W hlen
  have key : (pool.CollectGarbage UseCount OnDestroy P W).Result = true ↔
      (pool.CollectGarbage UseCount OnDestroy P W).Pool.Resources ≠ [] := by
    rw [hR, hP]
    cases pool.live (pool.readings UseCount OnDestroy P.Resources W) <;> simp
  have hex : (pool.CollectGarbage UseCount OnDestroy P W).Result = true ↔
      ∃ (R : Nat) (c : Int),
        (R, c) ∈ pool.readings UseCount OnDestroy P.Resources W ∧ 0 < c := by
    rw [key, hP]
    constructor
    · intro hne
      obtain ⟨R, hmem⟩ := List.exists_mem_of_ne_nil _ hne
      obtain ⟨c, hm, hc⟩ := (mem_live_iff _ R).1 hmem
      exact ⟨R, c, hm, hc⟩
    · rintro ⟨R, c, hm, hc⟩ hnil
      have hmem := (mem_live_iff _ R).2 ⟨c, hm, hc⟩
      rw [hnil] at hmem
      exact List.not_mem_nil _ hmem
  refine ⟨hex, ?_, hR, hP, hE, key, ?_, rfl⟩
  · rw [← Bool.not_eq_true, hex]
    constructor
    · intro h R c hm
      by_contra hc
      exact h ⟨R, c, hm, by omega⟩
    · rintro h ⟨R, c, hm, hc⟩
      have := h R c hm
      omega
  · rw [← Bool.not_eq_true, key]
    simp

/-- Witness of C12 in the render core: in a pool holding a used buffer and an
unused view of it, the sweep reads the count 1 for the buffer and returns
TRUE. -/
theorem C12_CollectGarbage_returns_whether_something_remains_witness :
    render.core.example_view.ResourcePool.Resources.length < UINT32_SIZE ∧
    (pool.CollectGarbage render.core.system.GetUseCount render.core.OnDestroy
      render.core.example_view.ResourcePool render.core.example_view).Result = true :=
  ⟨by decide,
    (C12_CollectGarbage_returns_whether_something_remains render.core.system.GetUseCount
      render.core.OnDestroy render.core.example_view.ResourcePool render.core.example_view
      (by decide)).1.mpr ⟨1, 1, by decide, by decide⟩⟩

/-- What `Clear` leaves and returns: the pool still lists the survivors of
the sweep, and the value returned tells whether there was none. -/
theorem Clear_pool_and_result {σ : Type} (UseCount : σ → Nat → Int) (OnDestroy : Nat → σ → σ)
    (P : pool) (W : σ) (hlen : P.Resources.length < UINT32_SIZE) :
    (pool.Clear UseCount OnDestroy P W).Pool.Resources
      = pool.live (pool.readings UseCount OnDestroy P.Resources W) ∧
    (pool.Clear UseCount OnDestroy P W).Result
      = (pool.live (pool.readings UseCount OnDestroy P.Resources W)).isEmpty := by
  obtain ⟨-, -, hP, -⟩ := CollectGarbage_spec UseCount OnDestroy P W hlen
  simp only [pool.Clear]
  exact ⟨hP, by rw [hP]⟩

/-- C11, evaluated. `Clear` on the pool of a render core that holds one image
with use-count 1: `OnDestroy` is called on the image, the pool still lists
it afterwards, and `Clear` returns FALSE. -/
theorem C11_Clear_keeps_survivors_and_returns_false :
    render.core.example_image.ResourcePool.Resources = [1] ∧
    render.core.example_image.GetUseCount 1 = 1 ∧
    (pool.Clear render.core.system.GetUseCount render.core.OnDestroy
      render.core.example_image.ResourcePool render.core.example_image).Destroyed = [1] ∧
    (pool.Clear render.core.system.GetUseCount render.core.OnDestroy
      render.core.example_image.ResourcePool render.core.example_image).Pool.Resources = [1] ∧
    (pool.Clear render.core.system.GetUseCount render.core.OnDestroy
      render.core.example_image.ResourcePool render.core.example_image).Result = false := by
  decide

end anv.rc

namespace anv.render.core

/-! ### Use-counts through `Grab` and `Release` -/

theorem holds_GetUseCount (S : system) (a : Nat) (D : object) (c : Int) (h : S.holds a D c) :
    S.GetUseCount a = c := by
  unfold system.holds at h
  simp [system.GetUseCount, h, rc.resource.GetUseCount]

theorem holds_of_Heap (S : system) (a : Nat) (M : managed) (h : S.Heap a = some M) :
    S.holds a M.Derived (S.GetUseCount a) := by
  unfold system.holds
  simp [system.GetUseCount, h, rc.resource.GetUseCount]

theorem holds_Grab (S : system) (a b : Nat) (D : object) (c k : Int)
    (h : S.holds a D (wrapINT32 (c + k))) :
    (S.Grab b).holds a D (wrapINT32 (c + (k + if b = a then 1 else 0))) := by
  unfold system.holds at h ⊢
  unfold system.Grab
  by_cases hb : b = a
  · subst hb
    simp only [h, Function.update_same, if_true, rc.resource.Grab]
    rw [wrapINT32_add_wrapINT32, add_assoc]
  · simp only [hb, if_false, add_zero]
    cases hB : S.Heap b with
    | none => exact h
    | some M =>
      simp only
      rw [Function.update_noteq (fun e => hb e.symm)]
      exact h

theorem holds_Release (S : system) (a b : Nat) (D : object) (c k : Int)
    (h : S.holds a D (wrapINT32 (c + k))) :
    (S.Release b).holds a D (wrapINT32 (c + (k - if b = a then 1 else 0))) := by
  unfold system.holds at h ⊢
  unfold system.Release
  by_cases hb : b = a
  · subst hb
    simp only [h, Function.update_same, if_true, rc.resource.Release]
    have := wrapINT32_add_wrapINT32 (c + k) (-1)
    simp only [← sub_eq_add_neg] at this
    rw [this]
    have e : c + k - 1 = c + (k - 1) := by omega
    rw [e]
  · simp only [hb, if_false, sub_zero]
    cases hB : S.Heap b with
    | none => exact h
    | some M =>
      simp only
      rw [Function.update_noteq (fun e => hb e.symm)]
      exact h

theorem holds_GrabPointer (S : system) (a : Nat) (p : Option Nat) (D : object) (c k : Int)
    (h : S.holds a D (wrapINT32 (c + k))) :
    (S.GrabPointer p).holds a D (wrapINT32 (c + (k + if p = some a then 1 else 0))) := by
  cases p with
  | none => simpa [system.GrabPointer, system.holds] using h
  | some b =>
    have := holds_Grab S a b D c k h
    simpa [system.GrabPointer] using this

theorem holds_ReleasePointer (S : system) (a : Nat) (p : Option Nat) (D : object) (c k : Int)
    (h : S.holds a D (wrapINT32 (c + k))) :
    (S.ReleasePointer p).holds a D (wrapINT32 (c + (k - if p = some a then 1 else 0))) := by
  cases p with
  | none => simpa [system.ReleasePointer, system.holds] using h
  | some b =>
    have := holds_Release S a b D c k h
    simpa [system.ReleasePointer] using this

theorem holds_foldl_Grab (L : List Nat) : ∀ (S : system) (a : Nat) (D : object) (c k : Int),
    S.holds a D (wrapINT32 (c + k)) →
    (L.foldl system.Grab S).holds a D (wrapINT32 (c + (k + (L.count a : Int)))) := by
  induction L with
  | nil => intro S a D c k h; simpa using h
  | cons b L ih =>
    intro S a D c k h
    have h1 := ih (S.Grab b) a D c _ (holds_Grab S a b D c k h)
    simp only [List.foldl_cons]
    have e : k + (if b = a then 1 else 0) + ((L.count a : Nat) : Int)
        = k + (((b :: L).count a : Nat) : Int) := by
      rw [List.count_cons]
      by_cases hb : b = a
      · simp only [hb, if_true, beq_self_eq_true]; push_cast; omega
      · simp [hb]
    rw [e] at h1
    exact h1

theorem holds_foldl_Release (L : List Nat) : ∀ (S : system) (a : Nat) (D : object) (c k : Int),
    S.holds a D (wrapINT32 (c + k)) →
    (L.foldl system.Release S).holds a D (wrapINT32 (c + (k - (L.count a : Int)))) := by
  induction L with
  | nil => intro S a D c k h; simpa using h
  | cons b L ih =>
    intro S a D c k h
    have h1 := ih (S.Release b) a D c _ (holds_Release S a b D c k h)
    simp only [List.foldl_cons]
    have e : k - (if b = a then 1 else 0) - ((L.count a : Nat) : Int)
        = k - (((b :: L).count a : Nat) : Int) := by
      rw [List.count_cons]
      by_cases hb : b = a
      · simp only [hb, if_true, beq_self_eq_true]; push_cast; omega
      · simp [hb]
    rw [e] at h1
    exact h1

theorem holds_operator_new (S : system) (a New : Nat) (D E : object) (c : Int)
    (h : S.holds a D c) (hne : a ≠ New) : (S.operator_new New E).holds a D c := by
  unfold system.holds at h ⊢
  simp only [system.operator_new]
  rw [Function.update_noteq hne]
  exact h

theorem holds_operator_delete (S : system) (a Old : Nat) (D : object) (c : Int)
    (h : S.holds a D c) (hne : a ≠ Old) : (S.operator_delete Old).holds a D c := by
  unfold system.holds at h ⊢
  simp only [system.operator_delete]
  rw [Function.update_noteq hne]
  exact h

theorem holds_assign (S : system) (a b : Nat) (D E : object) (c : Int)
    (h : S.holds a D c) (hne : a ≠ b) : (S.assign b E).holds a D c := by
  unfold system.holds at h ⊢
  unfold system.assign
  cases hB : S.Heap b with
  | none => exact h
  | some M =>
    simp only
    rw [Function.update_noteq hne]
    exact h

end anv.render.core

namespace anv.render.core

/-! ### Primitives: references taken at `Build`, dropped at `OnDestroy` -/

theorem holds_assign_self (S : system) (b : Nat) (D E : object) (c : Int) (h : S.holds b D c) :
    (S.assign b E).holds b E c := by
  unfold system.holds at h ⊢
  simp [system.assign, h]

theorem holds_operator_new_self (S : system) (New : Nat) (E : object) :
    (S.operator_new New E).holds New E 0 := by
  simp [system.holds, system.operator_new]

theorem references_nonneg (This : Nat) (Builder : primitive.builder) (a : Nat) :
    0 ≤ primitive.builder.references This Builder a := by
  unfold primitive.builder.references
  have h1 : (0 : Int) ≤ (if This = a then 1 else 0) := by split <;> decide
  have h2 : (0 : Int) ≤ (if Builder.IndexBufferView = some a then 1 else 0) := by
    split <;> decide
  have h3 : (0 : Int) ≤ (if Builder.Material = some a then 1 else 0) := by split <;> decide
  have h4 : (0 : Int) ≤ (Builder.VertexBufferViews.count a : Int) := Int.natCast_nonneg _
  omega

/-- The state after `pipeline::Build( primitive::builder & )` on a live pipeline,
seen from an object `a` that was live before, and from the new primitive. -/
theorem Build_primitive_holds (S : system) (This New : Nat) (Builder : primitive.builder)
    (R : rc.resource) (RenderPass : render_pass) (Types : List pipeline.shader_binding_type)
    (a : Nat) (D : object) (c : Int)
    (hlive : S.Heap This = some { toResource := R, Derived := object.pipeline RenderPass Types })
    (hne : a ≠ New) (ha : S.holds a D c) (hc : isINT32 c) :
    (pipeline.Build_primitive S This Builder New).1 = some New ∧
    (pipeline.Build_primitive S This Builder New).2.holds a D
      (wrapINT32 (c + primitive.builder.references This Builder a)) ∧
    ∃ cN : Int, (pipeline.Build_primitive S This Builder New).2.holds New
      (object.primitive This Builder.Material Builder.IndexBufferView Builder.VertexBufferViews)
      cN := by
  have h0 : S.holds a D (wrapINT32 (c + 0)) := by
    rw [add_zero, wrapINT32_of_isINT32 c hc]; exact ha
  have h1 := holds_operator_new S a New D (object.primitive This none none []) _ h0 hne
  have h2 := holds_Grab _ a This D c 0 h1
  have h3 := holds_assign _ a New D
    (object.primitive This Builder.Material Builder.IndexBufferView Builder.VertexBufferViews)
    _ h2 hne
  have h4 := holds_GrabPointer _ a Builder.IndexBufferView D c _ h3
  have h5 := holds_foldl_Grab Builder.VertexBufferViews _ a D c _ h4
  have h6 := holds_GrabPointer _ a Builder.Material D c _ h5
  have n1 : (S.operator_new New (object.primitive This none none [])).holds New
      (object.primitive This none none []) (wrapINT32 (0 + 0)) :=
    holds_operator_new_self S New _
  have n2 := holds_Grab _ New This _ 0 0 n1
  have n3 := holds_assign_self _ New _
    (object.primitive This Builder.Material Builder.IndexBufferView Builder.VertexBufferViews)
    _ n2
  have n4 := holds_GrabPointer _ New Builder.IndexBufferView _ 0 _ n3
  have n5 := holds_foldl_Grab Builder.VertexBufferViews _ New _ 0 _ n4
  have n6 := holds_GrabPointer _ New Builder.Material _ 0 _ n5
  refine ⟨?_, ?_, ?_⟩
  · simp [pipeline.Build_primitive, hlive]
  · simp only [pipeline.Build_primitive, hlive, primitive.builder.references]
    simp only [zero_add] at h6
    exact h6
  · simp only [pipeline.Build_primitive, hlive]
    exact ⟨_, n6⟩

/-- The `OnDestroy` of a live primitive, spelled out. -/
theorem OnDestroy_primitive (T : system) (This Pipeline : Nat) (Material IndexBuffer : Option Nat)
    (VertexBuffers : List Nat) (cN : Int)
    (h : T.holds This (object.primitive Pipeline Material IndexBuffer VertexBuffers) cN) :
    OnDestroy This T
      = ((((VertexBuffers.foldl system.Release
            (if IndexBuffer.isSome then T.ReleasePointer IndexBuffer else T)).ReleasePointer
            Material).Release Pipeline).operator_delete This) := by
  unfold system.holds at h
  simp [OnDestroy, h]

theorem holds_release_index (T : system) (a : Nat) (p : Option Nat) (D : object) (c k : Int)
    (h : T.holds a D (wrapINT32 (c + k))) :
    (if p.isSome then T.ReleasePointer p else T).holds a D
      (wrapINT32 (c + (k - if p = some a then 1 else 0))) := by
  cases p with
  | none => simpa using h
  | some b => simpa using holds_ReleasePointer T a (some b) D c k h

/-! Liveness through the heap operations, and the faults of calls through
pointers to live objects. -/

theorem live_operator_new (S : system) (New b : Nat) (E : object) (h : S.Heap b ≠ none) :
    (S.operator_new New E).Heap b ≠ none := by
  simp only [system.operator_new]
  by_cases hb : b = New
  · rw [hb, Function.update_same]; exact Option.some_ne_none _
  · rw [Function.update_noteq hb]; exact h

theorem live_Grab (S : system) (a b : Nat) (h : S.Heap b ≠ none) : (S.Grab a).Heap b ≠ none := by
  unfold system.Grab
  cases hA : S.Heap a with
  | none => exact h
  | some M =>
    simp only
    by_cases hb : b = a
    · rw [hb, Function.update_same]; exact Option.some_ne_none _
    · rw [Function.update_noteq hb]; exact h

theorem live_Release (S : system) (a b : Nat) (h : S.Heap b ≠ none) :
    (S.Release a).Heap b ≠ none := by
  unfold system.Release
  cases hA : S.Heap a with
  | none => exact h
  | some M =>
    simp only
    by_cases hb : b = a
    · rw [hb, Function.update_same]; exact Option.some_ne_none _
    · rw [Function.update_noteq hb]; exact h

theorem live_assign (S : system) (a b : Nat) (E : object) (h : S.Heap b ≠ none) :
    (S.assign a E).Heap b ≠ none := by
  unfold system.assign
  cases hA : S.Heap a with
  | none => exact h
  | some M =>
    simp only
    by_cases hb : b = a
    · rw [hb, Function.update_same]; exact Option.some_ne_none _
    · rw [Function.update_noteq hb]; exact h

theorem live_foldl_Grab (L : List Nat) : ∀ (S : system) (b : Nat), S.Heap b ≠ none →
    (L.foldl system.Grab S).Heap b ≠ none := by
  induction L with
  | nil => intro S b h; exact h
  | cons a L ih => intro S b h; exact ih _ b (live_Grab S a b h)

theorem live_foldl_Release (L : List Nat) : ∀ (S : system) (b : Nat), S.Heap b ≠ none →
    (L.foldl system.Release S).Heap b ≠ none := by
  induction L with
  | nil => intro S b h; exact h
  | cons a L ih => intro S b h; exact ih _ b (live_Release S a b h)

theorem Faults_Grab_of_live (S : system) (a : Nat) (h : S.Heap a ≠ none) :
    (S.Grab a).Faults = S.Faults := by
  unfold system.Grab
  cases hA : S.Heap a with
  | none => exact absurd hA h
  | some M => rfl

theorem Faults_Release_of_live (S : system) (a : Nat) (h : S.Heap a ≠ none) :
    (S.Release a).Faults = S.Faults := by
  unfold system.Release
  cases hA : S.Heap a with
  | none => exact absurd hA h
  | some M => rfl

theorem Faults_assign_of_live (S : system) (a : Nat) (E : object) (h : S.Heap a ≠ none) :
    (S.assign a E).Faults = S.Faults := by
  unfold system.assign
  cases hA : S.Heap a with
  | none => exact absurd hA h
  | some M => rfl

theorem Faults_foldl_Grab_of_live (L : List Nat) : ∀ (S : system),
    (∀ v ∈ L, S.Heap v ≠ none) → (L.foldl system.Grab S).Faults = S.Faults := by
  induction L with
  | nil => intro S _; rfl
  | cons a L ih =>
    intro S h
    simp only [List.foldl_cons]
    rw [ih (S.Grab a) (fun v hv => live_Grab S a v (h v (List.mem_cons_of_mem _ hv))),
      Faults_Grab_of_live S a (h a (List.mem_cons_self _ _))]

theorem Faults_foldl_Release_of_live (L : List Nat) : ∀ (S : system),
    (∀ v ∈ L, S.Heap v ≠ none) → (L.foldl system.Release S).Faults = S.Faults := by
  induction L with
  | nil => intro S _; rfl
  | cons a L ih =>
    intro S h
    simp only [List.foldl_cons]
    rw [ih (S.Release a) (fun v hv => live_Release S a v (h v (List.mem_cons_of_mem _ hv))),
      Faults_Release_of_live S a (h a (List.mem_cons_self _ _))]

/-- A build of a primitive whose pipeline is live and whose builder holds
pointers to live objects only: every call it makes is defined (the log of
faults is unchanged), the primitive is registered, and every object that
was live is still live. -/
theorem Build_primitive_defined (S : system) (This New Index Material : Nat)
    (Views : List Nat) (R : rc.resource) (RenderPass : render_pass)
    (Types : List pipeline.shader_binding_type)
    (hlive : S.Heap This = some { toResource := R, Derived := object.pipeline RenderPass Types })
    (hindex : S.Heap Index ≠ none) (hmaterial : S.Heap Material ≠ none)
    (hviews : ∀ v ∈ Views, S.Heap v ≠ none) :
    (pipeline.Build_primitive S This
      { System := This, VertexBufferViews := Views, IndexBufferView := some Index,
        Material := some Material } New).2.Faults = S.Faults ∧
    (pipeline.Build_primitive S This
      { System := This, VertexBufferViews := Views, IndexBufferView := some Index,
        Material := some Material } New).2.PrimitivePool.Resources
      = S.PrimitivePool.Resources ++ [New] ∧
    ∀ b : Nat, S.Heap b ≠ none →
      (pipeline.Build_primitive S This
        { System := This, VertexBufferViews := Views, IndexBufferView := some Index,
          Material := some Material } New).2.Heap b ≠ none := by
  have hThis : S.Heap This ≠ none := by rw [hlive]; exact Option.some_ne_none _
  have l1 : ∀ b, S.Heap b ≠ none →
      (S.operator_new New (object.primitive This none none [])).Heap b ≠ none :=
    fun b h => live_operator_new S New b _ h
  have l2 : ∀ b, S.Heap b ≠ none →
      ((S.operator_new New (object.primitive This none none [])).Grab This).Heap b ≠ none :=
    fun b h => live_Grab _ This b (l1 b h)
  have hNew : ((S.operator_new New (object.primitive This none none [])).Grab This).Heap New
      ≠ none := by
    apply live_Grab
    simp [system.operator_new]
  have l3 : ∀ b, S.Heap b ≠ none →
      (((S.operator_new New (object.primitive This none none [])).Grab This).assign New
        (object.primitive This (some Material) (some Index) Views)).Heap b ≠ none :=
    fun b h => live_assign _ New b _ (l2 b h)
  have l4 : ∀ b, S.Heap b ≠ none →
      ((((S.operator_new New (object.primitive This none none [])).Grab This).assign New
        (object.primitive This (some Material) (some Index) Views)).Grab Index).Heap b
        ≠ none :=
    fun b h => live_Grab _ Index b (l3 b h)
  have l5 : ∀ b, S.Heap b ≠ none →
      (Views.foldl system.Grab
        ((((S.operator_new New (object.primitive This none none [])).Grab This).assign New
          (object.primitive This (some Material) (some Index) Views)).Grab Index)).Heap b
        ≠ none :=
    fun b h => live_foldl_Grab Views _ b (l4 b h)
  simp only [pipeline.Build_primitive, hlive, system.GrabPointer]
  refine ⟨?_, ?_, ?_⟩
  · rw [Faults_Grab_of_live _ Material (l5 Material hmaterial),
      Faults_foldl_Grab_of_live Views _ (fun v hv => l4 v (hviews v hv)),
      Faults_Grab_of_live _ Index (l3 Index hindex),
      Faults_assign_of_live _ New _ hNew,
      Faults_Grab_of_live _ This (l1 This hThis)]
    rfl
  · simp only [rc.pool.Add]
    have e1 : ∀ (T : system) (a : Nat), (T.Grab a).PrimitivePool = T.PrimitivePool := by
      intro T a; unfold system.Grab; split <;> rfl
    have e2 : ∀ (T : system) (a : Nat) (E : object),
        (T.assign a E).PrimitivePool = T.PrimitivePool := by
      intro T a E; unfold system.assign; split <;> rfl
    have e3 : ∀ (L : List Nat) (T : system),
        (L.foldl system.Grab T).PrimitivePool = T.PrimitivePool := by
      intro L
      induction L with
      | nil => intro T; rfl
      | cons a L ih => intro T; simp only [List.foldl_cons]; rw [ih, e1]
    rw [e1, e3, e1, e2, e1]
    rfl
  · intro b h
    exact live_Grab _ Material b (l5 b h)

/-- C14. On a live pipeline, with `new` returning an address not in use and a
builder whose index-buffer view, material and vertex-buffer views are
pointers to live objects, `pipeline::Build( primitive::builder & )` makes
only defined calls (the log of faults is unchanged), registers and returns
the new primitive, and raises the use-count of every live object by the
number of references the primitive takes to it (one for its pipeline, its
material, its index-buffer view and each occurrence among its vertex-buffer
views); the `OnDestroy` of the primitive, again making only defined calls,
lowers it by the same number: afterwards the use-count is what it was
before the build. -/
theorem C14_primitive_build_destroy_balance (S : system) (This New Index Material : Nat)
    (Views : List Nat) (R : rc.resource) (RenderPass : render_pass)
    (Types : List pipeline.shader_binding_type) (a : Nat)
    (hlive : S.Heap This = some { toResource := R, Derived := object.pipeline RenderPass Types })
    (hfresh : S.Heap New = none)
    (hindex : S.Heap Index ≠ none) (hmaterial : S.Heap Material ≠ none)
    (hviews : ∀ v ∈ Views, S.Heap v ≠ none)
    (ha : S.Heap a ≠ none) (hc : isINT32 (S.GetUseCount a)) :
    (pipeline.Build_primitive S This
      { System := This, VertexBufferViews := Views, IndexBufferView := some Index,
        Material := some Material } New).1 = some New ∧
    (pipeline.Build_primitive S This
      { System := This, VertexBufferViews := Views, IndexBufferView := some Index,
        Material := some Material } New).2.Faults = S.Faults ∧
    (pipeline.Build_primitive S This
      { System := This, VertexBufferViews := Views, IndexBufferView := some Index,
        Material := some Material } New).2.PrimitivePool.Resources
      = S.PrimitivePool.Resources ++ [New] ∧
    (pipeline.Build_primitive S This
      { System := This, VertexBufferViews := Views, IndexBufferView := some Index,
        Material := some Material } New).2.GetUseCount a
      = wrapINT32 (S.GetUseCount a + primitive.builder.references This
          { System := This, VertexBufferViews := Views, IndexBufferView := some Index,
            Material := some Material } a) ∧
    primitive.builder.references This
        { System := This, VertexBufferViews := Views, IndexBufferView := some Index,
          Material := some Material } a
      = (if This = a then 1 else 0) + (if Index = a then 1 else 0)
        + (Views.count a : Int) + (if Material = a then 1 else 0) ∧
    (S.GetUseCount a + primitive.builder.references This
        { System := This, VertexBufferViews := Views, IndexBufferView := some Index,
          Material := some Material } a < 2147483648 →
      (pipeline.Build_primitive S This
        { System := This, VertexBufferViews := Views, IndexBufferView := some Index,
          Material := some Material } New).2.GetUseCount a
        = S.GetUseCount a + primitive.builder.references This
            { System := This, VertexBufferViews := Views, IndexBufferView := some Index,
              Material := some Material } a) ∧
    (OnDestroy New (pipeline.Build_primitive S This
      { System := This, VertexBufferViews := Views, IndexBufferView := some Index,
        Material := some Material } New).2).Faults = S.Faults ∧
    (OnDestroy New (pipeline.Build_primitive S This
      { System := This, VertexBufferViews := Views, IndexBufferView := some Index,
        Material := some Material } New).2).Heap New = none ∧
    (OnDestroy New (pipeline.Build_primitive S This
      { System := This, VertexBufferViews := Views, IndexBufferView := some Index,
        Material := some Material } New).2).GetUseCount a
      = S.GetUseCount a := by
  obtain ⟨M, hM⟩ := Option.ne_none_iff_exists'.mp ha
  have hne : a ≠ New := by
    intro e; rw [e, hfresh] at hM; exact Option.noConfusion hM
  have hThis : S.Heap This ≠ none := by rw [hlive]; exact Option.some_ne_none _
  have hold := holds_of_Heap S a M hM
  obtain ⟨h1, h2, cN, h3⟩ := Build_primitive_holds S This New
    { System := This, VertexBufferViews := Views, IndexBufferView := some Index,
      Material := some Material } R RenderPass Types a
    M.Derived (S.GetUseCount a) hlive hne hold hc
  obtain ⟨hF, hPool, hL⟩ := Build_primitive_defined S This New Index Material Views R
    RenderPass Types hlive hindex hmaterial hviews
  have hcount := holds_GetUseCount _ _ _ _ h2
  have hdestroy := OnDestroy_primitive _ New This (some Material) (some Index) Views cN h3
  refine ⟨h1, hF, hPool, hcount, ?_, ?_, ?_, ?_, ?_⟩
  · simp [primitive.builder.references]
  · intro hlt
    rw [hcount]
    apply wrapINT32_of_isINT32
    have := references_nonneg This
      { System := This, VertexBufferViews := Views, IndexBufferView := some Index,
        Material := some Material } a
    unfold isINT32 at hc ⊢
    omega
  · rw [hdestroy]
    simp only [Option.isSome_some, if_true, system.ReleasePointer, Faults_operator_delete]
    have r1 : ∀ b, S.Heap b ≠ none →
        ((pipeline.Build_primitive S This
          { System := This, VertexBufferViews := Views, IndexBufferView := some Index,
            Material := some Material } New).2.Release Index).Heap b ≠ none :=
      fun b h => live_Release _ Index b (hL b h)
    have r2 : ∀ b, S.Heap b ≠ none →
        (Views.foldl system.Release
          ((pipeline.Build_primitive S This
            { System := This, VertexBufferViews := Views, IndexBufferView := some Index,
              Material := some Material } New).2.Release Index)).Heap b ≠ none :=
      fun b h => live_foldl_Release Views _ b (r1 b h)
    have r3 : ∀ b, S.Heap b ≠ none →
        ((Views.foldl system.Release
          ((pipeline.Build_primitive S This
            { System := This, VertexBufferViews := Views, IndexBufferView := some Index,
              Material := some Material } New).2.Release Index)).Release Material).Heap b
          ≠ none :=
      fun b h => live_Release _ Material b (r2 b h)
    rw [Faults_Release_of_live _ This (r3 This hThis),
      Faults_Release_of_live _ Material (r2 Material hmaterial),
      Faults_foldl_Release_of_live Views _ (fun v hv => r1 v (hviews v hv)),
      Faults_Release_of_live _ Index (hL Index hindex), hF]
  · rw [hdestroy]
    simp [system.operator_delete]
  · rw [hdestroy]
    have d1 := holds_release_index _ a (some Index) _ _ _ h2
    have d2 := holds_foldl_Release Views _ a _ _ _ d1
    have d3 := holds_ReleasePointer _ a (some Material) _ _ _ d2
    have d4 := holds_Release _ a This _ _ _ d3
    have d5 := holds_operator_delete _ a New _ _ d4 hne
    have hk : primitive.builder.references This
          { System := This, VertexBufferViews := Views, IndexBufferView := some Index,
            Material := some Material } a
        - (if (some Index : Option Nat) = some a then 1 else 0)
        - (Views.count a : Int)
        - (if (some Material : Option Nat) = some a then 1 else 0)
        - (if This = a then 1 else 0) = 0 := by
      dsimp only [primitive.builder.references]
      omega
    rw [hk, add_zero, wrapINT32_of_isINT32 _ hc] at d5
    exact holds_GetUseCount _ _ _ _ d5

/-- Witness of C14: the primitive of the example scene, whose index buffer and
only vertex buffer are the buffer view at address 2 and whose material is
at address 7. -/
theorem C14_primitive_build_destroy_balance_witness :
    scene.material.2.Heap 6
      = some { toResource := { UseCount := 2 },
               Derived := object.pipeline render_pass.eGeometry
                 [pipeline.shader_binding_type.eUniformBuffer,
                  pipeline.shader_binding_type.eSampledImage] } ∧
    scene.material.2.Heap 8 = none ∧ scene.material.2.Heap 2 ≠ none ∧
    scene.material.2.Heap 7 ≠ none ∧
    isINT32 (scene.material.2.GetUseCount 2) ∧
    (pipeline.Build_primitive scene.material.2 6
      { System := 6, VertexBufferViews := [2], IndexBufferView := some 2, Material := some 7 }
      8).2.GetUseCount 2
      = scene.material.2.GetUseCount 2
        + primitive.builder.references 6
            { System := 6, VertexBufferViews := [2], IndexBufferView := some 2,
              Material := some 7 } 2 ∧
    (OnDestroy 8 (pipeline.Build_primitive scene.material.2 6
      { System := 6, VertexBufferViews := [2], IndexBufferView := some 2, Material := some 7 }
      8).2).Faults = scene.material.2.Faults ∧
    (OnDestroy 8 (pipeline.Build_primitive scene.material.2 6
      { System := 6, VertexBufferViews := [2], IndexBufferView := some 2, Material := some 7 }
      8).2).GetUseCount 2 = scene.material.2.GetUseCount 2 :=
  have h := C14_primitive_build_destroy_balance scene.material.2 6 8 2 7 [2]
    { UseCount := 2 } render_pass.eGeometry
    [pipeline.shader_binding_type.eUniformBuffer, pipeline.shader_binding_type.eSampledImage]
    2 (by decide) (by decide) (by decide) (by decide) (by decide) (by decide) (by decide)
  ⟨by decide, by decide, by decide, by decide, by decide, h.2.2.2.2.2.1 (by decide),
    h.2.2.2.2.2.2.1, h.2.2.2.2.2.2.2.2⟩

end anv.render.core

namespace anv.render.core

/-- C13, evaluated. In the example scene the material at address 7 is built on
the pipeline at address 6 with the buffer view at address 2 in a
uniform-buffer slot and the pair of the image view at address 4 and the
sampler at address 5 in a sampled-image slot. The use-counts of the
addresses 2, 4, 5, 6 are 1, 0, 1, 1 before the build, 2, 2, 3, 2 after it
and 1, 1, 2, 1 after the `OnDestroy` of the material: the pipeline and the
buffer view are back at their value, the image view and the sampler have
each been grabbed twice and released once. -/
theorem C13_material_grabs_sampled_pair_twice :
    scene.material.1 = some 7 ∧
    [2, 4, 5, 6].map scene.pipeline.2.GetUseCount = [1, 0, 1, 1] ∧
    [2, 4, 5, 6].map scene.material.2.GetUseCount = [2, 2, 3, 2] ∧
    [2, 4, 5, 6].map (OnDestroy 7 scene.material.2).GetUseCount = [1, 1, 2, 1] ∧
    (OnDestroy 7 scene.material.2).Faults = [] := by
  decide

/-- C15, evaluated. A primitive as its constructor leaves it, with `IndexBuffer`
and `Material` both `nullptr`: `OnDestroy` skips the index buffer and calls
`Material->Release()` through the null pointer. Building a primitive from
a builder with the default `IndexBufferView = nullptr` already calls
`IndexBuffer->Grab()` through the null pointer. (With a null index buffer
and a material, `OnDestroy` alone makes no call through a null pointer.) -/
theorem C15_OnDestroy_releases_null_material :
    example_bare_primitive.Heap 8
      = some { toResource := {}, Derived := object.primitive 6 none none [] } ∧
    example_bare_primitive.Faults = [] ∧
    (OnDestroy 8 example_bare_primitive).Faults = [fault.nullDereference] ∧
    (pipeline.Build_primitive scene.material.2 6
      { System := 6, VertexBufferViews := [2], Material := some 7 } 8).2.Faults
      = [fault.nullDereference] ∧
    (example_unindexed_primitive.Heap 8
      = some { toResource := {}, Derived := object.primitive 6 (some 7) none [2] } ∧
     (OnDestroy 8 example_unindexed_primitive).Faults = []) := by
  decide

end anv.render.core

namespace anv.render.core

/-! ### The pipeline: descriptor-set layout and stage tag -/

/-- C17, evaluated. `system::Build( pipeline::builder & )` never assigns
`Result->RenderPass`: whatever the builder, the member of the built pipeline
is the indeterminate value the constructor left; built from a builder whose
`RenderPass` is `eMarker`, the pipeline may carry `eOverlay`. -/
theorem C17_pipeline_RenderPass_is_never_assigned :
    (∀ (S : system) (Builder : pipeline.builder) (New : Nat) (Indeterminate : render_pass),
      (S.Build_pipeline Builder true New Indeterminate).1 = some New ∧
      (S.Build_pipeline Builder true New Indeterminate).2.Heap New
        = some { toResource := { UseCount := 1 },
                 Derived := object.pipeline Indeterminate Builder.ShaderBindingTypes }) ∧
    ((system.Build_pipeline {} { RenderPass := render_pass.eMarker } true 1
        render_pass.eOverlay).2.Heap 1
      = some { toResource := { UseCount := 1 },
               Derived := object.pipeline render_pass.eOverlay [] }) := by
  refine ⟨?_, by decide⟩
  intro S Builder New Ind
  simp [system.Build_pipeline, system.operator_new, system.Grab, rc.resource.Grab, wrapINT32]

end anv.render.core

namespace anv.render.core

/-! ### The render thread -/

theorem StartRendering_record_eq (L : List Nat) : ∀ T : render_thread,
    system.StartRendering.record L T = T := by
  induction L with
  | nil => intro T; rfl
  | cons P Rest ih =>
    intro T
    simp only [system.StartRendering.record]
    have hbody : (if (!(T.Instances P).isEmpty) = true then
        (if (T.System.IndexBuffer P).isSome = true then
          (match T.System.RenderPass P with
            | some render_pass.eMarker => T
            | some render_pass.eGeometry => T
            | some render_pass.eOverlay => T
            | none => T)
         else
          (match T.System.RenderPass P with
            | some render_pass.eMarker => T
            | some render_pass.eGeometry => T
            | some render_pass.eOverlay => T
            | none => T))
        else T) = T := by
      have hm : (match T.System.RenderPass P with
            | some render_pass.eMarker => T
            | some render_pass.eGeometry => T
            | some render_pass.eOverlay => T
            | none => T) = T := by
        split <;> rfl
      rw [hm]
      simp
    simp only [ite_self] at hbody ⊢
    rw [hbody]
    exact ih T

theorem StartRendering_of_not_running (L : List frame_input) (T : render_thread)
    (h : T.Status ≠ thread_status.running) : system.StartRendering L T = T := by
  cases L with
  | nil => rfl
  | cons In Rest =>
    rw [system.StartRendering]
    split
    · rename_i heq; exact absurd heq h
    · rfl

theorem StartRendering_cons_running (In : frame_input) (Rest : List frame_input)
    (T : render_thread) (hrun : T.Status = thread_status.running) (hflag : T.DoRender = true)
    (hstop : In.Stop = false) :
    system.StartRendering (In :: Rest) T
      = system.StartRendering Rest (system.StartRendering.iteration In T) := by
  rw [system.StartRendering]
  simp [hrun, hflag, hstop]

theorem StartRendering_cons_status (In : frame_input) (Rest : List frame_input)
    (T : render_thread) (hrun : T.Status = thread_status.running)
    (h : In.Stop = true ∨ T.DoRender = false) :
    (system.StartRendering (In :: Rest) T).Status = thread_status.returned := by
  rw [system.StartRendering]
  rcases h with h | h
  · simp [hrun, h]
  · by_cases hs : In.Stop = true
    · simp [hrun, hs]
    · simp [hrun, hs, h]

theorem StartRendering_append (A B : List frame_input) : ∀ T : render_thread,
    system.StartRendering (A ++ B) T = system.StartRendering B (system.StartRendering A T) := by
  induction A with
  | nil => intro T; rfl
  | cons In A ih =>
    intro T
    by_cases hrun : T.Status = thread_status.running
    · by_cases hgo : In.Stop = false ∧ T.DoRender = true
      · rw [List.cons_append, StartRendering_cons_running In (A ++ B) T hrun hgo.2 hgo.1,
          StartRendering_cons_running In A T hrun hgo.2 hgo.1]
        exact ih _
      · have hor : In.Stop = true ∨ T.DoRender = false := by
          by_cases hs : In.Stop = true
          · exact Or.inl hs
          · right
            by_cases hd : T.DoRender = true
            · exact absurd ⟨by simpa using hs, hd⟩ hgo
            · simpa using hd
        have h1 := StartRendering_cons_status In A T hrun hor
        rw [StartRendering_of_not_running B _ (by rw [h1]; decide)]
        rw [List.cons_append, system.StartRendering, system.StartRendering]
        rcases hor with h | h
        · simp [hrun, h]
        · by_cases hs : In.Stop = true
          · simp [hrun, hs]
          · simp [hrun, hs, h]
    · rw [StartRendering_of_not_running _ T hrun, StartRendering_of_not_running _ T hrun,
        StartRendering_of_not_running _ T hrun]

end anv.render.core

namespace anv.render.core

/-- One pass of the loop in which the acquisition reports an out-of-date
surface: what it leaves. -/
theorem iteration_acquire_outOfDate (In : frame_input) (T : render_thread)
    (hacq : In.Acquire = acquire_result.outOfDate) :
    (system.StartRendering.iteration In T).Status = thread_status.returned ∧
    (system.StartRendering.iteration In T).DoRender = false ∧
    (system.StartRendering.iteration In T).GlobalFrameIndex = T.GlobalFrameIndex ∧
    (system.StartRendering.iteration In T).Calls
      = T.Calls ++ [call.waitForFences]
        ++ (if Int.tmod T.GlobalFrameIndex 1000 == 0 then
              [call.waitIdle, call.CollectGarbage_PrimitivePool,
               call.CollectGarbage_ResourcePool]
            else [])
        ++ [call.acquireNextImageKHR, call.store_DoRender_FALSE] ∧
    (system.StartRendering.iteration In T).MarkerCommandBuffer = T.MarkerCommandBuffer ∧
    (system.StartRendering.iteration In T).GeometryCommandBuffer = T.GeometryCommandBuffer ∧
    (system.StartRendering.iteration In T).OverlayCommandBuffer = T.OverlayCommandBuffer ∧
    (system.StartRendering.iteration In T).MainCommandBuffer = T.MainCommandBuffer := by
  by_cases hgc : (Int.tmod T.GlobalFrameIndex 1000 == 0) = true
  · simp [system.StartRendering.iteration, hacq, render_thread.call, render_thread.stop, hgc]
  · simp [system.StartRendering.iteration, hacq, render_thread.call, render_thread.stop, hgc]

/-- C18. When the loop of `StartRendering`, after any number of passes, starts
a pass in which the acquisition of an image reports that the surface is out
of date, it stores `DoRender = FALSE` once and returns: the calls of that
pass are the wait on the fence, the sweeps (with their device-idle wait) if
the frame counter is a multiple of 1000, the acquisition and the store;
the fence is not reset, no command buffer is recorded, nothing is submitted
or presented, the frame counter keeps its value, and whatever the
environment would do next, no further call is made. -/
theorem C18_acquire_out_of_date_stops_once (Pre Rest : List frame_input) (In : frame_input)
    (T : render_thread)
    (hrun : (system.StartRendering Pre T).Status = thread_status.running)
    (hflag : (system.StartRendering Pre T).DoRender = true)
    (hstop : In.Stop = false) (hacq : In.Acquire = acquire_result.outOfDate) :
    (system.StartRendering (Pre ++ In :: Rest) T).Status = thread_status.returned ∧
    (system.StartRendering (Pre ++ In :: Rest) T).DoRender = false ∧
    (system.StartRendering (Pre ++ In :: Rest) T).GlobalFrameIndex
      = (system.StartRendering Pre T).GlobalFrameIndex ∧
    (system.StartRendering (Pre ++ In :: Rest) T).Calls
      = (system.StartRendering Pre T).Calls ++ [call.waitForFences]
        ++ (if Int.tmod (system.StartRendering Pre T).GlobalFrameIndex 1000 == 0 then
              [call.waitIdle, call.CollectGarbage_PrimitivePool,
               call.CollectGarbage_ResourcePool]
            else [])
        ++ [call.acquireNextImageKHR, call.store_DoRender_FALSE] ∧
    (system.StartRendering (Pre ++ In :: Rest) T).MarkerCommandBuffer
      = (system.StartRendering Pre T).MarkerCommandBuffer ∧
    (system.StartRendering (Pre ++ In :: Rest) T).GeometryCommandBuffer
      = (system.StartRendering Pre T).GeometryCommandBuffer ∧
    (system.StartRendering (Pre ++ In :: Rest) T).OverlayCommandBuffer
      = (system.StartRendering Pre T).OverlayCommandBuffer ∧
    (system.StartRendering (Pre ++ In :: Rest) T).MainCommandBuffer
      = (system.StartRendering Pre T).MainCommandBuffer := by
  have hit := iteration_acquire_outOfDate In (system.StartRendering Pre T) hacq
  have hstep : system.StartRendering (Pre ++ In :: Rest) T
      = system.StartRendering.iteration In (system.StartRendering Pre T) := by
    rw [StartRendering_append, StartRendering_cons_running In Rest _ hrun hflag hstop,
      StartRendering_of_not_running Rest _ (by rw [hit.1]; decide)]
  rw [hstep]
  exact hit

/-- Witness of C18: a first pass that presents a frame, then a pass whose
acquisition reports an out-of-date surface, then one more input that is
never used. -/
theorem C18_acquire_out_of_date_stops_once_witness :
    (system.StartRendering [({} : frame_input)] example_thread).Status
      = thread_status.running ∧
    (system.StartRendering [({} : frame_input)] example_thread).DoRender = true ∧
    (system.StartRendering
      ([({} : frame_input)] ++ { Acquire := acquire_result.outOfDate } :: [({} : frame_input)])
      example_thread).Status = thread_status.returned ∧
    (system.StartRendering
      ([({} : frame_input)] ++ { Acquire := acquire_result.outOfDate } :: [({} : frame_input)])
      example_thread).GlobalFrameIndex
      = (system.StartRendering [({} : frame_input)] example_thread).GlobalFrameIndex :=
  have h := C18_acquire_out_of_date_stops_once [({} : frame_input)] [({} : frame_input)]
    { Acquire := acquire_result.outOfDate } example_thread (by decide) (by decide) rfl rfl
  ⟨by decide, by decide, h.1, h.2.2.1⟩

/-- C20, evaluated. The loop of `StartRendering` over the primitive pool
records nothing: every case of its `switch` is an empty `break`. In a frame
on the example scene, whose primitive at address 8 is in the pool, holds one
instance and belongs to a Geometry pipeline, the Geometry secondary buffer
is empty after the recording, like the two others. -/
theorem C20_no_draw_is_recorded :
    (∀ (Primitives : List Nat) (T : render_thread),
      system.StartRendering.record Primitives T = T) ∧
    (∀ (T : render_thread) (Stop : Bool) (Index : Nat) (Present : present_result),
      (system.StartRendering.iteration
        { Stop := Stop, Acquire := acquire_result.image Index, Present := Present }
        T).MarkerCommandBuffer = [] ∧
      (system.StartRendering.iteration
        { Stop := Stop, Acquire := acquire_result.image Index, Present := Present }
        T).GeometryCommandBuffer = [] ∧
      (system.StartRendering.iteration
        { Stop := Stop, Acquire := acquire_result.image Index, Present := Present }
        T).OverlayCommandBuffer = []) ∧
    ((system.StartRendering [({} : frame_input)] example_thread).System.PrimitivePool.Resources
        = [8] ∧
      (system.StartRendering [({} : frame_input)] example_thread).Instances 8 = [20] ∧
      (system.StartRendering [({} : frame_input)] example_thread).System.RenderPass 8
        = some render_pass.eGeometry ∧
      (system.StartRendering [({} : frame_input)] example_thread).Calls
        = [call.waitForFences, call.waitIdle, call.CollectGarbage_PrimitivePool,
           call.CollectGarbage_ResourcePool, call.acquireNextImageKHR, call.resetFences,
           call.recordSubpasses, call.recordPrimary, call.submit, call.presentKHR,
           call.increment_GlobalFrameIndex] ∧
      (system.StartRendering [({} : frame_input)] example_thread).GeometryCommandBuffer
        = []) := by
  refine ⟨StartRendering_record_eq, ?_, by decide⟩
  intro T Stop Index Present
  cases Present <;>
    simp [system.StartRendering.iteration, StartRendering_record_eq, render_thread.call,
      render_thread.stop]

end anv.render.core

namespace anv.render.core

/-! ### The frame contexts -/

theorem Frames_loop_spec (SwapchainImages : List Nat) (createImageView : Nat → Nat)
    (A : system.attachment_images) (n : Nat) (hn : n < UINT32_SIZE) :
    ∀ (k i : Nat) (Frames : List system.frame_context), Frames.length = n → i ≤ n →
      n - i < k →
      (∀ j : Nat, j < i →
        Frames[j]? = some (system.constructor.Frame SwapchainImages createImageView A j)) →
      (system.constructor.Frames.loop SwapchainImages createImageView A k i Frames).length = n ∧
      ∀ j : Nat, j < n →
        (system.constructor.Frames.loop SwapchainImages createImageView A k i Frames)[j]?
          = some (system.constructor.Frame SwapchainImages createImageView A j) := by
  intro k
  induction k with
  | zero => intro i Frames _ _ hk; omega
  | succ k ih =>
    intro i Frames hlen hi hk hdone
    by_cases hlt : i < Frames.length
    · have hmod : (i + 1) % UINT32_SIZE = i + 1 := Nat.mod_eq_of_lt (by omega)
      simp only [system.constructor.Frames.loop, hlt, if_true, hmod]
      apply ih (i + 1) _ (by simpa using hlen) (by omega) (by omega)
      intro j hj
      by_cases hji : j = i
      · subst hji
        exact List.getElem?_set_self hlt
      · rw [List.getElem?_set_ne (fun e => hji e.symm)]
        exact hdone j (by omega)
    · simp only [system.constructor.Frames.loop, hlt, if_false]
      exact ⟨hlen, fun j hj => hdone j (by omega)⟩

/-- C19. For a swapchain with `k` images (`k` within the range of the `UINT32`
loop counter) the constructor creates exactly `k` frame contexts; the
framebuffer of frame `i` is created from exactly six attachment views: the
four G-buffer views at the attachment indices 0 to 3, the depth view at
index 4 and, at index 5, the view created for the `i`-th swapchain image,
which is the one the frame keeps. -/
theorem C19_one_frame_context_per_swapchain_image (SwapchainImages : List Nat)
    (createImageView : Nat → Nat) (A : system.attachment_images)
    (hk : SwapchainImages.length < UINT32_SIZE) :
    (system.constructor.Frames SwapchainImages createImageView A).length = SwapchainImages.length ∧
    ∀ (i : Nat) (hi : i < SwapchainImages.length),
      ∃ Frame : system.frame_context,
        (system.constructor.Frames SwapchainImages createImageView A)[i]? = some Frame ∧
        Frame.SwapchainImage = SwapchainImages.get ⟨i, hi⟩ ∧
        Frame.SwapchainImageView = createImageView (SwapchainImages.get ⟨i, hi⟩) ∧
        Frame.Framebuffer.length = 6 ∧
        Frame.Framebuffer[system.PositionObjectIDAttachmentIndex]?
          = some A.PositionObjectID.View ∧
        Frame.Framebuffer[system.NormalAttachmentIndex]? = some A.Normal.View ∧
        Frame.Framebuffer[system.BaseColorAmbientOcclusionAttachmentIndex]?
          = some A.BaseColorAmbientOcclusion.View ∧
        Frame.Framebuffer[system.MetallicRoughnessInstanceAttachmentIndex]?
          = some A.MetallicRoughnessInstance.View ∧
        Frame.Framebuffer[system.DepthAttachmentIndex]? = some A.Depth.View ∧
        Frame.Framebuffer[system.OutputAttachmentIndex]? = some Frame.SwapchainImageView := by
  obtain ⟨h1, h2⟩ := Frames_loop_spec SwapchainImages createImageView A SwapchainImages.length hk
    (SwapchainImages.length + 1) 0 (List.replicate SwapchainImages.length {})
    (by simp) (Nat.zero_le _) (by omega) (fun j hj => absurd hj (Nat.not_lt_zero j))
  refine ⟨h1, ?_⟩
  intro i hi
  refine ⟨_, h2 i hi, ?_⟩
  have hget : SwapchainImages[i]? = some (SwapchainImages.get ⟨i, hi⟩) :=
    List.getElem?_eq_getElem hi
  simp [system.constructor.Frame, hget, system.PositionObjectIDAttachmentIndex,
    system.NormalAttachmentIndex, system.BaseColorAmbientOcclusionAttachmentIndex,
    system.MetallicRoughnessInstanceAttachmentIndex, system.DepthAttachmentIndex,
    system.OutputAttachmentIndex]

/-- Witness of C19: a swapchain with the two images 100 and 101, whose views
get the handles 200 and 201. -/
theorem C19_one_frame_context_per_swapchain_image_witness :
    [100, 101].length < UINT32_SIZE ∧
    (system.constructor.Frames [100, 101] (fun Image => Image + 100)
      { PositionObjectID := { Image := 10, View := 11 }, Normal := { Image := 12, View := 13 },
        BaseColorAmbientOcclusion := { Image := 14, View := 15 },
        MetallicRoughnessInstance := { Image := 16, View := 17 },
        Depth := { Image := 18, View := 19 } }).length = 2 :=
  ⟨by decide,
    (C19_one_frame_context_per_swapchain_image [100, 101] (fun Image => Image + 100)
      { PositionObjectID := { Image := 10, View := 11 }, Normal := { Image := 12, View := 13 },
        BaseColorAmbientOcclusion := { Image := 14, View := 15 },
        MetallicRoughnessInstance := { Image := 16, View := 17 },
        Depth := { Image := 18, View := 19 } } (by decide)).1⟩

end anv.render.core

namespace anv.render.core

/-! ### The primary command buffer -/

/-- C21. In every pass of the loop of `StartRendering` that acquires an image
(with index `Index`), whatever the state before and whatever the
presentation does afterwards, `MainCommandBuffer` holds exactly:
`beginRenderPass` (contents from secondary buffers), the execution of the
Marker buffer, `nextSubpass`, the execution of the Geometry buffer,
`nextSubpass` (inline, the Shading subpass), `nextSubpass`, the execution of
the Overlay buffer, `endRenderPass`. Replayed, the three secondary buffers
are executed in the subpasses 0, 1 and 3: each in the subpass that
`GetRenderPassSubpassIndex` gives for its stage, and none in the subpass 2
(`ShadingSubpassIndex`). -/
theorem C21_primary_buffer_order_matches_subpass_indices :
    ∀ (T : render_thread) (Stop : Bool) (Index : Nat) (Present : present_result),
      (system.StartRendering.iteration
        { Stop := Stop, Acquire := acquire_result.image Index, Present := Present }
        T).MainCommandBuffer
        = [command.beginRenderPass Index vk.SubpassContents.eSecondaryCommandBuffers,
           command.executeCommands subpass_buffer.MarkerCommandBuffer,
           command.nextSubpass vk.SubpassContents.eSecondaryCommandBuffers,
           command.executeCommands subpass_buffer.GeometryCommandBuffer,
           command.nextSubpass vk.SubpassContents.eInline,
           command.nextSubpass vk.SubpassContents.eSecondaryCommandBuffers,
           command.executeCommands subpass_buffer.OverlayCommandBuffer,
           command.endRenderPass] ∧
      vk.executions 0
        (system.StartRendering.iteration
          { Stop := Stop, Acquire := acquire_result.image Index, Present := Present }
          T).MainCommandBuffer
        = [(subpass_buffer.MarkerCommandBuffer, 0), (subpass_buffer.GeometryCommandBuffer, 1),
           (subpass_buffer.OverlayCommandBuffer, 3)] ∧
      (∀ (Buffer : subpass_buffer) (Subpass : Nat),
        (Buffer, Subpass) ∈ vk.executions 0
          (system.StartRendering.iteration
            { Stop := Stop, Acquire := acquire_result.image Index, Present := Present }
            T).MainCommandBuffer →
        Subpass = system.GetRenderPassSubpassIndex Buffer.Pass ∧
        Subpass ≠ system.ShadingSubpassIndex) ∧
      system.GetRenderPassSubpassIndex render_pass.eMarker = system.MarkerSubpassIndex ∧
      system.GetRenderPassSubpassIndex render_pass.eGeometry = system.GeometrySubpassIndex ∧
      system.GetRenderPassSubpassIndex render_pass.eOverlay = system.OverlaySubpassIndex := by
  intro T Stop Index Present
  have hmain : (system.StartRendering.iteration
        { Stop := Stop, Acquire := acquire_result.image Index, Present := Present }
        T).MainCommandBuffer = system.StartRendering.primary Index := by
    cases Present <;>
      simp [system.StartRendering.iteration, StartRendering_record_eq, render_thread.call,
        render_thread.stop]
  rw [hmain]
  refine ⟨rfl, rfl, ?_, rfl, rfl, rfl⟩
  intro Buffer Subpass hmem
  have hlist : vk.executions 0 (system.StartRendering.primary Index)
      = [(subpass_buffer.MarkerCommandBuffer, 0), (subpass_buffer.GeometryCommandBuffer, 1),
         (subpass_buffer.OverlayCommandBuffer, 3)] := rfl
  rw [hlist] at hmem
  simp only [List.mem_cons, Prod.mk.injEq, List.mem_nil_iff, or_false] at hmem
  rcases hmem with ⟨hb, hs⟩ | ⟨hb, hs⟩ | ⟨hb, hs⟩ <;> subst hb <;> subst hs <;>
    exact ⟨rfl, by decide⟩

end anv.render.core

namespace anv.render.core

/-! ### Sweeps and the idle device -/

theorem scan_fst (State : Bool × Bool) (C : call) (h : (call.scan State C).1 = true) :
    C = call.waitIdle ∨ (State.1 = true ∧ C.isQueueOperation = false) := by
  obtain ⟨i, ok⟩ := State
  cases C <;> simp_all [call.scan, call.isQueueOperation, call.isSweep]

theorem scan_snd (State : Bool × Bool) (C : call) (h : (call.scan State C).2 = true) :
    State.2 = true ∧ (C.isSweep = true → State.1 = true) := by
  obtain ⟨i, ok⟩ := State
  cases C <;> simp_all [call.scan, call.isQueueOperation, call.isSweep]

theorem scan_sound (L : List call) :
    ((L.foldl call.scan (false, true)).1 = true →
      ∃ A1 A2 : List call, L = A1 ++ call.waitIdle :: A2 ∧
        ∀ X ∈ A2, X.isQueueOperation = false) ∧
    ((L.foldl call.scan (false, true)).2 = true →
      ∀ (A B : List call) (C : call), L = A ++ C :: B → C.isSweep = true →
        ∃ A1 A2 : List call, A = A1 ++ call.waitIdle :: A2 ∧
          ∀ X ∈ A2, X.isQueueOperation = false) := by
  induction L using List.reverseRecOn with
  | nil =>
    refine ⟨fun h => by simp at h, fun _ A B C h => ?_⟩
    simp at h
  | append_singleton L X ih =>
    rw [List.foldl_append, List.foldl_cons, List.foldl_nil]
    refine ⟨fun h => ?_, fun h A B C hsplit hsweep => ?_⟩
    · rcases scan_fst _ _ h with hX | ⟨hi, hq⟩
      · exact ⟨L, [], by rw [hX], by simp⟩
      · obtain ⟨A1, A2, hL, hA2⟩ := ih.1 hi
        refine ⟨A1, A2 ++ [X], by rw [hL]; simp, ?_⟩
        intro Y hY
        rcases List.mem_append.1 hY with hY | hY
        · exact hA2 Y hY
        · rw [List.mem_singleton.1 hY]; exact hq
    · obtain ⟨hok, hidle⟩ := scan_snd _ _ h
      rcases List.eq_nil_or_concat B with hB | ⟨B1, Y, hB⟩
      · subst hB
        have hlen := List.append_inj' hsplit (by simp)
        have hC : X = C := by simpa using hlen.2
        rw [← hlen.1]
        exact ih.1 (hidle (by rw [hC]; exact hsweep))
      · subst hB
        have hsplit1 : L ++ [X] = (A ++ C :: B1) ++ [Y] := by rw [hsplit]; simp
        have hlen := List.append_inj' hsplit1 (by simp)
        exact ih.2 hok A B1 C hlen.1 hsweep

theorem scan_iteration (In : frame_input) (T : render_thread)
    (h : (T.Calls.foldl call.scan (false, true)).2 = true) :
    ((system.StartRendering.iteration In T).Calls.foldl call.scan (false, true)).2 = true := by
  obtain ⟨Stop, Acquire, Present⟩ := In
  generalize hs : T.Calls.foldl call.scan (false, true) = State at h
  obtain ⟨i, ok⟩ := State
  simp only at h
  subst h
  by_cases hgc : (Int.tmod T.GlobalFrameIndex 1000 == 0) = true <;>
    cases Acquire <;> cases Present <;>
    simp [system.StartRendering.iteration, StartRendering_record_eq, render_thread.call,
      render_thread.stop, hgc, List.foldl_append, hs, call.scan, call.isQueueOperation,
      call.isSweep]

theorem scan_StartRendering (L : List frame_input) : ∀ T : render_thread,
    (T.Calls.foldl call.scan (false, true)).2 = true →
    ((system.StartRendering L T).Calls.foldl call.scan (false, true)).2 = true := by
  induction L with
  | nil => intro T h; exact h
  | cons In Rest ih =>
    intro T h
    by_cases hrun : T.Status = thread_status.running
    · by_cases hstop : In.Stop = true
      · rw [system.StartRendering]
        simpa [hrun, hstop] using h
      · have hstop1 : In.Stop = false := by simpa using hstop
        by_cases hflag : T.DoRender = true
        · rw [StartRendering_cons_running In Rest T hrun hflag hstop1]
          exact ih _ (scan_iteration In T h)
        · rw [system.StartRendering]
          simpa [hrun, hstop1, hflag] using h
    · rw [StartRendering_of_not_running _ T hrun]
      exact h

theorem Calls_StartRendering_stopped (T : render_thread) (h : T.DoRender = false) :
    (system.StartRendering [({} : frame_input)] T).Calls = T.Calls := by
  rw [system.StartRendering]
  split
  · simp [h]
  · rfl

theorem Calls_destructor (T : render_thread) :
    (system.destructor T).Calls
      = T.Calls ++ [call.store_DoRender_FALSE, call.join, call.waitIdle,
          call.Clear_PrimitivePool, call.Clear_ResourcePool] := by
  have h := Calls_StartRendering_stopped
    { T.call call.store_DoRender_FALSE with DoRender := false } rfl
  simp only [system.destructor, render_thread.call] at h ⊢
  rw [h]
  simp

end anv.render.core

namespace anv.render.core

/-- C22. Start the render thread with an empty record of calls, let
`StartRendering` run against any behaviour of the environment, and then run
the destructor. In the calls made, every sweep of a pool (`CollectGarbage` or
`Clear`, of either pool) comes after a `Device.waitIdle()` with no
`GraphicsQueue.submit` and no `presentKHR` between that wait and the sweep;
the same holds for the calls of the render loop alone. The destructor adds
exactly: the store of `DoRender`, the return of `join`, `waitIdle`, and the
two `Clear` calls. A pass of the loop sweeps exactly when the frame counter
it starts with is a multiple of 1000. -/
theorem C22_sweeps_follow_device_idle_wait (L : List frame_input) (T : render_thread)
    (hfresh : T.Calls = []) :
    (∀ (A B : List call) (C : call),
      (system.destructor (system.StartRendering L T)).Calls = A ++ C :: B → C.isSweep = true →
      ∃ A1 A2 : List call, A = A1 ++ call.waitIdle :: A2 ∧
        ∀ X ∈ A2, X.isQueueOperation = false) ∧
    (∀ (A B : List call) (C : call),
      (system.StartRendering L T).Calls = A ++ C :: B → C.isSweep = true →
      ∃ A1 A2 : List call, A = A1 ++ call.waitIdle :: A2 ∧
        ∀ X ∈ A2, X.isQueueOperation = false) ∧
    (system.destructor (system.StartRendering L T)).Calls
      = (system.StartRendering L T).Calls
        ++ [call.store_DoRender_FALSE, call.join, call.waitIdle, call.Clear_PrimitivePool,
            call.Clear_ResourcePool] ∧
    (∀ (In : frame_input) (U : render_thread),
      ((system.StartRendering.iteration In { U with Calls := [] }).Calls.any call.isSweep)
        = (Int.tmod U.GlobalFrameIndex 1000 == 0)) := by
  have hloop : ((system.StartRendering L T).Calls.foldl call.scan (false, true)).2 = true :=
    scan_StartRendering L T (by rw [hfresh]; rfl)
  have hall : ((system.destructor (system.StartRendering L T)).Calls.foldl call.scan
      (false, true)).2 = true := by
    rw [Calls_destructor, List.foldl_append]
    generalize hs : (system.StartRendering L T).Calls.foldl call.scan (false, true) = State
      at hloop
    obtain ⟨i, ok⟩ := State
    simp only at hloop
    subst hloop
    simp [call.scan, call.isQueueOperation, call.isSweep]
  refine ⟨(scan_sound _).2 hall, (scan_sound _).2 hloop, Calls_destructor _, ?_⟩
  intro In U
  obtain ⟨Stop, Acquire, Present⟩ := In
  by_cases hgc : (Int.tmod U.GlobalFrameIndex 1000 == 0) = true <;>
    cases Acquire <;> cases Present <;>
    simp [system.StartRendering.iteration, StartRendering_record_eq, render_thread.call,
      render_thread.stop, hgc, call.isSweep]

/-- Witness of C22: the example thread, which has made no call yet, runs two
passes and is destroyed. -/
theorem C22_sweeps_follow_device_idle_wait_witness :
    example_thread.Calls = [] ∧
    (system.destructor
      (system.StartRendering [({} : frame_input), ({} : frame_input)] example_thread)).Calls
      = (system.StartRendering [({} : frame_input), ({} : frame_input)] example_thread).Calls
        ++ [call.store_DoRender_FALSE, call.join, call.waitIdle, call.Clear_PrimitivePool,
            call.Clear_ResourcePool] :=
  ⟨rfl,
    (C22_sweeps_follow_device_idle_wait [({} : frame_input), ({} : frame_input)] example_thread
      rfl).2.2.1⟩

end anv.render.core

namespace anv.render.core

/-! ### The render pass and the fixed-function state -/

/-- C23. The render pass is created with exactly four subpasses, at the
positions `MarkerSubpassIndex`, `GeometrySubpassIndex`, `ShadingSubpassIndex`
and `OverlaySubpassIndex` (0 to 3). Marker has the colour attachment 5
(output) and the depth attachment 4; Geometry has the colour attachments
0, 1, 2, 3 (the G-buffer) and the depth attachment 4; Shading has the input
attachments 0, 1, 2, 3, the colour attachment 5 and no depth attachment;
Overlay has the colour attachment 5 only. -/
theorem C23_render_pass_has_four_subpasses :
    system.constructor.Subpasses.length = 4 ∧
    (system.constructor.Subpasses[system.MarkerSubpassIndex]?).map vk.SubpassDescription.indices
      = some ([], [5], some 4) ∧
    (system.constructor.Subpasses[system.GeometrySubpassIndex]?).map vk.SubpassDescription.indices
      = some ([], [0, 1, 2, 3], some 4) ∧
    (system.constructor.Subpasses[system.ShadingSubpassIndex]?).map vk.SubpassDescription.indices
      = some ([0, 1, 2, 3], [5], none) ∧
    (system.constructor.Subpasses[system.OverlaySubpassIndex]?).map vk.SubpassDescription.indices
      = some ([], [5], none) ∧
    system.constructor.Subpasses.map vk.SubpassDescription.indices
      = [([], [system.OutputAttachmentIndex], some system.DepthAttachmentIndex),
         ([], [system.PositionObjectIDAttachmentIndex, system.NormalAttachmentIndex,
               system.BaseColorAmbientOcclusionAttachmentIndex,
               system.MetallicRoughnessInstanceAttachmentIndex],
            some system.DepthAttachmentIndex),
         ([system.PositionObjectIDAttachmentIndex, system.NormalAttachmentIndex,
           system.BaseColorAmbientOcclusionAttachmentIndex,
           system.MetallicRoughnessInstanceAttachmentIndex],
            [system.OutputAttachmentIndex], none),
         ([], [system.OutputAttachmentIndex], none)] := by
  refine ⟨rfl, rfl, rfl, rfl, rfl, rfl⟩

/-- C24. For every pipeline builder, `Build` supplies a depth-stencil state with
the depth test and the depth write enabled exactly when the target stage of
the builder is Marker or Geometry; the state it supplies then is the one
with both enabled and the comparison `eLessOrEqual`; for a builder of the
Overlay stage the pointer it passes is null. -/
theorem C24_depth_state_for_marker_and_geometry (Builder : pipeline.builder) :
    ((∃ State : vk.PipelineDepthStencilStateCreateInfo,
        system.Build_pipeline.PDepthStencilState Builder = some State ∧
        State.depthTestEnable = true ∧ State.depthWriteEnable = true) ↔
      (Builder.RenderPass = render_pass.eMarker ∨ Builder.RenderPass = render_pass.eGeometry)) ∧
    (system.Build_pipeline.PDepthStencilState Builder
      = if Builder.RenderPass = render_pass.eOverlay then none
        else some { depthTestEnable := true, depthWriteEnable := true,
                    depthCompareOp := vk.CompareOp.eLessOrEqual }) ∧
    system.Build_pipeline.PDepthStencilState { Builder with RenderPass := render_pass.eOverlay }
      = none := by
  obtain ⟨RenderPass, Types, CullMode⟩ := Builder
  cases RenderPass <;> simp [system.Build_pipeline.PDepthStencilState]

/-- C25, refuted. `TranslateCullMode` indexes its table of four cull modes by
`(UINT32)CullModeFlags`, and that cast goes through `operator BOOL`, so the
index is 0 or 1: the empty set gives no culling and every other set gives
front-face culling. The set that holds `eBack` alone and the set that holds
`eFront` and `eBack` both give `eFront`; no set gives `eBack` or
`eFrontAndBack`; a pipeline built with `CullMode = eBack` culls front
faces. -/
theorem C25_TranslateCullMode_gives_front_for_back :
    TranslateCullMode {} = vk.CullModeFlagBits.eNone ∧
    TranslateCullMode cull_mode.eFront = vk.CullModeFlagBits.eFront ∧
    TranslateCullMode cull_mode.eBack = vk.CullModeFlagBits.eFront ∧
    TranslateCullMode (cull_mode.eFront.or cull_mode.eBack) = vk.CullModeFlagBits.eFront ∧
    (∀ CullModeFlags : flags,
      TranslateCullMode CullModeFlags
        = if CullModeFlags.Bits = 0 then vk.CullModeFlagBits.eNone
          else vk.CullModeFlagBits.eFront) ∧
    (∀ Builder : pipeline.builder,
      system.Build_pipeline.CullMode { Builder with CullMode := cull_mode.eBack }
        = vk.CullModeFlagBits.eFront) := by
  refine ⟨by decide, by decide, by decide, by decide, ?_, fun _ => rfl⟩
  intro F
  by_cases h : F.Bits = 0 <;> simp [TranslateCullMode, flags.toUINT32, flags.toBOOL, h]

end anv.render.core

namespace anv.math

/-! ### The inverse of a 4x4 matrix -/

set_option maxHeartbeats 4000000 in
theorem operator_mul_Inversed {component : Type} [Field component] [DecidableEq component]
    (M : mat4x4 component) (h : M.operator_not ≠ 0) :
    M.operator_mul M.Inversed
      = { (mat4x4.Identity : mat4x4 component) with
          Data02 := 2 * M.Data01 *
            mat3x3.Determ M.Data00 M.Data02 M.Data03 M.Data10 M.Data12 M.Data13
              M.Data30 M.Data32 M.Data33 / M.operator_not
          Data12 := 2 * M.Data11 *
            mat3x3.Determ M.Data00 M.Data02 M.Data03 M.Data10 M.Data12 M.Data13
              M.Data30 M.Data32 M.Data33 / M.operator_not
          Data22 := 1 + 2 * M.Data21 *
            mat3x3.Determ M.Data00 M.Data02 M.Data03 M.Data10 M.Data12 M.Data13
              M.Data30 M.Data32 M.Data33 / M.operator_not
          Data32 := 2 * M.Data31 *
            mat3x3.Determ M.Data00 M.Data02 M.Data03 M.Data10 M.Data12 M.Data13
              M.Data30 M.Data32 M.Data33 / M.operator_not } := by
  obtain ⟨a00, a01, a02, a03, a10, a11, a12, a13, a20, a21, a22, a23, a30, a31, a32, a33⟩ := M
  simp only [mat4x4.Inversed, if_neg h, mat4x4.operator_mul, mat4x4.Identity, mat4x4.mk.injEq]
  generalize hd : mat4x4.operator_not
    (mat4x4.mk a00 a01 a02 a03 a10 a11 a12 a13 a20 a21 a22 a23 a30 a31 a32 a33) = d at h ⊢
  simp only [mat4x4.operator_not, mat3x3.Determ] at hd
  simp only [mat3x3.Determ]
  refine ⟨?_, ?_, ?_, ?_, ?_, ?_, ?_, ?_, ?_, ?_, ?_, ?_, ?_, ?_, ?_, ?_⟩ <;>
    (field_simp; subst hd; ring)

theorem Inversed_of_operator_not_eq_zero {component : Type} [Field component]
    [DecidableEq component] (M : mat4x4 component) (h : M.operator_not = 0) :
    M.Inversed = mat4x4.Identity := by
  simp [mat4x4.Inversed, h]

theorem operator_not_of_column_zero {component : Type} [Field component]
    (M : mat4x4 component) (h0 : M.Data01 = 0) (h1 : M.Data11 = 0) (h2 : M.Data21 = 0)
    (h3 : M.Data31 = 0) : M.operator_not = 0 := by
  simp only [mat4x4.operator_not, mat3x3.Determ, h0, h1, h2, h3]
  ring

theorem operator_not_example_shear : example_shear.operator_not = 1 := by
  simp [example_shear, mat4x4.operator_not, mat3x3.Determ, mat4x4.Identity]

theorem Inversed_example_shear : example_shear.Inversed = example_shear := by
  have h : example_shear.operator_not ≠ 0 := by rw [operator_not_example_shear]; norm_num
  simp only [mat4x4.Inversed, if_neg h, operator_not_example_shear]
  simp [example_shear, mat3x3.Determ, mat4x4.Identity]

end anv.math

namespace anv.math

/-- C28, refuted. Over the rational numbers, for a matrix `M` with non-zero
determinant, `M * M.Inversed()` is the identity matrix only when the minor
of `M` without the row 2 and the column 1 is zero: the entry `[1][2]` of
`Inversed` is computed from the rows 0, 3, 1 of `M`, in that order, so it
has the opposite sign. For the matrix with ones on the diagonal and a 1 at
`[1][2]`, whose determinant is 1, `Inversed` returns the matrix itself and
the product has 2 at `[1][2]`. What the claim says of a determinant 0
holds: `Inversed` then returns the identity matrix. -/
theorem C28_Inversed_has_one_entry_of_wrong_sign (M : mat4x4 ℚ) (hdet : M.operator_not ≠ 0) :
    (M.operator_mul M.Inversed = mat4x4.Identity ↔
      mat3x3.Determ M.Data00 M.Data02 M.Data03 M.Data10 M.Data12 M.Data13
        M.Data30 M.Data32 M.Data33 = 0) ∧
    (example_shear.operator_not = 1 ∧
      example_shear.Inversed = example_shear ∧
      example_shear.operator_mul example_shear.Inversed
        = { (mat4x4.Identity : mat4x4 ℚ) with Data12 := 2 } ∧
      example_shear.operator_mul example_shear.Inversed ≠ mat4x4.Identity) ∧
    (∀ N : mat4x4 ℚ, N.operator_not = 0 → N.Inversed = mat4x4.Identity) := by
  refine ⟨?_, ⟨operator_not_example_shear, Inversed_example_shear, ?_, ?_⟩,
    fun N hN => Inversed_of_operator_not_eq_zero N hN⟩
  · rw [operator_mul_Inversed M hdet]
    constructor
    · intro h
      by_contra hm
      have h0 := congrArg mat4x4.Data02 h
      have h1 := congrArg mat4x4.Data12 h
      have h2 := congrArg mat4x4.Data22 h
      have h3 := congrArg mat4x4.Data32 h
      simp only [mat4x4.Identity] at h0 h1 h2 h3
      have e0 : M.Data01 = 0 := by
        rcases div_eq_zero_iff.1 h0 with h | h
        · rcases mul_eq_zero.1 h with h | h
          · rcases mul_eq_zero.1 h with h | h
            · norm_num at h
            · exact h
          · exact absurd h hm
        · exact absurd h hdet
      have e1 : M.Data11 = 0 := by
        rcases div_eq_zero_iff.1 h1 with h | h
        · rcases mul_eq_zero.1 h with h | h
          · rcases mul_eq_zero.1 h with h | h
            · norm_num at h
            · exact h
          · exact absurd h hm
        · exact absurd h hdet
      have e2 : M.Data21 = 0 := by
        have h2 : 2 * M.Data21 *
            mat3x3.Determ M.Data00 M.Data02 M.Data03 M.Data10 M.Data12 M.Data13
              M.Data30 M.Data32 M.Data33 / M.operator_not = 0 := by linarith
        rcases div_eq_zero_iff.1 h2 with h | h
        · rcases mul_eq_zero.1 h with h | h
          · rcases mul_eq_zero.1 h with h | h
            · norm_num at h
            · exact h
          · exact absurd h hm
        · exact absurd h hdet
      have e3 : M.Data31 = 0 := by
        rcases div_eq_zero_iff.1 h3 with h | h
        · rcases mul_eq_zero.1 h with h | h
          · rcases mul_eq_zero.1 h with h | h
            · norm_num at h
            · exact h
          · exact absurd h hm
        · exact absurd h hdet
      exact hdet (operator_not_of_column_zero M e0 e1 e2 e3)
    · intro hm
      simp [hm, mat4x4.Identity]
  · rw [Inversed_example_shear]
    simp [example_shear, mat4x4.operator_mul, mat4x4.Identity]
    norm_num
  · rw [Inversed_example_shear]
    intro h
    have h1 := congrArg mat4x4.Data12 h
    simp [example_shear, mat4x4.operator_mul, mat4x4.Identity] at h1

/-- Witness of C28: the matrix with ones on the diagonal and a 1 at `[1][2]`
has the determinant 1. -/
theorem C28_Inversed_has_one_entry_of_wrong_sign_witness :
    example_shear.operator_not ≠ 0 ∧
    (example_shear.operator_mul example_shear.Inversed = mat4x4.Identity ↔
      mat3x3.Determ example_shear.Data00 example_shear.Data02 example_shear.Data03
        example_shear.Data10 example_shear.Data12 example_shear.Data13
        example_shear.Data30 example_shear.Data32 example_shear.Data33 = 0) :=
  have h : example_shear.operator_not ≠ 0 := by
    rw [operator_not_example_shear]; exact one_ne_zero
  ⟨h, (C28_Inversed_has_one_entry_of_wrong_sign example_shear h).1⟩

end anv.math

namespace anv.render.core

/-! ### Formats -/

/-- C26, refuted. `TranslateFormat` returns a format with the requested number
of components for a count from 1 to 4, and the undefined format for any
other count; but the rows of its table for the 16-bit and 32-bit integer
and normalized types repeat the 8-bit formats, and the row for `eF16` holds
the 32-bit float formats. So `eU16` with 2 components gives `eR8G8Uint`,
not `eR16G16Uint`, and `eF16` with 2 components gives `eR32G32Sfloat`, not
`eR16G16Sfloat`; the component width of the result is the one the type
names only for `eU8`, `eU8Norm`, `eU8Srgb`, `eI8`, `eI8Norm` and `eF32`. -/
theorem C26_TranslateFormat_ignores_component_width :
    TranslateFormat { Type_ := format.type.eU16, Count := 2 } = vk.Format.eR8G8Uint ∧
    TranslateFormat { Type_ := format.type.eU16, Count := 2 } ≠ vk.Format.eR16G16Uint ∧
    TranslateFormat { Type_ := format.type.eF16, Count := 2 } = vk.Format.eR32G32Sfloat ∧
    TranslateFormat { Type_ := format.type.eF16, Count := 2 } ≠ vk.Format.eR16G16Sfloat ∧
    (∀ (Type_ : format.type) (Count : Fin 4),
      (TranslateFormat { Type_ := Type_, Count := Count.val + 1 }).componentCount
        = Count.val + 1 ∧
      ((TranslateFormat { Type_ := Type_, Count := Count.val + 1 }).componentBits
          = Type_.componentBits ↔
        Type_ ∈ [format.type.eU8, format.type.eU8Norm, format.type.eU8Srgb, format.type.eI8,
                 format.type.eI8Norm, format.type.eF32])) ∧
    (∀ (Type_ : format.type) (Count : Nat),
      TranslateFormat { Type_ := Type_, Count := 0 } = vk.Format.eUndefined ∧
      TranslateFormat { Type_ := Type_, Count := Count + 5 } = vk.Format.eUndefined) := by
  refine ⟨by decide, by decide, by decide, by decide, ?_, ?_⟩
  · intro Type_ Count
    revert Count
    cases Type_ <;> decide
  · intro Type_ Count
    constructor
    · simp [TranslateFormat]
    · have h : Count + 5 > 4 ∨ Count + 5 < 1 := Or.inl (by omega)
      simp only [TranslateFormat, h, if_true]

/-! ### The material of a primitive -/

theorem SetMaterial_GetUseCount (S : system) (This : Nat) (NewMaterial : Option Nat)
    (Address : Nat) :
    (primitive.SetMaterial S This NewMaterial).GetUseCount Address = S.GetUseCount Address := by
  unfold primitive.SetMaterial
  split
  · rename_i R Pipeline Material IndexBuffer VertexBuffers heq
    simp only [system.assign, heq, system.GetUseCount]
    by_cases ha : Address = This
    · subst ha
      simp [Function.update, heq, rc.resource.GetUseCount]
    · simp [Function.update, ha]
  · rfl

/-- C27, refuted. `SetMaterial` only stores the pointer: it changes no
use-count at all. On the example scene the primitive at address 8 holds the
material at address 7 (use-count 1, from the grab `Build` made), and a
second material is at address 9 (use-count 0). After `SetMaterial` of the
second material the primitive returns it from `GetMaterial`, and the two
use-counts are still 1 and 0; the `OnDestroy` of the primitive then
releases the material at 9, which it never grabbed (use-count -1), and
leaves the grab on the material at 7 in place (use-count 1). -/
theorem C27_SetMaterial_changes_no_use_count :
    (∀ (S : system) (This : Nat) (NewMaterial : Option Nat) (Address : Nat),
      (primitive.SetMaterial S This NewMaterial).GetUseCount Address
        = S.GetUseCount Address) ∧
    primitive.GetMaterial example_second_material 8 = some 7 ∧
    [7, 9].map example_second_material.GetUseCount = [1, 0] ∧
    primitive.GetMaterial (primitive.SetMaterial example_second_material 8 (some 9)) 8
      = some 9 ∧
    [7, 9].map (primitive.SetMaterial example_second_material 8 (some 9)).GetUseCount
      = [1, 0] ∧
    [7, 9].map
      (OnDestroy 8 (primitive.SetMaterial example_second_material 8 (some 9))).GetUseCount
      = [1, -1] ∧
    [7, 9].map (OnDestroy 8 example_second_material).GetUseCount = [0, 0] := by
  refine ⟨SetMaterial_GetUseCount, by decide, by decide, by decide, by decide, by decide,
    by decide⟩

/-! ### The order of destruction in `Clear` -/

theorem Clear_of_held_pair (S : system) (Buffer View Size Offset ViewSize : Nat)
    (Usage : flags) (cb cv : Int)
    (hpool : S.ResourcePool.Resources = [Buffer, View]) (hne : Buffer ≠ View)
    (hb : S.holds Buffer (object.buffer Size Usage) cb)
    (hv : S.holds View (object.buffer_view Buffer Offset ViewSize) cv)
    (hcb : 0 < cb) (hcv : 0 < cv) :
    S.Clear.Examined = [(Buffer, cb), (View, cv)] ∧
    S.Clear.Destroyed = [Buffer, View] ∧
    S.Clear.World.Faults = S.Faults ++ [fault.deadObject Buffer] := by
  unfold system.holds at hb hv
  have hub : S.GetUseCount Buffer = cb := by
    simp [system.GetUseCount, hb, rc.resource.GetUseCount]
  have huv : S.GetUseCount View = cv := by
    simp [system.GetUseCount, hv, rc.resource.GetUseCount]
  have hnb : ¬ cb ≤ 0 := by omega
  have hnv : ¬ cv ≤ 0 := by omega
  have hG : rc.pool.CollectGarbage system.GetUseCount OnDestroy S.ResourcePool S
      = { World := S, Pool := { Resources := [Buffer, View] }, Result := true,
          Examined := [(Buffer, cb), (View, cv)], Destroyed := [] } := by
    simp [rc.pool.CollectGarbage, rc.pool.CollectGarbage.loop, hpool, hub, huv, hnb, hnv,
      UINT32_SIZE]
  have hD1 : OnDestroy Buffer S = S.operator_delete Buffer := by
    simp [OnDestroy, hb]
  have hH1 : (S.operator_delete Buffer).Heap View
      = some { toResource := { UseCount := cv },
               Derived := object.buffer_view Buffer Offset ViewSize } := by
    simp [system.operator_delete, Function.update, hne.symm, hv]
  have hH2 : (S.operator_delete Buffer).Heap Buffer = none := by
    simp [system.operator_delete, Function.update]
  have hD2 : OnDestroy View (S.operator_delete Buffer)
      = (((S.operator_delete Buffer).Release Buffer).operator_delete View) := by
    simp [OnDestroy, hH1]
  simp only [system.Clear, rc.pool.Clear, hG, rc.pool.Clear.loop, hD1, hD2]
  refine ⟨trivial, by simp, ?_⟩
  simp [system.operator_delete, system.Release, hH2, Function.update]

/-- C29, refuted. Whenever the pool holds a buffer and, after it, a view of
that buffer, and both have a positive use-count, `Clear` reads both counts
in its sweep and destroys neither; its forced pass then calls `OnDestroy` in
the order of the pool, the buffer first and the view second, and the
`OnDestroy` of the view releases the buffer after `delete this` has run for
it (the access to the dead object is the one fault the call adds). The
example: a buffer at address 1 and a view of it at address 2, both held by
their creator, in the pool in the order of their creation; the same happens
when the destructor of the render core runs on this state. -/
theorem C29_Clear_destroys_buffer_before_its_view :
    (∀ (S : system) (Buffer View Size Offset ViewSize : Nat) (Usage : flags) (cb cv : Int),
      S.ResourcePool.Resources = [Buffer, View] → Buffer ≠ View →
      S.holds Buffer (object.buffer Size Usage) cb →
      S.holds View (object.buffer_view Buffer Offset ViewSize) cv →
      0 < cb → 0 < cv →
      S.Clear.Examined = [(Buffer, cb), (View, cv)] ∧
      S.Clear.Destroyed = [Buffer, View] ∧
      S.Clear.World.Faults = S.Faults ++ [fault.deadObject Buffer]) ∧
    example_held_view.ResourcePool.Resources = [1, 2] ∧
    example_held_view.Heap 1
      = some { toResource := { UseCount := 1 },
               Derived := object.buffer 64 buffer.usage.eVertex } ∧
    example_held_view.Heap 2
      = some { toResource := { UseCount := 1 }, Derived := object.buffer_view 1 0 0 } ∧
    example_held_view.Clear.Examined = [(1, 1), (2, 1)] ∧
    example_held_view.Clear.Destroyed = [1, 2] ∧
    (OnDestroy 1 example_held_view).Heap 1 = none ∧
    (OnDestroy 2 (OnDestroy 1 example_held_view)).Faults = [fault.deadObject 1] ∧
    example_held_view.Clear.World.Faults = [fault.deadObject 1] ∧
    (system.destructor { System := example_held_view }).System.Faults
      = [fault.deadObject 1] := by
  refine ⟨Clear_of_held_pair, by decide, by decide, by decide, by decide, by decide, by decide,
    by decide, by decide, by decide⟩

end anv.render.core

namespace anv.render.core

/-! ### The destruction of an instance -/

theorem OnInstanceDestroy_spec {mat4x4 : Type} (P : primitive mat4x4) (Handle : Nat)
    (hP : P.consistent) (hmem : Handle ∈ P.Instances) :
    ∃ Q, P.OnInstanceDestroy Handle = some Q ∧ Q.consistent ∧
      P.Instances[(P.Memory Handle).Index]? = some Handle ∧
      Q.Instances = P.Instances.eraseIdx (P.Memory Handle).Index ∧
      Q.Transforms = P.Transforms.eraseIdx (P.Memory Handle).Index := by
  obtain ⟨Q, hQ, hc⟩ := consistent_OnInstanceDestroy P Handle hP hmem
  obtain ⟨hnd, hl, hle, hst⟩ := hP
  obtain ⟨j, hj⟩ := List.mem_iff_getElem?.mp hmem
  have hidx : (P.Memory Handle).Index = j := hst j Handle hj
  obtain ⟨hjlt, -⟩ := List.getElem?_eq_some.mp hj
  have hcond : j < P.Instances.length ∧ j < P.Transforms.length := ⟨hjlt, by omega⟩
  have hlenE : (P.Instances.eraseIdx j).length = P.Instances.length - 1 :=
    List.length_eraseIdx_of_lt hjlt
  have hN : (P.Instances.eraseIdx j).length % UINT32_SIZE = (P.Instances.eraseIdx j).length :=
    Nat.mod_eq_of_lt (by omega)
  have hndE : (P.Instances.eraseIdx j).Nodup := hnd.sublist (List.eraseIdx_sublist _ _)
  obtain ⟨h1, h2, -, -⟩ := OnInstanceDestroy_loop_spec (P.Instances.eraseIdx j).length
    (by omega) (P.Instances.eraseIdx j).length j
    ({ P with Instances := P.Instances.eraseIdx j, Transforms := P.Transforms.eraseIdx j } :
      primitive mat4x4)
    hndE (le_refl _) (by omega)
  have hdef : P.OnInstanceDestroy Handle
      = some (primitive.OnInstanceDestroy.loop (P.Instances.eraseIdx j).length
          (P.Instances.eraseIdx j).length j
          ({ P with Instances := P.Instances.eraseIdx j, Transforms := P.Transforms.eraseIdx j } :
            primitive mat4x4)) := by
    simp only [primitive.OnInstanceDestroy, hidx, hN]
    rw [if_pos hcond]
  rw [hdef] at hQ
  have hQ2 := Option.some.inj hQ
  subst hQ2
  rw [hidx]
  exact ⟨_, hdef, hc, hj, h1, h2⟩

/-- C30. On a primitive whose handles store their own positions
(`Instances[i]->Index == i`), with `Instances` and `Transforms` both of
length `n` (`n` within the `UINT32` range of the stored indices), and for a
handle the primitive holds, `OnInstanceDestroy` is defined and leaves both
vectors with length `n - 1`: `Instances` is the old vector without the
handle, which stood at the position it stores; `Transforms` is the old
vector without the entry at that position, the transform of the handle;
every other handle is still held and `GetTransform` returns for it the same
matrix as before; and the handles store their own positions again. -/
theorem C30_OnInstanceDestroy_keeps_other_transforms {mat4x4 : Type} (P : primitive mat4x4)
    (Handle n : Nat)
    (hindex : ∀ (i : Nat) (hi : i < P.Instances.length),
      (P.Memory (P.Instances.get ⟨i, hi⟩)).Index = i)
    (hI : P.Instances.length = n) (hT : P.Transforms.length = n) (hn : n ≤ UINT32_SIZE)
    (hmem : Handle ∈ P.Instances) :
    ∃ Q : primitive mat4x4, P.OnInstanceDestroy Handle = some Q ∧
      Q.Instances.length = n - 1 ∧ Q.Transforms.length = n - 1 ∧
      P.Instances[(P.Memory Handle).Index]? = some Handle ∧
      P.Transforms[(P.Memory Handle).Index]? = primitive.instance.GetTransform P Handle ∧
      Q.Instances = P.Instances.eraseIdx (P.Memory Handle).Index ∧
      Q.Instances = P.Instances.erase Handle ∧
      Handle ∉ Q.Instances ∧
      Q.Transforms = P.Transforms.eraseIdx (P.Memory Handle).Index ∧
      (∀ Other : Nat, Other ∈ P.Instances → Other ≠ Handle →
        Other ∈ Q.Instances ∧
        (primitive.instance.GetTransform P Other).isSome = true ∧
        primitive.instance.GetTransform Q Other = primitive.instance.GetTransform P Other) ∧
      (∀ (i : Nat) (hi : i < Q.Instances.length),
        (Q.Memory (Q.Instances.get ⟨i, hi⟩)).Index = i) := by
  have hst : ∀ (i H : Nat), P.Instances[i]? = some H → (P.Memory H).Index = i := by
    intro i H hget
    obtain ⟨hi, hH⟩ := List.getElem?_eq_some.mp hget
    have := hindex i hi
    rw [List.get_eq_getElem, hH] at this
    exact this
  have hnd : P.Instances.Nodup := by
    rw [List.nodup_iff_injective_get]
    intro a b hab
    have ha := hindex a.val a.isLt
    have hb := hindex b.val b.isLt
    have ha2 : (P.Memory (P.Instances.get a)).Index = a.val := ha
    have hb2 : (P.Memory (P.Instances.get b)).Index = b.val := hb
    rw [hab] at ha2
    exact Fin.ext (ha2.symm.trans hb2)
  have hP : P.consistent := ⟨hnd, by rw [hI, hT], by rw [hI]; exact hn, hst⟩
  obtain ⟨Q, hQ, hc, hj, hQI, hQT⟩ := OnInstanceDestroy_spec P Handle hP hmem
  obtain ⟨hjlt, hjH⟩ := List.getElem?_eq_some.mp hj
  have hnotmem : Handle ∉ P.Instances.eraseIdx (P.Memory Handle).Index := by
    intro hin
    obtain ⟨i, hne, hi⟩ := List.mem_eraseIdx_iff_getElem?.mp hin
    exact hne (hst i Handle hi).symm
  refine ⟨Q, hQ, ?_, ?_, hj, rfl, hQI, ?_, ?_, hQT, ?_, ?_⟩
  · rw [hQI, List.length_eraseIdx_of_lt hjlt, hI]
  · rw [hQT, List.length_eraseIdx_of_lt (by omega), hT]
  · rw [hQI, ← hnd.erase_getElem _ hjlt, hjH]
  · rw [hQI]; exact hnotmem
  · intro Other hO hne
    obtain ⟨p, hp⟩ := List.mem_iff_getElem?.mp hO
    obtain ⟨hplt, -⟩ := List.getElem?_eq_some.mp hp
    have hpidx : (P.Memory Other).Index = p := hst p Other hp
    have hpj : p ≠ (P.Memory Handle).Index := by
      intro e
      rw [e, hj] at hp
      exact hne (Option.some.inj hp).symm
    have hOQ : Other ∈ Q.Instances := by
      rw [hQI]
      exact List.mem_eraseIdx_iff_getElem?.mpr ⟨p, hpj, hp⟩
    have hTP : primitive.instance.GetTransform P Other = P.Transforms[p]? := by
      simp only [primitive.instance.GetTransform, hpidx]
    refine ⟨hOQ, ?_, ?_⟩
    · rw [hTP, List.getElem?_eq_getElem (by omega : p < P.Transforms.length)]
      rfl
    · obtain ⟨q, hq⟩ := List.mem_iff_getElem?.mp hOQ
      have hqidx : (Q.Memory Other).Index = q := hc.2.2.2 q Other hq
      have hTQ : primitive.instance.GetTransform Q Other
          = (P.Transforms.eraseIdx (P.Memory Handle).Index)[q]? := by
        simp only [primitive.instance.GetTransform, hqidx, hQT]
      rw [hTQ, hTP]
      rw [hQI, List.getElem?_eraseIdx] at hq
      rw [List.getElem?_eraseIdx]
      by_cases hlt : q < (P.Memory Handle).Index
      · rw [if_pos hlt] at hq ⊢
        have hqp : q = p := by
          have h1 := hst q Other hq
          omega
        rw [hqp]
      · rw [if_neg hlt] at hq ⊢
        have hqp : q + 1 = p := by
          have h1 := hst (q + 1) Other hq
          omega
        rw [hqp]
  · intro i hi
    exact hc.2.2.2 i _ (List.getElem?_eq_getElem hi)

/-- Witness of C30: of the three instances at the addresses 10, 11, 12 with the
transforms 7, 8, 9, the one at address 11 is destroyed; the instance at
address 12 still has the transform 9. -/
theorem C30_OnInstanceDestroy_keeps_other_transforms_witness :
    (∀ (i : Nat) (hi : i < example_instances.Instances.length),
      (example_instances.Memory (example_instances.Instances.get ⟨i, hi⟩)).Index = i) ∧
    example_instances.Instances.length = 3 ∧ example_instances.Transforms.length = 3 ∧
    3 ≤ UINT32_SIZE ∧ 11 ∈ example_instances.Instances ∧
    ∃ Q : primitive Nat, example_instances.OnInstanceDestroy 11 = some Q ∧
      Q.Instances.length = 3 - 1 ∧ Q.Transforms.length = 3 - 1 :=
  have hindex : ∀ (i : Nat) (hi : i < example_instances.Instances.length),
      (example_instances.Memory (example_instances.Instances.get ⟨i, hi⟩)).Index = i := by
    intro i hi
    have h3 : i < 3 := hi
    interval_cases i <;> rfl
  have h := C30_OnInstanceDestroy_keeps_other_transforms example_instances 11 3 hindex
    (by decide) (by decide) (by decide) (by decide)
  ⟨hindex, by decide, by decide, by decide, by decide,
    h.elim (fun Q hQ => ⟨Q, hQ.1, hQ.2.1, hQ.2.2.1⟩)⟩

end anv.render.core
